import Mathlib

/-!
Socket protocol engine and streaming playback of `ai_client_socket.c`.

A shallow embedding of the framing codec (`socket_send_message`,
`socket_receive_message`), the receive dispatcher (`process_received_message`,
`receive_socket_response`), the audio assembly buffer, the playback sink
(`setup_audio_playback`, `play_audio_buffer`, `cleanup_audio_playback`), the interruption
controller (`set_audio_playing_state`, `interrupt_audio_playback`, `wait_for_gpio_press`) and
the voice upload (`send_voice_file_to_socket_server`) of
`src/ai_client_socket/ai_client_socket.c`, followed by the properties proved about them.

Conventions of the embedding:

* a byte is a `Nat`; a C pair (pointer, length) is the list of the `length` bytes it denotes;
* `unsigned int` arithmetic is `Nat` arithmetic reduced modulo `2 ^ 32` where the C code can
  wrap; `RK_S32` results are `Int`;
* the stream socket and the audio output device are external collaborators: their behaviour
  is given by explicit scripts (bytes to deliver, results to return) carried in the state;
* logging (`printf`, time stamps, `query_playback_status`) has no effect on the state and is
  left out; the device calls and the blocks handed to `play_audio_buffer` by the dispatcher
  are recorded in two observation logs, `ao_calls` and `play_log`;
* the embedding is sequential: it follows the receive thread, the flags shared with the GPIO
  thread change only through the functions modelled here.
-/

namespace AiClientSocket

/-! ## Constants -/

/-- Modelled from the spec: the vendor header `rk_defines.h` is not among the sources. Success
is the zero status: the code tests vendor results against `0` and against `RK_SUCCESS`
interchangeably (`setup_audio_playback`, lines 1099 and 1137). -/
def RK_SUCCESS : Int := 0

/-- Modelled from the spec: the vendor header `rk_defines.h` is not among the sources. The
failure status is a non-zero value, `-1` in the vendor SDK. -/
def RK_FAILURE : Int := -1

/-- `SOCKET_RESPONSE_BUFFER_SIZE`, line 53. -/
def SOCKET_RESPONSE_BUFFER_SIZE : Nat := 655360

/-- `AUDIO_PLAY_BUFFER_SIZE`, line 51: `sizeof(ctx->audio_buffer)`. -/
def AUDIO_PLAY_BUFFER_SIZE : Nat := 655360

def MSG_VOICE_START : Nat := 0x01
def MSG_VOICE_DATA : Nat := 0x02
def MSG_VOICE_END : Nat := 0x03
def MSG_TEXT_DATA : Nat := 0x04
def MSG_AUDIO_DATA : Nat := 0x05
def MSG_AI_START : Nat := 0x06
def MSG_AI_END : Nat := 0x07
def MSG_AUDIO_START : Nat := 0x08
def MSG_AUDIO_END : Nat := 0x09
def MSG_ERROR : Nat := 0x0A
def MSG_AI_CANCELLED : Nat := 0x0B
def MSG_JSON_RESPONSE : Nat := 0x0C
def MSG_CONFIG : Nat := 0x0D
def MSG_AI_NEWCHAT : Nat := 0x0E

/-- `AUDIO_END_MARKER`, line 72. -/
def AUDIO_END_MARKER : List Nat := [0x00, 0x00, 0x00, 0x00, 0xFF, 0xFF, 0xFF, 0xFF]

/-! ## The stream socket -/

/-- One end of a connected stream socket, as seen by the client. -/
structure Socket where
  /-- The bytes the peer delivers, in order, before it closes its end. -/
  rx : List Nat
  /-- The results of the coming `select` calls (`0` time-out, negative error, positive
  readable); once the script is used up the socket is readable. -/
  select_results : List Int
  /-- The bytes the connection has accepted from the client so far. -/
  tx : List Nat
  /-- The number of bytes the connection still accepts before it breaks. -/
  tx_room : Nat
deriving DecidableEq, Repr

/-- The call `select(sockfd + 1, &readfds, NULL, NULL, &timeout)`. -/
def select (sock : Socket) : Int × Socket :=
  match sock.select_results with
  | [] => (1, sock)
  | r :: rest => (r, { sock with select_results := rest })

/-- The call `recv(sockfd, buf, len, MSG_WAITALL)`: blocks until `len` bytes have arrived and
returns fewer only when the peer has closed. Returns the count and the bytes stored. -/
def recv (sock : Socket) (len : Nat) : Int × List Nat × Socket :=
  let got := sock.rx.take len
  (got.length, got, { sock with rx := sock.rx.drop len })

/-- The call `send(sockfd, buf, len, 0)`, `buf` being the `len` bytes to write: the count of
bytes accepted, or `-1` when the connection accepts nothing any more. -/
def send (sock : Socket) (buf : List Nat) : Int × Socket :=
  if buf.length = 0 then (0, sock)
  else if sock.tx_room = 0 then (-1, sock)
  else
    let n := min buf.length sock.tx_room
    (n, { sock with tx := sock.tx ++ buf.take n, tx_room := sock.tx_room - n })

/-! ## Framing codec -/

/-- `socket_send_message`, lines 217-252. `data` is the `data_len` bytes to send (the empty
list for the calls that pass `NULL, 0`). -/
def socket_send_message (sock : Socket) (msg_type : Nat) (data : List Nat) : Int × Socket :=
  let data_len := data.length
  let header : List Nat :=
    [msg_type % 256,
     (data_len >>> 24) &&& 0xFF,
     (data_len >>> 16) &&& 0xFF,
     (data_len >>> 8) &&& 0xFF,
     data_len &&& 0xFF]
  let (sent_bytes, sock1) := send sock header
  if sent_bytes ≠ 5 then (RK_FAILURE, sock1)
  else if data_len > 0 then
    let (sent_bytes, sock2) := send sock1 data
    if sent_bytes ≠ (data_len : Int) then (RK_FAILURE, sock2)
    else (RK_SUCCESS, sock2)
  else (RK_SUCCESS, sock1)

/-- `socket_receive_message`, lines 255-391. The result is `none` for `RK_FAILURE` and
`some (msg_type, data_len, data)` for `RK_SUCCESS`, `data` being the bytes stored in the
buffer of the caller; the socket returned tells how much of the stream was consumed. -/
def socket_receive_message (sock : Socket) (max_len : Nat) :
    Option (Nat × Nat × List Nat) × Socket :=
  let (select_result, sock1) := select sock
  if select_result ≤ 0 then (none, sock1)
  else
    let (received_bytes, header, sock2) := recv sock1 5
    if received_bytes ≠ 5 then (none, sock2)
    else
      let msg_type := header.getD 0 0
      let payload_len :=
        ((header.getD 1 0 <<< 24) ||| (header.getD 2 0 <<< 16) |||
          (header.getD 3 0 <<< 8) ||| header.getD 4 0) % 2 ^ 32
      if payload_len > max_len then (none, sock2)
      else if payload_len > 0 then
        let (received_bytes, data, sock3) := recv sock2 payload_len
        if received_bytes ≠ (payload_len : Int) then (none, sock3)
        else (some (msg_type, payload_len, data), sock3)
      else (some (msg_type, payload_len, []), sock2)

/-! ## The audio output device and the program state -/

/-- The calls made to the audio output device (`RK_MPI_AO_*`), as recorded in `ao_calls`.
The status query `RK_MPI_AO_QueryChnStat` only feeds the log and is not recorded. -/
inductive AoCall where
  | SetPubAttr
  | Enable
  | SetChnParams
  | EnableChn
  | SetVolume
  | SendFrame (frame : List Nat)
  | WaitEos
  | DisableReSmp
  | DisableChn
  | Disable
deriving DecidableEq, Repr

/-- The vendor SDK as an external collaborator: for each call whose result the program
examines, the results the coming calls return (success once a script is used up), and the
value of the vendor constant `RK_ERR_AO_BUSY`, whose header is not among the sources. -/
structure Vendor where
  SetPubAttr : List Int
  Enable : List Int
  SetChnParams : List Int
  EnableChn : List Int
  CreateMB : List Int
  SendFrame : List Int
  RK_ERR_AO_BUSY : Int
deriving DecidableEq, Repr

/-- The state the receive thread works on: the fields of `MY_RECORDER_CTX_S` it uses, the
file-scope flags, the function-local statics, `g_stPlaybackCtx.bInitialized`, the counters of
`g_timing_stats`, the vendor scripts and the two observation logs. -/
structure State where
  /-- `ctx->s32EnableStreaming`, tested for being non-zero. -/
  s32EnableStreaming : Bool
  /-- `ctx->responseFormat`. -/
  responseFormat : String
  /-- `ctx->audio_buffer`, the array of `AUDIO_PLAY_BUFFER_SIZE` bytes. -/
  audio_buffer : List Nat
  /-- `ctx->audio_buffer_size`, the fill of `audio_buffer`. -/
  audio_buffer_size : Nat
  gRecorderExit : Bool
  gAudioPlaying : Bool
  gAudioInterrupted : Bool
  gInterruptAIResponse : Bool
  gAIResponseActive : Bool
  /-- The static `audio_started` of `process_received_message`, line 547. -/
  audio_started : Bool
  /-- The static `error_count` of `play_audio_buffer`, line 1330. -/
  error_count : Nat
  /-- The static `timeStamp` of `play_audio_buffer`, line 1238. -/
  timeStamp : Nat
  /-- `g_stPlaybackCtx.bInitialized`. -/
  bInitialized : Bool
  audio_data_packets : Nat
  total_audio_bytes : Nat
  audio_segments_played : Nat
  first_audio_played : Bool
  vendor : Vendor
  /-- Observation log: the device calls made so far, oldest first. -/
  ao_calls : List AoCall
  /-- Observation log: the blocks the dispatcher has passed to `play_audio_buffer` so far,
  oldest first. -/
  play_log : List (List Nat)
deriving DecidableEq, Repr

/-- `memcmp(a, b, n)`: the sign of the first difference among the first `n` bytes. -/
def memcmp : List Nat → List Nat → Nat → Int
  | _, _, 0 => 0
  | a :: as, b :: bs, n + 1 =>
      if a < b then -1 else if b < a then 1 else memcmp as bs n
  | _, _, _ + 1 => 0

/-- `memcpy(dst + off, src, n)` on the array `dst`. A copy that would run past the end of
`dst` shows as a result longer than `dst`. -/
def memcpy (dst : List Nat) (off : Nat) (src : List Nat) (n : Nat) : List Nat :=
  dst.take off ++ src.take n ++ dst.drop (off + n)

/-- Records a device call in the observation log. -/
def ao_call (s : State) (c : AoCall) : State :=
  { s with ao_calls := s.ao_calls ++ [c] }

def RK_MPI_AO_SetPubAttr (s : State) : Int × State :=
  (s.vendor.SetPubAttr.headD 0,
    ao_call { s with vendor := { s.vendor with SetPubAttr := s.vendor.SetPubAttr.tail } }
      AoCall.SetPubAttr)

def RK_MPI_AO_Enable (s : State) : Int × State :=
  (s.vendor.Enable.headD 0,
    ao_call { s with vendor := { s.vendor with Enable := s.vendor.Enable.tail } } AoCall.Enable)

def RK_MPI_AO_SetChnParams (s : State) : Int × State :=
  (s.vendor.SetChnParams.headD 0,
    ao_call { s with vendor := { s.vendor with SetChnParams := s.vendor.SetChnParams.tail } }
      AoCall.SetChnParams)

def RK_MPI_AO_EnableChn (s : State) : Int × State :=
  (s.vendor.EnableChn.headD 0,
    ao_call { s with vendor := { s.vendor with EnableChn := s.vendor.EnableChn.tail } }
      AoCall.EnableChn)

def RK_MPI_SYS_CreateMB (s : State) : Int × State :=
  (s.vendor.CreateMB.headD 0,
    { s with vendor := { s.vendor with CreateMB := s.vendor.CreateMB.tail } })

def RK_MPI_AO_SendFrame (s : State) (frame : List Nat) : Int × State :=
  (s.vendor.SendFrame.headD 0,
    ao_call { s with vendor := { s.vendor with SendFrame := s.vendor.SendFrame.tail } }
      (AoCall.SendFrame frame))

/-! ## Interruption controller -/

/-- `set_audio_playing_state`, lines 2396-2403. -/
def set_audio_playing_state (s : State) (playing : Bool) : State :=
  let s := { s with gAudioPlaying := playing }
  if playing then { s with gAudioInterrupted := false } else s

/-- `get_audio_playing_state`, lines 2406-2412. -/
def get_audio_playing_state (s : State) : Bool := s.gAudioPlaying

/-- `is_audio_interrupted`, lines 2415-2421. -/
def is_audio_interrupted (s : State) : Bool := s.gAudioInterrupted

/-- `interrupt_audio_playback`, lines 2424-2451. -/
def interrupt_audio_playback (s : State) : Int × State :=
  if s.gAudioPlaying then
    let s :=
      if s.bInitialized then
        { ao_call (ao_call s AoCall.DisableChn) AoCall.Disable with bInitialized := false }
      else s
    (RK_SUCCESS, { s with gAudioPlaying := false, gAudioInterrupted := true })
  else (RK_FAILURE, s)

/-! ## Playback sink -/

/-- `setup_audio_playback`, lines 1010-1187. -/
def setup_audio_playback (s : State) : Int × State :=
  let s :=
    if s.bInitialized then
      { ao_call (ao_call s AoCall.DisableChn) AoCall.Disable with bInitialized := false }
    else s
  let (result, s) := RK_MPI_AO_SetPubAttr s
  if result ≠ 0 then (RK_FAILURE, s)
  else
    let (result, s) := RK_MPI_AO_Enable s
    if result ≠ 0 then (RK_FAILURE, s)
    else
      let (result, s) := RK_MPI_AO_SetChnParams s
      if result ≠ RK_SUCCESS then (RK_FAILURE, ao_call s AoCall.Disable)
      else
        let (result, s) := RK_MPI_AO_EnableChn s
        if result ≠ 0 then (RK_FAILURE, ao_call s AoCall.Disable)
        else
          let s := ao_call s AoCall.SetVolume
          (RK_SUCCESS, { s with bInitialized := true })

/-- `cleanup_audio_playback`, lines 1463-1505. The results of the four device calls are only
logged. -/
def cleanup_audio_playback (s : State) : Int × State :=
  if !s.bInitialized then (RK_SUCCESS, s)
  else
    let s := ao_call s AoCall.WaitEos
    let s := ao_call s AoCall.DisableReSmp
    let s := ao_call s AoCall.DisableChn
    let s := ao_call s AoCall.Disable
    let s := { s with bInitialized := false }
    (RK_SUCCESS, set_audio_playing_state s false)

/-- The submission loop of `play_audio_buffer` at the label `__RETRY`, lines 1316-1351: the
frame is submitted, a negative result is counted while the count is below 5, and the frame is
submitted again when the result is `RK_ERR_AO_BUSY` and the count is below 3. -/
def send_frame_retry (s : State) (frame : List Nat) : Int × State :=
  let r := RK_MPI_AO_SendFrame s frame
  if r.1 < 0 then
    let s1 := if r.2.error_count < 5 then { r.2 with error_count := r.2.error_count + 1 } else r.2
    if r.1 = s1.vendor.RK_ERR_AO_BUSY ∧ s1.error_count < 3 then send_frame_retry s1 frame
    else (r.1, s1)
  else r
termination_by 3 - s.error_count
decreasing_by
  simp_wf
  rename_i h
  have h3 := h.2
  unfold s1 r at h3
  simp only [RK_MPI_AO_SendFrame, ao_call] at h3 ⊢
  by_cases hc : s.error_count < 5 <;> simp [hc] at h3 ⊢ <;> omega

/-- The chunk loop of `play_audio_buffer`, lines 1249-1269: `data_ptr` is the part of the
input not yet played, `recurse` the recursive call made on each chunk. -/
def play_chunks (recurse : State → List Nat → Int × State) (s : State) (data_ptr : List Nat)
    (overall_result : Int) : Int × State :=
  if h : data_ptr.length > 0 then
    let chunk_size := if data_ptr.length > 4096 then 4096 else data_ptr.length
    let r := recurse s (data_ptr.take chunk_size)
    play_chunks recurse r.2 (data_ptr.drop chunk_size)
      (if r.1 ≠ RK_SUCCESS then r.1 else overall_result)
  else (overall_result, s)
termination_by data_ptr.length
decreasing_by
  simp_wf
  split <;> omega

/-- The body of `play_audio_buffer`, lines 1190-1386, with the recursive call made on the
chunks of a long input as the parameter `recurse`. -/
def play_audio_buffer_body (recurse : State → List Nat → Int × State) (s : State)
    (audio_data : List Nat) : Int × State :=
  if audio_data.length = 0 then (RK_SUCCESS, s)
  else if !get_audio_playing_state s then (RK_SUCCESS, s)
  else if !s.bInitialized then (RK_FAILURE, s)
  else
    let s := if !s.first_audio_played then { s with first_audio_played := true } else s
    if audio_data.length > 4096 then play_chunks recurse s audio_data RK_SUCCESS
    else
      let s := { s with timeStamp := s.timeStamp + 1 }
      let (result, s) := RK_MPI_SYS_CreateMB s
      if result ≠ RK_SUCCESS then (RK_FAILURE, s)
      else
        let (result, s) := send_frame_retry s audio_data
        let s :=
          if result = RK_SUCCESS then
            { s with audio_segments_played := s.audio_segments_played + 1 }
          else s
        (result, s)

/-- The recursive call of `play_audio_buffer` on a chunk: a chunk has at most 4096 bytes, so
the call never reaches the chunk loop again and its own recursive call is never made. -/
def play_audio_buffer_leaf (s : State) (audio_data : List Nat) : Int × State :=
  play_audio_buffer_body (fun s _ => (RK_SUCCESS, s)) s audio_data

/-- `play_audio_buffer`, lines 1190-1386. -/
def play_audio_buffer (s : State) (audio_data : List Nat) : Int × State :=
  play_audio_buffer_body play_audio_buffer_leaf s audio_data

/-! ## Protocol dispatcher and audio assembly buffer -/

/-- The bytes held by the assembly buffer: the first `audio_buffer_size` bytes of
`audio_buffer`, which is what `play_audio_buffer(ctx, ctx->audio_buffer,
ctx->audio_buffer_size)` is given. -/
def buffered (s : State) : List Nat := s.audio_buffer.take s.audio_buffer_size

/-- A call `play_audio_buffer(ctx, block, len)` made by the dispatcher: the sink runs on the
block, the block is recorded in `play_log`, and the result is only logged. -/
def dispatcher_play (s : State) (block : List Nat) : State :=
  { (play_audio_buffer s block).2 with play_log := s.play_log ++ [block] }

/-- The end-marker test of line 579, `data_len == 8 && memcmp(data, AUDIO_END_MARKER, 8) == 0`. -/
def is_audio_end_marker (data : List Nat) : Bool :=
  data.length = 8 ∧ memcmp data AUDIO_END_MARKER 8 = 0

/-- `case MSG_AUDIO_DATA` of `process_received_message`, lines 556-701. -/
def case_MSG_AUDIO_DATA (s : State) (data : List Nat) : State :=
  let data_len := data.length
  if is_audio_interrupted s then { s with audio_buffer_size := 0 }
  else
    let s := { s with audio_data_packets := s.audio_data_packets + 1,
                      total_audio_bytes := s.total_audio_bytes + data_len }
    if is_audio_end_marker data then
      if s.audio_buffer_size > 0 then
        let s :=
          if s.s32EnableStreaming && s.audio_started then dispatcher_play s (buffered s) else s
        { s with audio_buffer_size := 0 }
      else s
    else if data_len > AUDIO_PLAY_BUFFER_SIZE / 2 then
      if s.s32EnableStreaming && s.audio_started then dispatcher_play s data else s
    else if s.audio_buffer_size + data_len < AUDIO_PLAY_BUFFER_SIZE then
      { s with audio_buffer := memcpy s.audio_buffer s.audio_buffer_size data data_len,
               audio_buffer_size := s.audio_buffer_size + data_len }
    else
      let s :=
        if s.audio_buffer_size > 0 then
          if s.s32EnableStreaming && s.audio_started then dispatcher_play s (buffered s) else s
        else s
      let s := { s with audio_buffer_size := 0 }
      if data_len < AUDIO_PLAY_BUFFER_SIZE then
        { s with audio_buffer := memcpy s.audio_buffer 0 data data_len,
                 audio_buffer_size := data_len }
      else s

/-- `case MSG_AUDIO_START` of `process_received_message`, lines 715-730. -/
def case_MSG_AUDIO_START (s : State) : State :=
  let s := { s with audio_buffer_size := 0 }
  if s.s32EnableStreaming then
    let r := setup_audio_playback s
    if r.1 = RK_SUCCESS then set_audio_playing_state { r.2 with audio_started := true } true
    else r.2
  else s

/-- `case MSG_AUDIO_END` of `process_received_message`, lines 732-759. -/
def case_MSG_AUDIO_END (s : State) : State :=
  let s :=
    if s.audio_buffer_size > 0 then
      let s :=
        if s.s32EnableStreaming && s.audio_started then dispatcher_play s (buffered s) else s
      { s with audio_buffer_size := 0 }
    else s
  if s.audio_started then
    let s := (cleanup_audio_playback s).2
    let s := set_audio_playing_state s false
    { s with audio_started := false }
  else s

/-- `case MSG_ERROR` of `process_received_message`, lines 761-776. -/
def case_MSG_ERROR (s : State) : State :=
  if s.audio_started then
    let s := (cleanup_audio_playback s).2
    let s := set_audio_playing_state s false
    { s with audio_started := false, audio_buffer_size := 0 }
  else s

/-- `case MSG_AI_CANCELLED` of `process_received_message`, lines 778-792. -/
def case_MSG_AI_CANCELLED (s : State) : State :=
  let s := { s with gAIResponseActive := false }
  if s.audio_started then
    let s := (cleanup_audio_playback s).2
    let s := set_audio_playing_state s false
    { s with audio_started := false, audio_buffer_size := 0 }
  else s

/-- `process_received_message`, lines 545-811: the `switch` on the message kind. `data` is
the `data_len` bytes of the payload. -/
def process_received_message (s : State) (msg_type : Nat) (data : List Nat) : Int × State :=
  if msg_type = MSG_TEXT_DATA then (RK_SUCCESS, s)
  else if msg_type = MSG_AUDIO_DATA then (RK_SUCCESS, case_MSG_AUDIO_DATA s data)
  else if msg_type = MSG_AI_START then (RK_SUCCESS, { s with gAIResponseActive := true })
  else if msg_type = MSG_AI_END then (RK_SUCCESS, { s with gAIResponseActive := false })
  else if msg_type = MSG_AUDIO_START then (RK_SUCCESS, case_MSG_AUDIO_START s)
  else if msg_type = MSG_AUDIO_END then (RK_SUCCESS, case_MSG_AUDIO_END s)
  else if msg_type = MSG_ERROR then (RK_SUCCESS, case_MSG_ERROR s)
  else if msg_type = MSG_AI_CANCELLED then (RK_SUCCESS, case_MSG_AI_CANCELLED s)
  else if msg_type = MSG_JSON_RESPONSE then (RK_SUCCESS, s)
  else if msg_type = MSG_AI_NEWCHAT then (RK_SUCCESS, s)
  else (RK_SUCCESS, s)

/-- The local variables of `receive_socket_response`, lines 818-821. -/
structure RecvLocals where
  message_count : Nat
  ai_end_received : Bool
  error_received : Bool
  consecutive_non_progress_msgs : Nat
deriving DecidableEq, Repr

/-- The `while` loop of `receive_socket_response`, lines 826-900. The first component is
`some r` when the loop was left by `return r` and `none` when it was left by `break` or by
its condition. -/
def receive_loop (sock : Socket) (s : State) (l : RecvLocals) :
    Option Int × Socket × State × RecvLocals :=
  if s.gRecorderExit || l.ai_end_received then (none, sock, s, l)
  else if s.gInterruptAIResponse then (none, sock, s, l)
  else
    match h : socket_receive_message sock SOCKET_RESPONSE_BUFFER_SIZE with
    | (none, sock1) =>
        if l.message_count > 0 then (none, sock1, s, l)
        else (some RK_FAILURE, sock1, s, l)
    | (some (msg_type, _, data), sock1) =>
        let l := { l with message_count := l.message_count + 1 }
        let s := (process_received_message s msg_type data).2
        let l :=
          if msg_type = MSG_AUDIO_DATA ∨ msg_type = MSG_TEXT_DATA ∨
              msg_type = MSG_AI_START ∨ msg_type = MSG_AUDIO_START then
            { l with consecutive_non_progress_msgs := 0 }
          else { l with consecutive_non_progress_msgs := l.consecutive_non_progress_msgs + 1 }
        let l := if msg_type = MSG_AI_END then { l with ai_end_received := true } else l
        if msg_type = MSG_JSON_RESPONSE ∧ s.responseFormat = "json" then (none, sock1, s, l)
        else if msg_type = MSG_ERROR then
          (none, sock1, s, { l with error_received := true, ai_end_received := true })
        else if msg_type = MSG_AI_CANCELLED then (none, sock1, s, l)
        else if l.error_received ∧ l.consecutive_non_progress_msgs ≥ 2 then (none, sock1, s, l)
        else if l.consecutive_non_progress_msgs ≥ 5 then (none, sock1, s, l)
        else receive_loop sock1 s l
termination_by sock.rx.length
decreasing_by
  unfold socket_receive_message select recv at h
  cases hs : sock.select_results <;> simp only [hs] at h <;>
    (split_ifs at h <;> simp at h <;> obtain ⟨-, rfl⟩ := h <;> simp at * <;> omega)

/-- `receive_socket_response`, lines 814-913. -/
def receive_socket_response (sock : Socket) (s : State) : Int × Socket × State :=
  match receive_loop sock s ⟨0, false, false, 0⟩ with
  | (some r, sock1, s1, _) => (r, sock1, s1)
  | (none, sock1, s1, _) =>
      (RK_SUCCESS, sock1, { s1 with gInterruptAIResponse := false, gAIResponseActive := false })

/-- The dispatcher run over a sequence of decoded frames (kind, payload), in order. -/
def process_frames (s : State) (frames : List (Nat × List Nat)) : State :=
  frames.foldl (fun st f => (process_received_message st f.1 f.2).2) s

/-- The bytes a peer puts on the wire for one frame: what `socket_send_message` writes on a
fresh connection with room for the frame. -/
def wire (msg_type : Nat) (data : List Nat) : List Nat :=
  (socket_send_message ⟨[], [], [], 5 + data.length⟩ msg_type data).2.tx

/-- The fields of the state that neither the device calls nor `play_audio_buffer` touch. -/
def ctx_core (s : State) :=
  (s.s32EnableStreaming, s.responseFormat, s.audio_buffer, s.audio_buffer_size, s.gRecorderExit,
    s.gAudioPlaying, s.gAudioInterrupted, s.gInterruptAIResponse, s.gAIResponseActive,
    s.audio_started, s.bInitialized, s.audio_data_packets, s.total_audio_bytes, s.play_log)


/-! ## Frame streams and the bookkeeping of the receive loop -/

/-- The bytes on the wire for a sequence of frames (kind, payload), in order. -/
def wire_frames : List (Nat × List Nat) → List Nat
  | [] => []
  | f :: fs => wire f.1 f.2 ++ wire_frames fs

/-- Frames the peer can put on the wire and the decoder accepts: the kind fits one byte and
the payload fits the receive buffer. -/
def frames_ok (frames : List (Nat × List Nat)) : Prop :=
  ∀ f ∈ frames, f.1 < 256 ∧ f.2.length ≤ SOCKET_RESPONSE_BUFFER_SIZE

instance (frames : List (Nat × List Nat)) : Decidable (frames_ok frames) := by
  unfold frames_ok
  infer_instance

/-- The kinds that reset the count of consecutive non-progress frames, line 851. -/
def progress_kind (t : Nat) : Prop :=
  t = MSG_AUDIO_DATA ∨ t = MSG_TEXT_DATA ∨ t = MSG_AI_START ∨ t = MSG_AUDIO_START

instance (t : Nat) : Decidable (progress_kind t) := by
  unfold progress_kind
  infer_instance

/-- The kinds whose frame ends the loop by `break` as soon as it has been processed, lines
866-887, for the response format `fmt`. -/
def ends_loop (fmt : String) (t : Nat) : Prop :=
  (t = MSG_JSON_RESPONSE ∧ fmt = "json") ∨ t = MSG_ERROR ∨ t = MSG_AI_CANCELLED

/-- The loop variables once a frame of kind `t` has been counted, lines 846-863. -/
def next_locals (l : RecvLocals) (t : Nat) : RecvLocals :=
  let l1 : RecvLocals := { l with message_count := l.message_count + 1 }
  let l2 : RecvLocals :=
    if t = MSG_AUDIO_DATA ∨ t = MSG_TEXT_DATA ∨ t = MSG_AI_START ∨ t = MSG_AUDIO_START then
      { l1 with consecutive_non_progress_msgs := 0 }
    else { l1 with consecutive_non_progress_msgs := l1.consecutive_non_progress_msgs + 1 }
  if t = MSG_AI_END then { l2 with ai_end_received := true } else l2

/-- The count of consecutive non-progress frames after the frames `fs`, starting from `c`. -/
def count_after (c : Nat) : List (Nat × List Nat) → Nat
  | [] => c
  | f :: fs => count_after (if progress_kind f.1 then 0 else c + 1) fs

/-- Playback is tracked by the dispatcher: whenever audio is playing or the device is
initialised, the dispatcher knows that an audio segment has started. -/
def playback_tracked (s : State) : Prop :=
  (s.gAudioPlaying = true → s.audio_started = true) ∧
  (s.bInitialized = true → s.audio_started = true)

/-! ## The chunks of a large input -/

/-- The chunks the loop of lines 1249-1269 cuts from the input: consecutive slices of 4096
bytes, the last one holding what remains. -/
def chunks4096 (d : List Nat) : List (List Nat) :=
  if h : d.length > 0 then
    let chunk_size := if d.length > 4096 then 4096 else d.length
    d.take chunk_size :: chunks4096 (d.drop chunk_size)
  else []
termination_by d.length
decreasing_by
  simp only [List.length_drop]
  split <;> omega

/-- The device and vendor conditions under which each chunk is submitted exactly once:
playback active, device initialised, every memory block is created, and no submission is
answered with device-busy. -/
def steady_device (s : State) : Prop :=
  s.gAudioPlaying = true ∧ s.bInitialized = true ∧
  (∀ r ∈ s.vendor.CreateMB, r = RK_SUCCESS) ∧
  (∀ r ∈ s.vendor.SendFrame, r ≠ s.vendor.RK_ERR_AO_BUSY)

/-! ## Sequences of controller operations -/

/-- An operation of the interruption controller. -/
inductive ControllerOp where
  | set_playing (playing : Bool)
  | interrupt
deriving DecidableEq, Repr

/-- The effect of one controller operation on the state. -/
def apply_op (s : State) : ControllerOp → State
  | ControllerOp.set_playing playing => set_audio_playing_state s playing
  | ControllerOp.interrupt => (interrupt_audio_playback s).2

/-- The effect of a sequence of controller operations, in order. -/
def apply_ops (s : State) (ops : List ControllerOp) : State := ops.foldl apply_op s

/-! ## Example inputs -/

/-- A vendor SDK whose calls all succeed; `RK_ERR_AO_BUSY` is given an example negative
value. -/
def example_vendor : Vendor := ⟨[], [], [], [], [], [], -1609859054⟩

/-- The state of a freshly started client with streaming playback enabled: nothing playing,
all flags clear, the assembly buffer empty. -/
def idle_state : State :=
  { s32EnableStreaming := true, responseFormat := "stream",
    audio_buffer := List.replicate 655360 0, audio_buffer_size := 0,
    gRecorderExit := false, gAudioPlaying := false, gAudioInterrupted := false,
    gInterruptAIResponse := false, gAIResponseActive := false, audio_started := false,
    error_count := 0, timeStamp := 0, bInitialized := false, audio_data_packets := 0,
    total_audio_bytes := 0, audio_segments_played := 0, first_audio_played := false,
    vendor := example_vendor, ao_calls := [], play_log := [] }

/-- A state in the middle of a streamed audio segment, `fill` bytes being buffered. -/
def playing_state (fill : Nat) : State :=
  { idle_state with audio_buffer_size := fill, gAudioPlaying := true, audio_started := true,
                    bInitialized := true }

/-- A connection with room for 64 bytes on which nothing has been written yet. -/
def fresh_sender : Socket := ⟨[], [], [], 64⟩

/-- A connection whose peer delivers the given bytes and then closes. -/
def receiver_of (bytes : List Nat) : Socket := ⟨bytes, [], [], 0⟩

/-- A receiving end holding the frame of kind 5 with payload 1, 2, 3, followed by the byte 9. -/
def roundtrip_receiver : Socket := receiver_of [5, 0, 0, 0, 3, 1, 2, 3, 9]

/-- A receiving end whose first header declares 9 payload bytes, three bytes following. -/
def oversize_receiver : Socket := receiver_of [5, 0, 0, 0, 9, 1, 2, 3]

/-- The frames of the streaming scenario: AUDIO_START, one AUDIO_DATA payload, an AUDIO_DATA
frame carrying the end marker, AUDIO_END. -/
def scenario_frames (p : List Nat) : List (Nat × List Nat) :=
  [(MSG_AUDIO_START, []), (MSG_AUDIO_DATA, p), (MSG_AUDIO_DATA, AUDIO_END_MARKER),
    (MSG_AUDIO_END, [])]

/-- The frames of one complete response with a single audio payload. -/
def exchange_frames (x : List Nat) : List (Nat × List Nat) :=
  [(MSG_AI_START, []), (MSG_AUDIO_START, []), (MSG_AUDIO_DATA, x), (MSG_AUDIO_END, []),
    (MSG_AI_END, [])]

/-- The bytes on the wire for the frames of `exchange_frames`, followed by `rest`. -/
def exchange_stream (x rest : List Nat) : List Nat :=
  wire MSG_AI_START [] ++ (wire MSG_AUDIO_START [] ++ (wire MSG_AUDIO_DATA x ++
    (wire MSG_AUDIO_END [] ++ (wire MSG_AI_END [] ++ rest))))

/-- A state whose playback was interrupted while 100 bytes were being assembled. -/
def interrupted_state : State :=
  { idle_state with audio_buffer_size := 100, gAudioInterrupted := true, audio_started := true }

/-- A state in which the abort-AI-response signal has been raised. -/
def aborting_state : State := { idle_state with gInterruptAIResponse := true }

/-- Five AI_NEWCHAT frames without payload. -/
def newchat_frames : List (Nat × List Nat) := List.replicate 5 (MSG_AI_NEWCHAT, [])

/-- A playing state in which the next memory block cannot be created. -/
def no_block_state : State :=
  { playing_state 0 with vendor := { example_vendor with CreateMB := [-1] } }

/-- A playing state in which the next submission is answered with device-busy. -/
def busy_state : State :=
  { playing_state 0 with vendor := { example_vendor with SendFrame := [-1609859054] } }

/-! ## Teardown results and playback operations -/

/-- `cleanup_audio_playback`, lines 1463-1505, with the results of its four device calls (the
drain wait and the three disable calls) given: each result is only tested to print a
warning. -/
def cleanup_audio_playback_with (s : State) (waitResult reSmpResult chnResult devResult : Int) :
    Int × State :=
  if !s.bInitialized then (RK_SUCCESS, s)
  else
    let s := ao_call s AoCall.WaitEos
    let s := if waitResult ≠ RK_SUCCESS then s else s
    let s := ao_call s AoCall.DisableReSmp
    let s := if reSmpResult ≠ 0 then s else s
    let s := ao_call s AoCall.DisableChn
    let s := if chnResult ≠ 0 then s else s
    let s := ao_call s AoCall.Disable
    let s := if devResult ≠ 0 then s else s
    let s := { s with bInitialized := false }
    (RK_SUCCESS, set_audio_playing_state s false)

/-- An operation on the playback state: a call of the interruption controller, a device
teardown, or a frame handled by the dispatcher. -/
inductive PlaybackOp where
  | set_playing (playing : Bool)
  | interrupt
  | cleanup
  | frame (msg_type : Nat) (data : List Nat)
deriving DecidableEq, Repr

/-- The effect of one playback operation on the state. -/
def run_op (s : State) : PlaybackOp → State
  | PlaybackOp.set_playing playing => set_audio_playing_state s playing
  | PlaybackOp.interrupt => (interrupt_audio_playback s).2
  | PlaybackOp.cleanup => (cleanup_audio_playback s).2
  | PlaybackOp.frame msg_type data => (process_received_message s msg_type data).2

/-- The effect of a sequence of playback operations, in order. -/
def run_ops (s : State) (ops : List PlaybackOp) : State := ops.foldl run_op s

/-- A freshly started client whose device accepts the first setup and refuses the second. -/
def restart_state : State :=
  { idle_state with vendor := { example_vendor with SetPubAttr := [0, -1] } }

/-- Playing and interrupted are not both set. -/
def flags_exclusive (s : State) : Prop :=
  ¬ (s.gAudioPlaying = true ∧ s.gAudioInterrupted = true)

/-! ## A refused setup -/

/-- A freshly started client whose device refuses the first setup. -/
def refusing_state : State :=
  { idle_state with vendor := { example_vendor with SetPubAttr := [-1] } }

/-! ## The push-to-talk line -/

/-- The push-to-talk line: `samples` holds what `read_gpio_state` returns on the successive
polls (1 high, 0 low, negative when the read fails; a read past the end of the list fails),
with the two flags the press handler sets. -/
structure Gpio where
  samples : List Int
  gGpioRecording : Bool
  gGpioPressed : Bool
deriving DecidableEq, Repr

/-- The handling of a press edge in `wait_for_gpio_press`, lines 2515-2541. -/
def gpio_pressed (s : State) (g : Gpio) : Int × State × Gpio :=
  let need_interrupt := get_audio_playing_state s || s.gAIResponseActive
  let s :=
    if need_interrupt then
      let s := if get_audio_playing_state s then (interrupt_audio_playback s).2 else s
      { s with gInterruptAIResponse := true }
    else s
  let g := if !g.gGpioRecording then { g with gGpioRecording := true } else g
  (RK_SUCCESS, s, { g with gGpioPressed := true })

/-- The polling loop of `wait_for_gpio_press`, lines 2506-2547, run on the samples still to
be read, `prev_state` being the sample of the previous poll. -/
def wait_for_gpio_press_loop (s : State) (g : Gpio) (prev_state : Int) :
    List Int → Int × State × Gpio
  | [] => (RK_FAILURE, s, { g with samples := [] })
  | current_state :: rest =>
    if s.gRecorderExit then (RK_FAILURE, s, { g with samples := current_state :: rest })
    else if current_state < 0 then (RK_FAILURE, s, { g with samples := rest })
    else if prev_state = 0 ∧ current_state = 1 then gpio_pressed s { g with samples := rest }
    else wait_for_gpio_press_loop s g current_state rest

/-- `wait_for_gpio_press`, lines 2502-2550. -/
def wait_for_gpio_press (s : State) (g : Gpio) : Int × State × Gpio :=
  wait_for_gpio_press_loop s g (-1) g.samples

/-- A line that is read high, then low twice, then high: one press. -/
def press_gpio : Gpio := ⟨[1, 0, 0, 1, 1], false, false⟩

/-! ## The voice upload -/

/-- The part of the recorder context and of the timing statistics that
`send_voice_file_to_socket_server` uses: the upload switch, whether an output path is set,
what `fopen` gives on that path (`none` when the file cannot be opened, else its bytes), and
the two counters of voice data. -/
structure VoiceCtx where
  s32EnableUpload : Bool
  outputFilePath : Bool
  file : Option (List Nat)
  voice_data_packets : Nat
  total_voice_bytes : Nat
deriving DecidableEq, Repr

/-- The `while` loop of `send_voice_file_to_socket_server`, lines 500-529: `file` holds the
bytes not yet read, `fread` takes up to 1024 of them. The first component is `some r` when
the loop was left by `return r`. -/
def voice_data_loop (sock : Socket) (s : State) (u : VoiceCtx) (file : List Nat) :
    Option Int × Socket × VoiceCtx :=
  if h : (file.take 1024).length > 0 then
    let file_buffer := file.take 1024
    let r := socket_send_message sock MSG_VOICE_DATA file_buffer
    if r.1 ≠ RK_SUCCESS then (some RK_FAILURE, r.2, u)
    else
      let u := { u with voice_data_packets := u.voice_data_packets + 1,
                        total_voice_bytes := u.total_voice_bytes + file_buffer.length }
      if s.gRecorderExit then (none, r.2, u)
      else voice_data_loop r.2 s u (file.drop 1024)
  else (none, sock, u)
termination_by file.length
decreasing_by
  simp only [List.length_take, List.length_drop] at h ⊢
  omega

/-- `send_voice_file_to_socket_server`, lines 459-542. -/
def send_voice_file_to_socket_server (sock : Socket) (s : State) (u : VoiceCtx) :
    Int × Socket × VoiceCtx :=
  if !u.s32EnableUpload || !u.outputFilePath then (RK_SUCCESS, sock, u)
  else
    match u.file with
    | none => (RK_FAILURE, sock, u)
    | some content =>
      let r := socket_send_message sock MSG_VOICE_START []
      if r.1 ≠ RK_SUCCESS then (RK_FAILURE, r.2, u)
      else
        match voice_data_loop r.2 s u content with
        | (some e, sock1, u1) => (e, sock1, u1)
        | (none, sock1, u1) =>
          let r := socket_send_message sock1 MSG_VOICE_END []
          if r.1 ≠ RK_SUCCESS then (RK_FAILURE, r.2, u1)
          else (RK_SUCCESS, r.2, u1)

/-- The slices `fread` cuts from a file read 1024 bytes at a time, lines 500-501. -/
def file_slices (file : List Nat) : List (List Nat) :=
  if h : (file.take 1024).length > 0 then file.take 1024 :: file_slices (file.drop 1024)
  else []
termination_by file.length
decreasing_by
  simp only [List.length_take, List.length_drop] at h ⊢
  omega

/-- A recorder context with upload enabled whose file holds the bytes 1 to 5. -/
def upload_ctx : VoiceCtx := ⟨true, true, some [1, 2, 3, 4, 5], 0, 0⟩

/-! ## Sequences of play calls -/

/-- The state after a sequence of calls of `play_audio_buffer`, one per input, in order. -/
def play_sequence (s : State) (ds : List (List Nat)) : State :=
  ds.foldl (fun st d => (play_audio_buffer st d).2) s

/-- The number of times one call of `play_audio_buffer` on at most 4096 bytes submits its
frame again: the device calls it makes, all of them submissions of the frame, less the
first. -/
def resubmissions (s : State) (d : List Nat) : Nat :=
  ((play_audio_buffer s d).2.ao_calls.length - s.ao_calls.length) - 1

/-- The re-submissions made over a sequence of calls of `play_audio_buffer`, each on at most
4096 bytes. -/
def total_resubmissions (s : State) : List (List Nat) → Nat
  | [] => 0
  | d :: ds => resubmissions s d + total_resubmissions (play_audio_buffer s d).2 ds

/-! ## Theorems -/

/-! ## Arithmetic of the length field -/

theorem and_ff (n : Nat) : n &&& 0xFF = n % 256 :=
  Nat.and_pow_two_sub_one_eq_mod n 8

theorem be32_or_eq_add (a b c d : Nat) (hb : b < 256) (hc : c < 256) (hd : d < 256) :
    (a <<< 24) ||| (b <<< 16) ||| (c <<< 8) ||| d
      = a * 2 ^ 24 + b * 2 ^ 16 + c * 2 ^ 8 + d := by
  have h1 : a <<< 24 ||| b <<< 16 = 2 ^ 16 * (a * 2 ^ 8 + b) := by
    have := Nat.mul_add_lt_is_or (show b * 2 ^ 16 < 2 ^ 24 by omega) a
    rw [Nat.shiftLeft_eq, Nat.shiftLeft_eq]
    rw [show a * 2 ^ 24 = 2 ^ 24 * a by ring, ← this]; ring
  have h2 : 2 ^ 16 * (a * 2 ^ 8 + b) ||| c <<< 8 = 2 ^ 8 * (a * 2 ^ 16 + b * 2 ^ 8 + c) := by
    have := Nat.mul_add_lt_is_or (show c * 2 ^ 8 < 2 ^ 16 by omega) (a * 2 ^ 8 + b)
    rw [Nat.shiftLeft_eq, ← this]; ring
  have h3 := Nat.mul_add_lt_is_or (show d < 2 ^ 8 by omega) (a * 2 ^ 16 + b * 2 ^ 8 + c)
  rw [h1, h2, ← h3]; ring

theorem be32_value (n : Nat) (h : n < 2 ^ 32) :
    (n / 2 ^ 24 % 256) * 2 ^ 24 + (n / 2 ^ 16 % 256) * 2 ^ 16 + (n / 2 ^ 8 % 256) * 2 ^ 8
      + n % 256 = n := by
  omega

/-! ## The socket calls -/

theorem select_eq (sock : Socket) :
    select sock
      = (sock.select_results.headD 1,
          { sock with select_results := sock.select_results.tail }) := by
  unfold select
  cases h : sock.select_results with
  | nil => cases sock; simp_all
  | cons r rest => simp

theorem select_ready (sock : Socket) (h : ∀ r ∈ sock.select_results, 0 < r) :
    0 < (select sock).1 := by
  rw [select_eq]
  cases hs : sock.select_results with
  | nil => simp
  | cons r rest => simpa using h r (by simp [hs])

theorem send_all (sock : Socket) (buf : List Nat) (h : buf.length ≤ sock.tx_room) :
    send sock buf = ((buf.length : Int),
      { sock with tx := sock.tx ++ buf, tx_room := sock.tx_room - buf.length }) := by
  unfold send
  by_cases h0 : buf.length = 0
  · have : buf = [] := List.length_eq_zero.mp h0
    subst this; simp
  · have h1 : sock.tx_room ≠ 0 := by omega
    simp [h0, h1, Nat.min_eq_left h]

theorem send_count (sock : Socket) (buf : List Nat)
    (h : (send sock buf).1 = (buf.length : Int)) :
    (send sock buf).2.tx = sock.tx ++ buf := by
  unfold send at h ⊢
  by_cases h0 : buf.length = 0
  · have : buf = [] := List.length_eq_zero.mp h0
    subst this; simp
  · by_cases h1 : sock.tx_room = 0
    · simp [h0, h1] at h
    · simp only [h0, h1, if_false] at h ⊢
      have : min buf.length sock.tx_room = buf.length := by
        have : ((min buf.length sock.tx_room : Nat) : Int) = (buf.length : Int) := h
        exact_mod_cast this
      simp [this]

/-! ## The framing codec -/

theorem socket_send_message_ok (sock : Socket) (t : Nat) (p : List Nat)
    (hok : (socket_send_message sock t p).1 = RK_SUCCESS) :
    (socket_send_message sock t p).2.tx =
      sock.tx ++ (t % 256 :: [p.length / 2 ^ 24 % 256, p.length / 2 ^ 16 % 256,
        p.length / 2 ^ 8 % 256, p.length % 256]) ++ p := by
  unfold socket_send_message at hok ⊢
  simp only [and_ff, Nat.shiftRight_eq_div_pow] at hok ⊢
  generalize hH : [t % 256, p.length / 2 ^ 24 % 256, p.length / 2 ^ 16 % 256,
    p.length / 2 ^ 8 % 256, p.length % 256] = H at hok ⊢
  have hHl : H.length = 5 := by subst hH; rfl
  by_cases h5 : (send sock H).1 = 5
  · have htx := send_count sock H (by rw [h5, hHl]; rfl)
    by_cases hp : p.length > 0
    · by_cases hd : (send (send sock H).2 p).1 = (p.length : Int)
      · have := send_count _ p hd
        simp [h5, hp, hd, this, htx]
      · simp [h5, hp, hd, RK_FAILURE, RK_SUCCESS] at hok
    · have : p = [] := List.length_eq_zero.mp (by omega)
      subst this
      simp [h5, htx]
  · simp [h5, RK_FAILURE, RK_SUCCESS] at hok

theorem socket_send_message_room (sock : Socket) (t : Nat) (p : List Nat)
    (hroom : 5 + p.length ≤ sock.tx_room) :
    (socket_send_message sock t p).1 = RK_SUCCESS := by
  unfold socket_send_message
  simp only [and_ff, Nat.shiftRight_eq_div_pow]
  rw [send_all sock _ (by simp; omega)]
  by_cases hp : p.length > 0
  · simp only [List.length_cons, List.length_nil]
    rw [send_all _ p (by simp; omega)]
    simp [hp]
  · simp [hp]

theorem socket_receive_message_frame (sock : Socket) (max_len t b1 b2 b3 b4 : Nat)
    (tail : List Nat) (hrx : sock.rx = t :: b1 :: b2 :: b3 :: b4 :: tail)
    (hsel : 0 < (select sock).1) (hb2 : b2 < 256) (hb3 : b3 < 256) (hb4 : b4 < 256) :
    socket_receive_message sock max_len =
      if (b1 * 2 ^ 24 + b2 * 2 ^ 16 + b3 * 2 ^ 8 + b4) % 2 ^ 32 > max_len then
        (none, { (select sock).2 with rx := tail })
      else if (b1 * 2 ^ 24 + b2 * 2 ^ 16 + b3 * 2 ^ 8 + b4) % 2 ^ 32 ≤ tail.length then
        (some (t, (b1 * 2 ^ 24 + b2 * 2 ^ 16 + b3 * 2 ^ 8 + b4) % 2 ^ 32,
            tail.take ((b1 * 2 ^ 24 + b2 * 2 ^ 16 + b3 * 2 ^ 8 + b4) % 2 ^ 32)),
          { (select sock).2 with
              rx := tail.drop ((b1 * 2 ^ 24 + b2 * 2 ^ 16 + b3 * 2 ^ 8 + b4) % 2 ^ 32) })
      else
        (none, { (select sock).2 with
              rx := tail.drop ((b1 * 2 ^ 24 + b2 * 2 ^ 16 + b3 * 2 ^ 8 + b4) % 2 ^ 32) }) := by
  have hrx1 : (select sock).2.rx = t :: b1 :: b2 :: b3 :: b4 :: tail := by
    unfold select; split <;> simp [hrx]
  unfold socket_receive_message
  simp only [recv, hrx1]
  simp only [not_le.mpr hsel, if_false, List.take, List.drop, List.length]
  simp only [List.getD_cons_zero, List.getD_cons_succ, be32_or_eq_add b1 b2 b3 b4 hb2 hb3 hb4]
  generalize (b1 * 2 ^ 24 + b2 * 2 ^ 16 + b3 * 2 ^ 8 + b4) % 2 ^ 32 = L
  by_cases h1 : L > max_len
  · simp [h1]
  · by_cases h2 : L > 0
    · by_cases h3 : L ≤ tail.length
      · simp [h1, h2, h3]
      · simp [h1, h2, h3]
    · have : L = 0 := by omega
      subst this
      simp

theorem wire_eq (t : Nat) (p : List Nat) :
    wire t p = t % 256 :: p.length / 2 ^ 24 % 256 :: p.length / 2 ^ 16 % 256 ::
      p.length / 2 ^ 8 % 256 :: p.length % 256 :: p := by
  unfold wire
  rw [socket_send_message_ok _ t p (socket_send_message_room _ t p (le_refl _))]
  simp

theorem socket_receive_message_wire (sock : Socket) (max_len t : Nat) (p rest : List Nat)
    (hrx : sock.rx = wire t p ++ rest) (hsel : 0 < (select sock).1) (ht : t < 256)
    (hp : p.length ≤ max_len) (hm : max_len < 2 ^ 32) :
    socket_receive_message sock max_len
      = (some (t, p.length, p), { (select sock).2 with rx := rest }) := by
  have hlen : p.length < 2 ^ 32 := by omega
  rw [wire_eq, Nat.mod_eq_of_lt ht] at hrx
  rw [socket_receive_message_frame sock max_len t (p.length / 2 ^ 24 % 256)
    (p.length / 2 ^ 16 % 256) (p.length / 2 ^ 8 % 256) (p.length % 256) (p ++ rest)
    (by rw [hrx]; simp only [List.cons_append]) hsel
    (Nat.mod_lt _ (by norm_num)) (Nat.mod_lt _ (by norm_num)) (Nat.mod_lt _ (by norm_num))]
  rw [be32_value p.length hlen, Nat.mod_eq_of_lt hlen]
  simp [not_lt.mpr hp]


/-! ## Claims about the framing codec -/

/-- C1: for every kind byte and every payload no longer than max_len, sending the frame with
socket_send_message on a connection with room for it succeeds, and socket_receive_message with
limit max_len, run on the bytes that were written (followed by any further bytes), succeeds
and returns the same kind, the same length and the same payload, leaving the further bytes
unread. -/
theorem roundtrip_framing (snd rcv : Socket) (kind max_len : Nat) (p rest : List Nat)
    (hk : kind < 256) (hp : p.length ≤ max_len) (hm : max_len < 2 ^ 32)
    (hroom : 5 + p.length ≤ snd.tx_room)
    (hrx : rcv.rx = (socket_send_message snd kind p).2.tx.drop snd.tx.length ++ rest)
    (hsel : 0 < (select rcv).1) :
    (socket_send_message snd kind p).1 = RK_SUCCESS ∧
      socket_receive_message rcv max_len
        = (some (kind, p.length, p), { (select rcv).2 with rx := rest }) := by
  have hok := socket_send_message_room snd kind p hroom
  refine ⟨hok, ?_⟩
  have htx := socket_send_message_ok snd kind p hok
  rw [htx, List.append_assoc, List.drop_left, Nat.mod_eq_of_lt hk] at hrx
  have hlen : p.length < 2 ^ 32 := by omega
  have hval := be32_value p.length hlen
  rw [socket_receive_message_frame rcv max_len kind (p.length / 2 ^ 24 % 256)
    (p.length / 2 ^ 16 % 256) (p.length / 2 ^ 8 % 256) (p.length % 256) (p ++ rest)
    (by rw [hrx]; simp only [List.cons_append, List.nil_append, List.append_assoc]) hsel
    (Nat.mod_lt _ (by norm_num)) (Nat.mod_lt _ (by norm_num)) (Nat.mod_lt _ (by norm_num))]
  rw [hval, Nat.mod_eq_of_lt hlen]
  simp [not_lt.mpr hp]

/-- The round trip on a concrete frame: kind 5, payload 1, 2, 3, decoded with limit 8. -/
theorem roundtrip_framing_witness :
    (socket_send_message fresh_sender 5 [1, 2, 3]).1 = RK_SUCCESS ∧
      socket_receive_message roundtrip_receiver 8
        = (some (5, [1, 2, 3].length, [1, 2, 3]),
            { (select roundtrip_receiver).2 with rx := [9] }) :=
  roundtrip_framing fresh_sender roundtrip_receiver 5 8 [1, 2, 3] [9] (by decide) (by decide)
    (by decide) (by decide) (by decide) (by decide)

/-- C2: for every kind byte t and payload p of length n below 2^32, a successful
socket_send_message appends exactly 5 + n bytes to the connection: t, then the four bytes of n
most significant first, then the bytes of p unchanged. -/
theorem send_wire_format (sock : Socket) (t : Nat) (p : List Nat)
    (ht : t < 256) (hn : p.length < 2 ^ 32)
    (hok : (socket_send_message sock t p).1 = RK_SUCCESS) :
    (socket_send_message sock t p).2.tx
        = sock.tx ++ [t, p.length / 2 ^ 24 % 256, p.length / 2 ^ 16 % 256,
            p.length / 2 ^ 8 % 256, p.length % 256] ++ p ∧
      (socket_send_message sock t p).2.tx.length = sock.tx.length + (5 + p.length) ∧
      (p.length / 2 ^ 24 % 256) * 2 ^ 24 + (p.length / 2 ^ 16 % 256) * 2 ^ 16
        + (p.length / 2 ^ 8 % 256) * 2 ^ 8 + p.length % 256 = p.length := by
  have htx := socket_send_message_ok sock t p hok
  rw [Nat.mod_eq_of_lt ht] at htx
  refine ⟨htx, ?_, be32_value p.length hn⟩
  rw [htx]; simp; omega

/-- The wire format on a concrete frame: kind 2, payload 7, 8, 9. -/
theorem send_wire_format_witness :
    (socket_send_message fresh_sender 2 [7, 8, 9]).2.tx
        = fresh_sender.tx ++ [2, [7, 8, 9].length / 2 ^ 24 % 256,
            [7, 8, 9].length / 2 ^ 16 % 256, [7, 8, 9].length / 2 ^ 8 % 256,
            [7, 8, 9].length % 256] ++ [7, 8, 9] ∧
      (socket_send_message fresh_sender 2 [7, 8, 9]).2.tx.length
        = fresh_sender.tx.length + (5 + [7, 8, 9].length) ∧
      ([7, 8, 9].length / 2 ^ 24 % 256) * 2 ^ 24 + ([7, 8, 9].length / 2 ^ 16 % 256) * 2 ^ 16
        + ([7, 8, 9].length / 2 ^ 8 % 256) * 2 ^ 8 + [7, 8, 9].length % 256
        = [7, 8, 9].length :=
  send_wire_format fresh_sender 2 [7, 8, 9] (by decide) (by decide) (by decide)

/-- C3: when the five header bytes at the front of the stream declare a length greater than
max_len, socket_receive_message fails having consumed exactly those five bytes, every later
byte staying unread; a header declaring exactly max_len passes the check, the decoder going on
to read max_len payload bytes and succeeding when the stream holds them. -/
theorem oversize_frame_rejected (sock : Socket) (max_len t b1 b2 b3 b4 : Nat) (tail : List Nat)
    (hrx : sock.rx = t :: b1 :: b2 :: b3 :: b4 :: tail) (hsel : 0 < (select sock).1)
    (hb1 : b1 < 256) (hb2 : b2 < 256) (hb3 : b3 < 256) (hb4 : b4 < 256) :
    (b1 * 2 ^ 24 + b2 * 2 ^ 16 + b3 * 2 ^ 8 + b4 > max_len →
        socket_receive_message sock max_len = (none, { (select sock).2 with rx := tail })) ∧
      (b1 * 2 ^ 24 + b2 * 2 ^ 16 + b3 * 2 ^ 8 + b4 = max_len →
        (socket_receive_message sock max_len).2.rx = tail.drop max_len ∧
        (max_len ≤ tail.length →
          socket_receive_message sock max_len
            = (some (t, max_len, tail.take max_len),
                { (select sock).2 with rx := tail.drop max_len }))) := by
  have hlt : b1 * 2 ^ 24 + b2 * 2 ^ 16 + b3 * 2 ^ 8 + b4 < 2 ^ 32 := by omega
  have hf := socket_receive_message_frame sock max_len t b1 b2 b3 b4 tail hrx hsel hb2 hb3 hb4
  rw [Nat.mod_eq_of_lt hlt] at hf
  refine ⟨fun h => ?_, fun h => ?_⟩
  · rw [hf, if_pos h]
  · rw [h] at hf
    rw [hf]
    refine ⟨?_, fun hl => ?_⟩
    · simp only [gt_iff_lt, lt_irrefl, if_false]
      split <;> rfl
    · simp [hl]

/-- The length check on a concrete stream: a header declaring 9 bytes against a limit of 8. -/
theorem oversize_frame_rejected_witness :
    0 * 2 ^ 24 + 0 * 2 ^ 16 + 0 * 2 ^ 8 + 9 > 8 ∧
      socket_receive_message oversize_receiver 8
        = (none, { (select oversize_receiver).2 with rx := [1, 2, 3] }) :=
  ⟨by decide,
    (oversize_frame_rejected oversize_receiver 8 5 0 0 0 9 [1, 2, 3] (by decide) (by decide)
      (by decide) (by decide) (by decide) (by decide)).1 (by decide)⟩

/-! ## What the playback sink leaves untouched -/

theorem SendFrame_core (s : State) (frame : List Nat) :
    ctx_core (RK_MPI_AO_SendFrame s frame).2 = ctx_core s := rfl

theorem SendFrame_error_count (s : State) (frame : List Nat) :
    (RK_MPI_AO_SendFrame s frame).2.error_count = s.error_count := rfl

theorem send_frame_retry_core_aux (n : Nat) :
    ∀ (s : State) (frame : List Nat), 3 - s.error_count ≤ n →
      ctx_core (send_frame_retry s frame).2 = ctx_core s := by
  induction n with
  | zero =>
    intro s frame h
    rw [send_frame_retry]
    dsimp only
    split_ifs <;> first
      | exact SendFrame_core s frame
      | (exfalso; simp only [SendFrame_error_count] at *; omega)
  | succ n ih =>
    intro s frame h
    rw [send_frame_retry]
    dsimp only
    split_ifs <;> first
      | exact SendFrame_core s frame
      | (rw [ih _ frame (by simp only [SendFrame_error_count] at *; omega)]
         exact SendFrame_core s frame)

theorem send_frame_retry_core (s : State) (frame : List Nat) :
    ctx_core (send_frame_retry s frame).2 = ctx_core s :=
  send_frame_retry_core_aux _ s frame (le_refl _)

theorem play_chunks_core (recurse : State → List Nat → Int × State)
    (hrec : ∀ s d, ctx_core (recurse s d).2 = ctx_core s) (n : Nat) :
    ∀ (s : State) (d : List Nat) (r : Int), d.length ≤ n →
      ctx_core (play_chunks recurse s d r).2 = ctx_core s := by
  induction n with
  | zero =>
    intro s d r h
    rw [play_chunks]
    simp [show ¬ (d.length > 0) by omega]
  | succ n ih =>
    intro s d r h
    rw [play_chunks]
    by_cases h0 : d.length > 0
    · simp only [h0, dite_true]
      rw [ih _ _ _ (by simp; split <;> omega)]
      exact hrec _ _
    · simp [h0]

theorem play_audio_buffer_body_core (recurse : State → List Nat → Int × State)
    (hrec : ∀ s d, ctx_core (recurse s d).2 = ctx_core s) (s : State) (d : List Nat) :
    ctx_core (play_audio_buffer_body recurse s d).2 = ctx_core s := by
  unfold play_audio_buffer_body
  dsimp only
  split_ifs
  all_goals first
    | rfl
    | (rw [play_chunks_core recurse hrec _ _ _ _ (le_refl _)]; rfl)
    | (rw [play_chunks_core recurse hrec _ _ _ _ (le_refl _)])
    | exact (send_frame_retry_core _ _).trans rfl

theorem play_audio_buffer_core (s : State) (d : List Nat) :
    ctx_core (play_audio_buffer s d).2 = ctx_core s :=
  play_audio_buffer_body_core _
    (fun s d => play_audio_buffer_body_core _ (fun _ _ => rfl) s d) s d

theorem dispatcher_play_fields (s : State) (blk : List Nat) :
    (dispatcher_play s blk).play_log = s.play_log ++ [blk] ∧
    (dispatcher_play s blk).s32EnableStreaming = s.s32EnableStreaming ∧
    (dispatcher_play s blk).responseFormat = s.responseFormat ∧
    (dispatcher_play s blk).audio_buffer = s.audio_buffer ∧
    (dispatcher_play s blk).audio_buffer_size = s.audio_buffer_size ∧
    (dispatcher_play s blk).gRecorderExit = s.gRecorderExit ∧
    (dispatcher_play s blk).gAudioPlaying = s.gAudioPlaying ∧
    (dispatcher_play s blk).gAudioInterrupted = s.gAudioInterrupted ∧
    (dispatcher_play s blk).gInterruptAIResponse = s.gInterruptAIResponse ∧
    (dispatcher_play s blk).gAIResponseActive = s.gAIResponseActive ∧
    (dispatcher_play s blk).audio_started = s.audio_started ∧
    (dispatcher_play s blk).bInitialized = s.bInitialized := by
  have h := play_audio_buffer_core s blk
  simp only [ctx_core, Prod.mk.injEq] at h
  obtain ⟨h1, h2, h3, h4, h5, h6, h7, h8, h9, h10, h11, -, -, -⟩ := h
  exact ⟨rfl, h1, h2, h3, h4, h5, h6, h7, h8, h9, h10, h11⟩

theorem dispatcher_play_play_log (s : State) (blk : List Nat) :
    (dispatcher_play s blk).play_log = s.play_log ++ [blk] := rfl

theorem dispatcher_play_s32EnableStreaming (s : State) (blk : List Nat) :
    (dispatcher_play s blk).s32EnableStreaming = s.s32EnableStreaming :=
  (dispatcher_play_fields s blk).2.1

theorem dispatcher_play_responseFormat (s : State) (blk : List Nat) :
    (dispatcher_play s blk).responseFormat = s.responseFormat :=
  (dispatcher_play_fields s blk).2.2.1

theorem dispatcher_play_audio_buffer (s : State) (blk : List Nat) :
    (dispatcher_play s blk).audio_buffer = s.audio_buffer :=
  (dispatcher_play_fields s blk).2.2.2.1

theorem dispatcher_play_audio_buffer_size (s : State) (blk : List Nat) :
    (dispatcher_play s blk).audio_buffer_size = s.audio_buffer_size :=
  (dispatcher_play_fields s blk).2.2.2.2.1

theorem dispatcher_play_gRecorderExit (s : State) (blk : List Nat) :
    (dispatcher_play s blk).gRecorderExit = s.gRecorderExit :=
  (dispatcher_play_fields s blk).2.2.2.2.2.1

theorem dispatcher_play_gAudioPlaying (s : State) (blk : List Nat) :
    (dispatcher_play s blk).gAudioPlaying = s.gAudioPlaying :=
  (dispatcher_play_fields s blk).2.2.2.2.2.2.1

theorem dispatcher_play_gAudioInterrupted (s : State) (blk : List Nat) :
    (dispatcher_play s blk).gAudioInterrupted = s.gAudioInterrupted :=
  (dispatcher_play_fields s blk).2.2.2.2.2.2.2.1

theorem dispatcher_play_gInterruptAIResponse (s : State) (blk : List Nat) :
    (dispatcher_play s blk).gInterruptAIResponse = s.gInterruptAIResponse :=
  (dispatcher_play_fields s blk).2.2.2.2.2.2.2.2.1

theorem dispatcher_play_gAIResponseActive (s : State) (blk : List Nat) :
    (dispatcher_play s blk).gAIResponseActive = s.gAIResponseActive :=
  (dispatcher_play_fields s blk).2.2.2.2.2.2.2.2.2.1

theorem dispatcher_play_audio_started (s : State) (blk : List Nat) :
    (dispatcher_play s blk).audio_started = s.audio_started :=
  (dispatcher_play_fields s blk).2.2.2.2.2.2.2.2.2.2.1

theorem dispatcher_play_bInitialized (s : State) (blk : List Nat) :
    (dispatcher_play s blk).bInitialized = s.bInitialized :=
  (dispatcher_play_fields s blk).2.2.2.2.2.2.2.2.2.2.2

attribute [simp] dispatcher_play_play_log dispatcher_play_s32EnableStreaming
  dispatcher_play_responseFormat dispatcher_play_audio_buffer dispatcher_play_audio_buffer_size
  dispatcher_play_gRecorderExit dispatcher_play_gAudioPlaying dispatcher_play_gAudioInterrupted
  dispatcher_play_gInterruptAIResponse dispatcher_play_gAIResponseActive
  dispatcher_play_audio_started dispatcher_play_bInitialized

/-! ## The end-marker test -/

theorem memcmp_eq_zero_iff (n : Nat) :
    ∀ (a b : List Nat), n ≤ a.length → n ≤ b.length →
      (memcmp a b n = 0 ↔ a.take n = b.take n) := by
  induction n with
  | zero => intro a b _ _; simp [memcmp]
  | succ n ih =>
    intro a b ha hb
    match a, b, ha, hb with
    | x :: as, y :: bs, ha, hb =>
      simp only [List.length_cons, Nat.add_le_add_iff_right] at ha hb
      simp only [memcmp, List.take_succ_cons, List.cons.injEq]
      split_ifs with h1 h2
      · simp; omega
      · simp; omega
      · rw [ih as bs ha hb]
        have : x = y := by omega
        simp [this]

theorem is_audio_end_marker_iff (p : List Nat) :
    is_audio_end_marker p = true ↔ p = AUDIO_END_MARKER := by
  unfold is_audio_end_marker
  simp only [decide_eq_true_eq]
  constructor
  · rintro ⟨hl, hc⟩
    rw [memcmp_eq_zero_iff 8 p AUDIO_END_MARKER (by omega) (by decide)] at hc
    have h8 : List.take 8 p = p := by rw [← hl, List.take_length]
    rw [h8] at hc
    rw [hc]; rfl
  · rintro rfl
    exact ⟨rfl, by decide⟩


/-! ## Adequacy of the recursion of `play_audio_buffer` -/

theorem play_audio_buffer_body_short (r1 r2 : State → List Nat → Int × State) (s : State)
    (d : List Nat) (h : d.length ≤ 4096) :
    play_audio_buffer_body r1 s d = play_audio_buffer_body r2 s d := by
  unfold play_audio_buffer_body
  simp only [show ¬ (d.length > 4096) by omega, if_false]

theorem play_chunks_congr (r1 r2 : State → List Nat → Int × State)
    (hr : ∀ s d, d.length ≤ 4096 → r1 s d = r2 s d) (n : Nat) :
    ∀ (s : State) (d : List Nat) (o : Int), d.length ≤ n →
      play_chunks r1 s d o = play_chunks r2 s d o := by
  induction n with
  | zero =>
    intro s d o h
    conv_lhs => rw [play_chunks]
    conv_rhs => rw [play_chunks]
    simp [show ¬ (d.length > 0) by omega]
  | succ n ih =>
    intro s d o h
    conv_lhs => rw [play_chunks]
    conv_rhs => rw [play_chunks]
    by_cases h0 : d.length > 0
    · simp only [h0, dite_true]
      rw [hr s _ (by simp; split <;> omega)]
      exact ih _ _ _ (by simp; split <;> omega)
    · simp [h0]

/-- The embedding of `play_audio_buffer` satisfies the recursive equation of the C function:
it is its own body with itself as the recursive call. -/
theorem play_audio_buffer_unfold (s : State) (d : List Nat) :
    play_audio_buffer s d = play_audio_buffer_body play_audio_buffer s d := by
  have hagree : ∀ (s : State) (c : List Nat), c.length ≤ 4096 →
      play_audio_buffer_leaf s c = play_audio_buffer s c := by
    intro s c hc
    exact play_audio_buffer_body_short _ _ s c hc
  show play_audio_buffer_body play_audio_buffer_leaf s d
    = play_audio_buffer_body play_audio_buffer s d
  unfold play_audio_buffer_body
  dsimp only
  split_ifs
  all_goals first
    | rfl
    | exact play_chunks_congr _ _ hagree _ _ _ _ (le_refl _)


theorem is_audio_end_marker_false (p : List Nat) (h : p ≠ AUDIO_END_MARKER) :
    is_audio_end_marker p = false := by
  cases hm : is_audio_end_marker p with
  | false => rfl
  | true => exact absurd ((is_audio_end_marker_iff p).mp hm) h

theorem is_audio_end_marker_marker : is_audio_end_marker AUDIO_END_MARKER = true :=
  (is_audio_end_marker_iff _).mpr rfl

/-! ## The cases of the dispatcher -/

theorem prm_audio_data (s : State) (p : List Nat) :
    (process_received_message s MSG_AUDIO_DATA p).2 = case_MSG_AUDIO_DATA s p := by
  simp [process_received_message, MSG_AUDIO_DATA, MSG_TEXT_DATA]

theorem prm_audio_start (s : State) (p : List Nat) :
    (process_received_message s MSG_AUDIO_START p).2 = case_MSG_AUDIO_START s := by
  simp [process_received_message, MSG_AUDIO_DATA, MSG_TEXT_DATA, MSG_AUDIO_START, MSG_AI_START,
    MSG_AI_END]

theorem prm_audio_end (s : State) (p : List Nat) :
    (process_received_message s MSG_AUDIO_END p).2 = case_MSG_AUDIO_END s := by
  simp [process_received_message, MSG_AUDIO_DATA, MSG_TEXT_DATA, MSG_AUDIO_START, MSG_AI_START,
    MSG_AI_END, MSG_AUDIO_END]

theorem prm_ai_start (s : State) (p : List Nat) :
    (process_received_message s MSG_AI_START p).2 = { s with gAIResponseActive := true } := by
  simp [process_received_message, MSG_AUDIO_DATA, MSG_TEXT_DATA, MSG_AI_START]

theorem prm_ai_end (s : State) (p : List Nat) :
    (process_received_message s MSG_AI_END p).2 = { s with gAIResponseActive := false } := by
  simp [process_received_message, MSG_AUDIO_DATA, MSG_TEXT_DATA, MSG_AI_START, MSG_AI_END]

theorem audio_data_marker (s : State) (hi : s.gAudioInterrupted = false) :
    (case_MSG_AUDIO_DATA s AUDIO_END_MARKER).audio_buffer = s.audio_buffer ∧
    (case_MSG_AUDIO_DATA s AUDIO_END_MARKER).audio_buffer_size = 0 ∧
    (case_MSG_AUDIO_DATA s AUDIO_END_MARKER).play_log
      = s.play_log ++ (if 0 < s.audio_buffer_size ∧ s.s32EnableStreaming = true ∧
          s.audio_started = true then [buffered s] else []) := by
  unfold case_MSG_AUDIO_DATA
  simp only [is_audio_interrupted, hi, is_audio_end_marker_marker, if_true, Bool.false_eq_true,
    if_false]
  by_cases h0 : 0 < s.audio_buffer_size
  · by_cases hs : s.s32EnableStreaming = true ∧ s.audio_started = true
    · simp [h0, hs, buffered]
    · have hs' : (s.s32EnableStreaming && s.audio_started) = false := by
        cases h1 : s.s32EnableStreaming <;> cases h2 : s.audio_started <;> simp_all
      simp [h0, hs, hs']
  · have : s.audio_buffer_size = 0 := by omega
    simp [h0, this]

theorem audio_data_big (s : State) (p : List Nat) (hi : s.gAudioInterrupted = false)
    (hbig : p.length > AUDIO_PLAY_BUFFER_SIZE / 2) :
    (case_MSG_AUDIO_DATA s p).audio_buffer = s.audio_buffer ∧
    (case_MSG_AUDIO_DATA s p).audio_buffer_size = s.audio_buffer_size ∧
    (case_MSG_AUDIO_DATA s p).play_log
      = s.play_log ++ (if s.s32EnableStreaming = true ∧ s.audio_started = true then [p]
          else []) := by
  have hm : is_audio_end_marker p = false := by
    apply is_audio_end_marker_false
    rintro rfl
    revert hbig; decide
  unfold case_MSG_AUDIO_DATA
  simp only [is_audio_interrupted, hi, hm, hbig, if_true, Bool.false_eq_true, if_false]
  by_cases hs : s.s32EnableStreaming = true ∧ s.audio_started = true
  · simp [hs]
  · have hs' : (s.s32EnableStreaming && s.audio_started) = false := by
      cases h1 : s.s32EnableStreaming <;> cases h2 : s.audio_started <;> simp_all
    simp [hs, hs']

theorem audio_data_append (s : State) (p : List Nat) (hi : s.gAudioInterrupted = false)
    (hm : p ≠ AUDIO_END_MARKER) (hhalf : p.length ≤ AUDIO_PLAY_BUFFER_SIZE / 2)
    (hfit : s.audio_buffer_size + p.length < AUDIO_PLAY_BUFFER_SIZE) :
    case_MSG_AUDIO_DATA s p =
      { s with audio_data_packets := s.audio_data_packets + 1,
               total_audio_bytes := s.total_audio_bytes + p.length,
               audio_buffer := memcpy s.audio_buffer s.audio_buffer_size p p.length,
               audio_buffer_size := s.audio_buffer_size + p.length } := by
  unfold case_MSG_AUDIO_DATA
  simp only [is_audio_interrupted, hi, is_audio_end_marker_false p hm, not_lt.mpr hhalf, hfit,
    if_true, Bool.false_eq_true, if_false, gt_iff_lt]

theorem audio_data_refill (s : State) (p : List Nat) (hi : s.gAudioInterrupted = false)
    (hm : p ≠ AUDIO_END_MARKER) (hhalf : p.length ≤ AUDIO_PLAY_BUFFER_SIZE / 2)
    (hfull : ¬ s.audio_buffer_size + p.length < AUDIO_PLAY_BUFFER_SIZE) :
    (case_MSG_AUDIO_DATA s p).audio_buffer = memcpy s.audio_buffer 0 p p.length ∧
    (case_MSG_AUDIO_DATA s p).audio_buffer_size = p.length ∧
    (case_MSG_AUDIO_DATA s p).play_log
      = s.play_log ++ (if 0 < s.audio_buffer_size ∧ s.s32EnableStreaming = true ∧
          s.audio_started = true then [buffered s] else []) := by
  have hlt : p.length < AUDIO_PLAY_BUFFER_SIZE := by
    have : AUDIO_PLAY_BUFFER_SIZE = 655360 := rfl
    omega
  unfold case_MSG_AUDIO_DATA
  simp only [is_audio_interrupted, hi, is_audio_end_marker_false p hm, not_lt.mpr hhalf, hfull,
    hlt, if_true, Bool.false_eq_true, if_false, gt_iff_lt]
  by_cases h0 : 0 < s.audio_buffer_size
  · by_cases hs : s.s32EnableStreaming = true ∧ s.audio_started = true
    · simp [h0, hs, buffered]
    · have hs' : (s.s32EnableStreaming && s.audio_started) = false := by
        cases h1 : s.s32EnableStreaming <;> cases h2 : s.audio_started <;> simp_all
      simp [h0, hs, hs']
  · simp [h0]

/-- The flags that the handling of an `AUDIO_DATA` frame never changes. -/
theorem audio_data_flags (s : State) (p : List Nat) :
    (case_MSG_AUDIO_DATA s p).s32EnableStreaming = s.s32EnableStreaming ∧
    (case_MSG_AUDIO_DATA s p).audio_started = s.audio_started ∧
    (case_MSG_AUDIO_DATA s p).gAudioInterrupted = s.gAudioInterrupted ∧
    (case_MSG_AUDIO_DATA s p).gAudioPlaying = s.gAudioPlaying ∧
    (case_MSG_AUDIO_DATA s p).bInitialized = s.bInitialized ∧
    (case_MSG_AUDIO_DATA s p).gAIResponseActive = s.gAIResponseActive ∧
    (case_MSG_AUDIO_DATA s p).gInterruptAIResponse = s.gInterruptAIResponse ∧
    (case_MSG_AUDIO_DATA s p).gRecorderExit = s.gRecorderExit ∧
    (case_MSG_AUDIO_DATA s p).responseFormat = s.responseFormat := by
  unfold case_MSG_AUDIO_DATA
  dsimp only
  split_ifs <;> simp


theorem setup_fields (s : State) :
    (setup_audio_playback s).2.s32EnableStreaming = s.s32EnableStreaming ∧
    (setup_audio_playback s).2.audio_buffer = s.audio_buffer ∧
    (setup_audio_playback s).2.audio_buffer_size = s.audio_buffer_size ∧
    (setup_audio_playback s).2.gAudioPlaying = s.gAudioPlaying ∧
    (setup_audio_playback s).2.gAudioInterrupted = s.gAudioInterrupted ∧
    (setup_audio_playback s).2.audio_started = s.audio_started ∧
    (setup_audio_playback s).2.play_log = s.play_log ∧
    ((setup_audio_playback s).1 = RK_SUCCESS →
      (setup_audio_playback s).2.bInitialized = true) := by
  unfold setup_audio_playback
  simp only [RK_MPI_AO_SetPubAttr, RK_MPI_AO_Enable, RK_MPI_AO_SetChnParams, RK_MPI_AO_EnableChn,
    ao_call]
  split_ifs <;> simp [RK_FAILURE, RK_SUCCESS]

theorem setup_result_fill (s : State) (n : Nat) :
    (setup_audio_playback { s with audio_buffer_size := n }).1 = (setup_audio_playback s).1 := by
  unfold setup_audio_playback
  simp only [RK_MPI_AO_SetPubAttr, RK_MPI_AO_Enable, RK_MPI_AO_SetChnParams, RK_MPI_AO_EnableChn,
    ao_call]
  split_ifs <;> rfl

theorem audio_start_ok (s : State) (hstream : s.s32EnableStreaming = true)
    (hsetup : (setup_audio_playback s).1 = RK_SUCCESS) :
    (case_MSG_AUDIO_START s).audio_buffer = s.audio_buffer ∧
    (case_MSG_AUDIO_START s).audio_buffer_size = 0 ∧
    (case_MSG_AUDIO_START s).play_log = s.play_log ∧
    (case_MSG_AUDIO_START s).s32EnableStreaming = true ∧
    (case_MSG_AUDIO_START s).audio_started = true ∧
    (case_MSG_AUDIO_START s).gAudioInterrupted = false ∧
    (case_MSG_AUDIO_START s).gAudioPlaying = true ∧
    (case_MSG_AUDIO_START s).bInitialized = true := by
  have hr := setup_result_fill s 0
  rw [hsetup] at hr
  unfold case_MSG_AUDIO_START
  generalize hs0 : ({ s with audio_buffer_size := 0 } : State) = s0 at hr ⊢
  have e1 : s0.s32EnableStreaming = s.s32EnableStreaming := by rw [← hs0]
  have e2 : s0.audio_buffer = s.audio_buffer := by rw [← hs0]
  have e3 : s0.audio_buffer_size = 0 := by rw [← hs0]
  have e4 : s0.play_log = s.play_log := by rw [← hs0]
  obtain ⟨h1, h2, h3, -, -, -, h7, h8⟩ := setup_fields s0
  have hst0 : s0.s32EnableStreaming = true := e1.trans hstream
  simp only [hst0, hr, if_true, set_audio_playing_state]
  exact ⟨h2.trans e2, h3.trans e3, h7.trans e4, h1.trans hst0, trivial, trivial, trivial, h8 hr⟩

theorem cleanup_audio_buffer (s : State) :
    (cleanup_audio_playback s).2.audio_buffer = s.audio_buffer := by
  unfold cleanup_audio_playback
  cases h : s.bInitialized <;> simp [set_audio_playing_state, ao_call]

theorem cleanup_audio_buffer_size (s : State) :
    (cleanup_audio_playback s).2.audio_buffer_size = s.audio_buffer_size := by
  unfold cleanup_audio_playback
  cases h : s.bInitialized <;> simp [set_audio_playing_state, ao_call]

theorem cleanup_play_log (s : State) :
    (cleanup_audio_playback s).2.play_log = s.play_log := by
  unfold cleanup_audio_playback
  cases h : s.bInitialized <;> simp [set_audio_playing_state, ao_call]

theorem cleanup_ao_calls (s : State) :
    (cleanup_audio_playback s).2.ao_calls
      = s.ao_calls ++ (if s.bInitialized = true then
          [AoCall.WaitEos, AoCall.DisableReSmp, AoCall.DisableChn, AoCall.Disable] else []) := by
  unfold cleanup_audio_playback
  cases h : s.bInitialized <;> simp [set_audio_playing_state, ao_call]

attribute [simp] cleanup_audio_buffer cleanup_audio_buffer_size cleanup_play_log cleanup_ao_calls

theorem audio_end_fields (s : State) :
    (case_MSG_AUDIO_END s).audio_buffer = s.audio_buffer ∧
    (case_MSG_AUDIO_END s).audio_buffer_size = 0 ∧
    (case_MSG_AUDIO_END s).play_log
      = s.play_log ++ (if 0 < s.audio_buffer_size ∧ s.s32EnableStreaming = true ∧
          s.audio_started = true then [buffered s] else []) ∧
    (case_MSG_AUDIO_END s).audio_started = false ∧
    (case_MSG_AUDIO_END s).gAudioPlaying
      = (if s.audio_started = true then false else s.gAudioPlaying) := by
  unfold case_MSG_AUDIO_END
  by_cases h0 : 0 < s.audio_buffer_size
  · cases hs : s.s32EnableStreaming <;> cases ha : s.audio_started <;>
      simp [h0, hs, ha, set_audio_playing_state]
  · have hz : s.audio_buffer_size = 0 := by omega
    cases ha : s.audio_started <;> simp [hz, ha, set_audio_playing_state]

theorem audio_end_teardown (s : State) (h0 : s.audio_buffer_size = 0)
    (hstarted : s.audio_started = true) (hinit : s.bInitialized = true) :
    (case_MSG_AUDIO_END s).ao_calls
      = s.ao_calls ++ [AoCall.WaitEos, AoCall.DisableReSmp, AoCall.DisableChn, AoCall.Disable] := by
  unfold case_MSG_AUDIO_END
  simp [h0, hstarted, set_audio_playing_state, hinit]


/-! ## The assembly buffer -/

theorem memcpy_length (dst src : List Nat) (off : Nat) (h : off + src.length ≤ dst.length) :
    (memcpy dst off src src.length).length = dst.length := by
  unfold memcpy
  simp only [List.take_length, List.length_append, List.length_take, List.length_drop]
  omega

theorem buffered_memcpy (dst src : List Nat) (off : Nat) (h : off ≤ dst.length) :
    (memcpy dst off src src.length).take (off + src.length) = dst.take off ++ src := by
  unfold memcpy
  rw [List.take_length]
  apply List.take_left'
  simp only [List.length_append, List.length_take]
  omega

theorem audio_start_buffer (s : State) :
    (case_MSG_AUDIO_START s).audio_buffer = s.audio_buffer ∧
    (case_MSG_AUDIO_START s).audio_buffer_size = 0 := by
  unfold case_MSG_AUDIO_START
  generalize hs0 : ({ s with audio_buffer_size := 0 } : State) = s0
  have e2 : s0.audio_buffer = s.audio_buffer := by rw [← hs0]
  have e3 : s0.audio_buffer_size = 0 := by rw [← hs0]
  obtain ⟨-, h2, h3, -, -, -, -, -⟩ := setup_fields s0
  dsimp only
  split_ifs
  · exact ⟨h2.trans e2, h3.trans e3⟩
  · exact ⟨h2.trans e2, h3.trans e3⟩
  · exact ⟨e2, e3⟩

theorem audio_data_buffer_inv (s : State) (p : List Nat)
    (hfill : s.audio_buffer_size ≤ AUDIO_PLAY_BUFFER_SIZE)
    (hlen : s.audio_buffer.length = AUDIO_PLAY_BUFFER_SIZE) :
    (case_MSG_AUDIO_DATA s p).audio_buffer_size ≤ AUDIO_PLAY_BUFFER_SIZE ∧
    (case_MSG_AUDIO_DATA s p).audio_buffer.length = AUDIO_PLAY_BUFFER_SIZE := by
  unfold case_MSG_AUDIO_DATA
  dsimp only
  split_ifs with h1 h2 h3 h4 h5 h6 h7 h8 h9
  all_goals simp only [dispatcher_play_audio_buffer, dispatcher_play_audio_buffer_size]
  all_goals first
    | exact ⟨hfill, hlen⟩
    | exact ⟨Nat.zero_le _, hlen⟩
    | (refine ⟨by omega, ?_⟩
       rw [memcpy_length _ _ _ (by omega)]
       exact hlen)

theorem prm_cases (s : State) (t : Nat) (p : List Nat) :
    (process_received_message s t p).1 = RK_SUCCESS ∧
    ((process_received_message s t p).2 = s ∨
      (t = MSG_AUDIO_DATA ∧ (process_received_message s t p).2 = case_MSG_AUDIO_DATA s p) ∨
      (t = MSG_AI_START ∧
        (process_received_message s t p).2 = { s with gAIResponseActive := true }) ∨
      (t = MSG_AI_END ∧
        (process_received_message s t p).2 = { s with gAIResponseActive := false }) ∨
      (t = MSG_AUDIO_START ∧ (process_received_message s t p).2 = case_MSG_AUDIO_START s) ∨
      (t = MSG_AUDIO_END ∧ (process_received_message s t p).2 = case_MSG_AUDIO_END s) ∨
      (t = MSG_ERROR ∧ (process_received_message s t p).2 = case_MSG_ERROR s) ∨
      (t = MSG_AI_CANCELLED ∧ (process_received_message s t p).2 = case_MSG_AI_CANCELLED s)) := by
  unfold process_received_message
  split_ifs <;> simp [*]

theorem case_error_buffer (s : State) :
    (case_MSG_ERROR s).audio_buffer = s.audio_buffer ∧
    ((case_MSG_ERROR s).audio_buffer_size = s.audio_buffer_size ∨
      (case_MSG_ERROR s).audio_buffer_size = 0) := by
  unfold case_MSG_ERROR
  split_ifs <;> simp [set_audio_playing_state]

theorem case_cancelled_buffer (s : State) :
    (case_MSG_AI_CANCELLED s).audio_buffer = s.audio_buffer ∧
    ((case_MSG_AI_CANCELLED s).audio_buffer_size = s.audio_buffer_size ∨
      (case_MSG_AI_CANCELLED s).audio_buffer_size = 0) := by
  unfold case_MSG_AI_CANCELLED
  dsimp only
  split_ifs <;> simp [set_audio_playing_state]

theorem prm_buffer_inv (s : State) (t : Nat) (p : List Nat)
    (hfill : s.audio_buffer_size ≤ AUDIO_PLAY_BUFFER_SIZE)
    (hlen : s.audio_buffer.length = AUDIO_PLAY_BUFFER_SIZE) :
    (process_received_message s t p).2.audio_buffer_size ≤ AUDIO_PLAY_BUFFER_SIZE ∧
    (process_received_message s t p).2.audio_buffer.length = AUDIO_PLAY_BUFFER_SIZE := by
  obtain ⟨-, h | ⟨-, h⟩ | ⟨-, h⟩ | ⟨-, h⟩ | ⟨-, h⟩ | ⟨-, h⟩ | ⟨-, h⟩ | ⟨-, h⟩⟩ :=
    prm_cases s t p
  · rw [h]; exact ⟨hfill, hlen⟩
  · rw [h]; exact audio_data_buffer_inv s p hfill hlen
  · rw [h]; exact ⟨hfill, hlen⟩
  · rw [h]; exact ⟨hfill, hlen⟩
  · rw [h]
    obtain ⟨h1, h2⟩ := audio_start_buffer s
    rw [h1, h2]; exact ⟨Nat.zero_le _, hlen⟩
  · rw [h]
    obtain ⟨h1, h2, -⟩ := audio_end_fields s
    rw [h1, h2]; exact ⟨Nat.zero_le _, hlen⟩
  · rw [h]
    obtain ⟨h1, h2 | h2⟩ := case_error_buffer s <;> rw [h1, h2]
    · exact ⟨hfill, hlen⟩
    · exact ⟨Nat.zero_le _, hlen⟩
  · rw [h]
    obtain ⟨h1, h2 | h2⟩ := case_cancelled_buffer s <;> rw [h1, h2]
    · exact ⟨hfill, hlen⟩
    · exact ⟨Nat.zero_le _, hlen⟩

theorem process_frames_append (s : State) (xs ys : List (Nat × List Nat)) :
    process_frames s (xs ++ ys) = process_frames (process_frames s xs) ys := by
  simp [process_frames, List.foldl_append]

theorem process_frames_buffer_inv (frames : List (Nat × List Nat)) :
    ∀ s : State, s.audio_buffer_size ≤ AUDIO_PLAY_BUFFER_SIZE →
      s.audio_buffer.length = AUDIO_PLAY_BUFFER_SIZE →
      (process_frames s frames).audio_buffer_size ≤ AUDIO_PLAY_BUFFER_SIZE ∧
      (process_frames s frames).audio_buffer.length = AUDIO_PLAY_BUFFER_SIZE := by
  induction frames with
  | nil => intro s h1 h2; exact ⟨h1, h2⟩
  | cons f fs ih =>
    intro s h1 h2
    obtain ⟨g1, g2⟩ := prm_buffer_inv s f.1 f.2 h1 h2
    exact ih _ g1 g2


theorem memcpy_length_ge (dst src : List Nat) (off : Nat) (h : off ≤ dst.length) :
    off + src.length ≤ (memcpy dst off src src.length).length := by
  unfold memcpy
  simp only [List.take_length, List.length_append, List.length_take, List.length_drop]
  omega

/-! ## Order of the played bytes -/

theorem audio_data_step (s : State) (p : List Nat) (hs : s.s32EnableStreaming = true)
    (ha : s.audio_started = true) (hi : s.gAudioInterrupted = false)
    (hwf : s.audio_buffer_size ≤ s.audio_buffer.length)
    (hp : p = AUDIO_END_MARKER ∨ p.length ≤ AUDIO_PLAY_BUFFER_SIZE / 2) :
    ((case_MSG_AUDIO_DATA s p).s32EnableStreaming = true ∧
      (case_MSG_AUDIO_DATA s p).audio_started = true ∧
      (case_MSG_AUDIO_DATA s p).gAudioInterrupted = false ∧
      (case_MSG_AUDIO_DATA s p).audio_buffer_size
        ≤ (case_MSG_AUDIO_DATA s p).audio_buffer.length) ∧
    ∃ blocks, (case_MSG_AUDIO_DATA s p).play_log = s.play_log ++ blocks ∧
      blocks.flatten ++ buffered (case_MSG_AUDIO_DATA s p)
        = buffered s ++ (if p = AUDIO_END_MARKER then [] else p) := by
  obtain ⟨f1, f2, f3, -⟩ := audio_data_flags s p
  by_cases hm : p = AUDIO_END_MARKER
  · subst hm
    obtain ⟨m1, m2, m3⟩ := audio_data_marker s hi
    refine ⟨⟨f1.trans hs, f2.trans ha, f3.trans hi, by rw [m2]; exact Nat.zero_le _⟩, ?_⟩
    by_cases h0 : 0 < s.audio_buffer_size
    · refine ⟨[buffered s], by rw [m3]; simp [h0, hs, ha], ?_⟩
      simp [buffered, m2]
    · have hz : s.audio_buffer_size = 0 := by omega
      refine ⟨[], by rw [m3]; simp [h0], ?_⟩
      simp [buffered, m2, hz]
  · have hhalf : p.length ≤ AUDIO_PLAY_BUFFER_SIZE / 2 := hp.resolve_left hm
    by_cases hfit : s.audio_buffer_size + p.length < AUDIO_PLAY_BUFFER_SIZE
    · have e := audio_data_append s p hi hm hhalf hfit
      refine ⟨⟨f1.trans hs, f2.trans ha, f3.trans hi, ?_⟩, [], ?_, ?_⟩
      · rw [e]; exact memcpy_length_ge _ _ _ hwf
      · rw [e]; simp
      · rw [e]
        simp only [List.flatten_nil, List.nil_append, buffered, if_neg hm]
        exact buffered_memcpy _ _ _ hwf
    · obtain ⟨r1, r2, r3⟩ := audio_data_refill s p hi hm hhalf hfit
      have hb : buffered (case_MSG_AUDIO_DATA s p) = p := by
        unfold buffered
        rw [r1, r2]
        have := buffered_memcpy s.audio_buffer p 0 (Nat.zero_le _)
        simpa using this
      refine ⟨⟨f1.trans hs, f2.trans ha, f3.trans hi, ?_⟩, ?_⟩
      · rw [r1, r2]
        have := memcpy_length_ge s.audio_buffer p 0 (Nat.zero_le _)
        omega
      · by_cases h0 : 0 < s.audio_buffer_size
        · refine ⟨[buffered s], by rw [r3]; simp [h0, hs, ha], ?_⟩
          rw [hb]; simp [hm]
        · have hz : s.audio_buffer_size = 0 := by omega
          refine ⟨[], by rw [r3]; simp [h0], ?_⟩
          rw [hb]; simp [hm, buffered, hz]

theorem audio_data_frames (ps : List (List Nat)) :
    ∀ s : State, s.s32EnableStreaming = true → s.audio_started = true →
      s.gAudioInterrupted = false → s.audio_buffer_size ≤ s.audio_buffer.length →
      (∀ p ∈ ps, p = AUDIO_END_MARKER ∨ p.length ≤ AUDIO_PLAY_BUFFER_SIZE / 2) →
      ((process_frames s (ps.map (fun p => (MSG_AUDIO_DATA, p)))).s32EnableStreaming = true ∧
        (process_frames s (ps.map (fun p => (MSG_AUDIO_DATA, p)))).audio_started = true) ∧
      ∃ blocks,
        (process_frames s (ps.map (fun p => (MSG_AUDIO_DATA, p)))).play_log
          = s.play_log ++ blocks ∧
        blocks.flatten ++ buffered (process_frames s (ps.map (fun p => (MSG_AUDIO_DATA, p))))
          = buffered s ++ (ps.filter (fun p => p ≠ AUDIO_END_MARKER)).flatten := by
  induction ps with
  | nil =>
    intro s hs ha _ _ _
    exact ⟨⟨hs, ha⟩, [], by simp [process_frames], by simp [process_frames]⟩
  | cons p ps ih =>
    intro s hs ha hi hwf hps
    obtain ⟨⟨i1, i2, i3, i4⟩, b1, hb1, hb2⟩ :=
      audio_data_step s p hs ha hi hwf (hps p (List.mem_cons_self _ _))
    obtain ⟨hflags, b2, hc1, hc2⟩ :=
      ih (case_MSG_AUDIO_DATA s p) i1 i2 i3 i4 (fun q hq => hps q (List.mem_cons_of_mem _ hq))
    have hstep : process_frames s ((p :: ps).map (fun p => (MSG_AUDIO_DATA, p)))
        = process_frames (case_MSG_AUDIO_DATA s p) (ps.map (fun p => (MSG_AUDIO_DATA, p))) := by
      simp [process_frames, prm_audio_data]
    rw [hstep]
    refine ⟨hflags, b1 ++ b2, by rw [hc1, hb1, List.append_assoc], ?_⟩
    rw [List.flatten_append, List.append_assoc, hc2, ← List.append_assoc, hb2]
    by_cases hm : p = AUDIO_END_MARKER
    · simp [hm]
    · simp [hm, List.filter_cons]


theorem audio_scenario (s : State) (p a e : List Nat) (hstream : s.s32EnableStreaming = true)
    (hsetup : (setup_audio_playback s).1 = RK_SUCCESS) (hne : p ≠ AUDIO_END_MARKER)
    (hhalf : p.length ≤ AUDIO_PLAY_BUFFER_SIZE / 2) (hpos : 0 < p.length) :
    (process_received_message s MSG_AUDIO_START a).2.audio_buffer_size = 0 ∧
    (process_received_message (process_received_message s MSG_AUDIO_START a).2
        MSG_AUDIO_DATA p).2.audio_buffer_size = p.length ∧
    buffered (process_received_message (process_received_message s MSG_AUDIO_START a).2
        MSG_AUDIO_DATA p).2 = p ∧
    (process_received_message (process_received_message s MSG_AUDIO_START a).2
        MSG_AUDIO_DATA p).2.play_log = s.play_log ∧
    (process_received_message (process_received_message s MSG_AUDIO_START a).2
        MSG_AUDIO_DATA p).2.ao_calls
      = (process_received_message s MSG_AUDIO_START a).2.ao_calls ∧
    (process_received_message (process_received_message
        (process_received_message s MSG_AUDIO_START a).2 MSG_AUDIO_DATA p).2
        MSG_AUDIO_DATA AUDIO_END_MARKER).2.audio_buffer_size = 0 ∧
    (process_received_message (process_received_message
        (process_received_message s MSG_AUDIO_START a).2 MSG_AUDIO_DATA p).2
        MSG_AUDIO_DATA AUDIO_END_MARKER).2.play_log = s.play_log ++ [p] ∧
    (process_received_message (process_received_message (process_received_message
        (process_received_message s MSG_AUDIO_START a).2 MSG_AUDIO_DATA p).2
        MSG_AUDIO_DATA AUDIO_END_MARKER).2 MSG_AUDIO_END e).2.play_log = s.play_log ++ [p] ∧
    (process_received_message (process_received_message (process_received_message
        (process_received_message s MSG_AUDIO_START a).2 MSG_AUDIO_DATA p).2
        MSG_AUDIO_DATA AUDIO_END_MARKER).2 MSG_AUDIO_END e).2.ao_calls
      = (process_received_message (process_received_message
          (process_received_message s MSG_AUDIO_START a).2 MSG_AUDIO_DATA p).2
          MSG_AUDIO_DATA AUDIO_END_MARKER).2.ao_calls
        ++ [AoCall.WaitEos, AoCall.DisableReSmp, AoCall.DisableChn, AoCall.Disable] := by
  rw [prm_audio_start]
  obtain ⟨a1, a2, a3, a4, a5, a6, -, a8⟩ := audio_start_ok s hstream hsetup
  generalize case_MSG_AUDIO_START s = s1 at *
  rw [prm_audio_data]
  have hfit : s1.audio_buffer_size + p.length < AUDIO_PLAY_BUFFER_SIZE := by
    have : AUDIO_PLAY_BUFFER_SIZE = 655360 := rfl
    omega
  have e2 := audio_data_append s1 p a6 hne hhalf hfit
  obtain ⟨f1, f2, f3, -, f5, -⟩ := audio_data_flags s1 p
  have b2 : buffered (case_MSG_AUDIO_DATA s1 p) = p := by
    rw [e2]
    have := buffered_memcpy s1.audio_buffer p s1.audio_buffer_size (by omega)
    simpa [buffered, a2] using this
  have z2 : (case_MSG_AUDIO_DATA s1 p).audio_buffer_size = p.length := by rw [e2]; simp [a2]
  have l2 : (case_MSG_AUDIO_DATA s1 p).play_log = s.play_log := by rw [e2]; exact a3
  have c2 : (case_MSG_AUDIO_DATA s1 p).ao_calls = s1.ao_calls := by rw [e2]
  generalize case_MSG_AUDIO_DATA s1 p = s2 at *
  rw [prm_audio_data]
  obtain ⟨-, m2, m3⟩ := audio_data_marker s2 (f3.trans a6)
  obtain ⟨g1, g2, -, -, g5, -⟩ := audio_data_flags s2 AUDIO_END_MARKER
  have l3 : (case_MSG_AUDIO_DATA s2 AUDIO_END_MARKER).play_log = s.play_log ++ [p] := by
    rw [m3, z2, b2, l2, f1, f2, a4, a5]; simp [hpos]
  generalize case_MSG_AUDIO_DATA s2 AUDIO_END_MARKER = s3 at *
  rw [prm_audio_end]
  obtain ⟨-, -, n3, -⟩ := audio_end_fields s3
  have t3 := audio_end_teardown s3 m2 (g2.trans (f2.trans a5)) (g5.trans (f5.trans a8))
  refine ⟨a2, z2, b2, l2, c2, m2, l3, ?_, t3⟩
  rw [n3, m2, l3]; simp

theorem dispatcher_play_total_audio_bytes (s : State) (blk : List Nat) :
    (dispatcher_play s blk).total_audio_bytes = s.total_audio_bytes := by
  have h := play_audio_buffer_core s blk
  simp only [ctx_core, Prod.mk.injEq] at h
  exact h.2.2.2.2.2.2.2.2.2.2.2.2.1

/-- The byte counter of the `AUDIO_DATA` case: every payload handled while not interrupted is
counted with its length, whichever branch handles it. -/
theorem audio_data_counted (s : State) (p : List Nat) (hi : s.gAudioInterrupted = false) :
    (case_MSG_AUDIO_DATA s p).total_audio_bytes = s.total_audio_bytes + p.length := by
  unfold case_MSG_AUDIO_DATA
  simp only [is_audio_interrupted, hi, Bool.false_eq_true, if_false]
  split_ifs <;> simp [dispatcher_play_total_audio_bytes]

/-- The buffer, its fill and the blocks passed to play after an `AUDIO_DATA` frame handled
while not interrupted, by the branch taken. -/
theorem audio_data_shape (s : State) (p : List Nat) (hi : s.gAudioInterrupted = false) :
    (case_MSG_AUDIO_DATA s p).audio_buffer
      = (if p = AUDIO_END_MARKER then s.audio_buffer
         else if p.length > AUDIO_PLAY_BUFFER_SIZE / 2 then s.audio_buffer
         else if s.audio_buffer_size + p.length < AUDIO_PLAY_BUFFER_SIZE then
           memcpy s.audio_buffer s.audio_buffer_size p p.length
         else memcpy s.audio_buffer 0 p p.length) ∧
    (case_MSG_AUDIO_DATA s p).audio_buffer_size
      = (if p = AUDIO_END_MARKER then 0
         else if p.length > AUDIO_PLAY_BUFFER_SIZE / 2 then s.audio_buffer_size
         else if s.audio_buffer_size + p.length < AUDIO_PLAY_BUFFER_SIZE then
           s.audio_buffer_size + p.length
         else p.length) ∧
    (case_MSG_AUDIO_DATA s p).play_log
      = s.play_log ++
        (if p = AUDIO_END_MARKER then
           (if 0 < s.audio_buffer_size ∧ s.s32EnableStreaming = true ∧ s.audio_started = true
            then [buffered s] else [])
         else if p.length > AUDIO_PLAY_BUFFER_SIZE / 2 then
           (if s.s32EnableStreaming = true ∧ s.audio_started = true then [p] else [])
         else if s.audio_buffer_size + p.length < AUDIO_PLAY_BUFFER_SIZE then []
         else
           (if 0 < s.audio_buffer_size ∧ s.s32EnableStreaming = true ∧ s.audio_started = true
            then [buffered s] else [])) := by
  by_cases hm : p = AUDIO_END_MARKER
  · subst hm
    rw [if_pos rfl, if_pos rfl, if_pos rfl]
    exact audio_data_marker s hi
  · rw [if_neg hm, if_neg hm, if_neg hm]
    by_cases hbig : p.length > AUDIO_PLAY_BUFFER_SIZE / 2
    · rw [if_pos hbig, if_pos hbig, if_pos hbig]
      exact audio_data_big s p hi hbig
    · rw [if_neg hbig, if_neg hbig, if_neg hbig]
      have hhalf : p.length ≤ AUDIO_PLAY_BUFFER_SIZE / 2 := not_lt.mp hbig
      by_cases hfit : s.audio_buffer_size + p.length < AUDIO_PLAY_BUFFER_SIZE
      · rw [if_pos hfit, if_pos hfit, if_pos hfit, audio_data_append s p hi hm hhalf hfit]
        exact ⟨rfl, rfl, (List.append_nil _).symm⟩
      · rw [if_neg hfit, if_neg hfit, if_neg hfit]
        exact audio_data_refill s p hi hm hhalf hfit

/-- Only the end marker is handled as the end marker: the state reached from a payload is the
state reached from the marker exactly when the payload is the marker. -/
theorem audio_data_marker_only (s : State) (p : List Nat) (hi : s.gAudioInterrupted = false) :
    case_MSG_AUDIO_DATA s p = case_MSG_AUDIO_DATA s AUDIO_END_MARKER ↔ p = AUDIO_END_MARKER := by
  constructor
  · intro h
    by_contra hm
    have hc := congrArg State.total_audio_bytes h
    rw [audio_data_counted s p hi, audio_data_counted s AUDIO_END_MARKER hi] at hc
    have h8 : p.length = 8 := by
      have : AUDIO_END_MARKER.length = 8 := rfl
      omega
    have hf := congrArg State.audio_buffer_size h
    rw [(audio_data_shape s p hi).2.1, (audio_data_marker s hi).2.1, if_neg hm,
      if_neg (by rw [h8]; decide)] at hf
    split_ifs at hf <;> omega
  · rintro rfl
    rfl

/-- C4: while playback is not interrupted, an AUDIO_DATA payload is handled as the end marker
if and only if it is the 8 bytes 00 00 00 00 FF FF FF FF. The end-marker test of the case
holds for a payload exactly when it is those bytes, and the state the dispatcher reaches from
a payload is the state it reaches from the marker exactly when the payload is the marker. For
the marker the buffer array is left as it was (nothing is appended), the fill is 0 afterwards,
and the only block that can be passed to play is the previous buffer content, passed exactly
once when the fill was non-zero and streaming playback is active, and not at all otherwise.
Every other payload gets the treatment of ordinary audio: above half the capacity it is the
only block that can be passed to play (when streaming playback is active) and the buffer and
its fill are untouched; otherwise it is copied into the buffer, behind the buffered bytes
when it fits, nothing being played, or else from offset 0, the previous content being passed
to play first when the fill was non-zero and streaming playback is active. -/
theorem end_marker_precedence (s : State) (p : List Nat) (hi : s.gAudioInterrupted = false) :
    (is_audio_end_marker p = true ↔ p = AUDIO_END_MARKER) ∧
    AUDIO_END_MARKER = [0x00, 0x00, 0x00, 0x00, 0xFF, 0xFF, 0xFF, 0xFF] ∧
    (process_received_message s MSG_AUDIO_DATA AUDIO_END_MARKER).2.audio_buffer
      = s.audio_buffer ∧
    (process_received_message s MSG_AUDIO_DATA AUDIO_END_MARKER).2.audio_buffer_size = 0 ∧
    (process_received_message s MSG_AUDIO_DATA AUDIO_END_MARKER).2.play_log
      = s.play_log ++ (if 0 < s.audio_buffer_size ∧ s.s32EnableStreaming = true ∧
          s.audio_started = true then [buffered s] else []) ∧
    ((process_received_message s MSG_AUDIO_DATA p).2
        = (process_received_message s MSG_AUDIO_DATA AUDIO_END_MARKER).2
      ↔ p = AUDIO_END_MARKER) ∧
    (process_received_message s MSG_AUDIO_DATA p).2.audio_buffer
      = (if p = AUDIO_END_MARKER then s.audio_buffer
         else if p.length > AUDIO_PLAY_BUFFER_SIZE / 2 then s.audio_buffer
         else if s.audio_buffer_size + p.length < AUDIO_PLAY_BUFFER_SIZE then
           memcpy s.audio_buffer s.audio_buffer_size p p.length
         else memcpy s.audio_buffer 0 p p.length) ∧
    (process_received_message s MSG_AUDIO_DATA p).2.audio_buffer_size
      = (if p = AUDIO_END_MARKER then 0
         else if p.length > AUDIO_PLAY_BUFFER_SIZE / 2 then s.audio_buffer_size
         else if s.audio_buffer_size + p.length < AUDIO_PLAY_BUFFER_SIZE then
           s.audio_buffer_size + p.length
         else p.length) ∧
    (process_received_message s MSG_AUDIO_DATA p).2.play_log
      = s.play_log ++
        (if p = AUDIO_END_MARKER then
           (if 0 < s.audio_buffer_size ∧ s.s32EnableStreaming = true ∧ s.audio_started = true
            then [buffered s] else [])
         else if p.length > AUDIO_PLAY_BUFFER_SIZE / 2 then
           (if s.s32EnableStreaming = true ∧ s.audio_started = true then [p] else [])
         else if s.audio_buffer_size + p.length < AUDIO_PLAY_BUFFER_SIZE then []
         else
           (if 0 < s.audio_buffer_size ∧ s.s32EnableStreaming = true ∧ s.audio_started = true
            then [buffered s] else [])) := by
  rw [prm_audio_data s p, prm_audio_data s AUDIO_END_MARKER]
  obtain ⟨m1, m2, m3⟩ := audio_data_marker s hi
  exact ⟨is_audio_end_marker_iff p, rfl, m1, m2, m3, audio_data_marker_only s p hi,
    audio_data_shape s p hi⟩

/-- The marker frame and the two-byte payload 1, 2, each received with 3 bytes buffered during
a streamed segment. -/
theorem end_marker_precedence_witness :
    (playing_state 3).gAudioInterrupted = false ∧
    (is_audio_end_marker [1, 2] = true ↔ [1, 2] = AUDIO_END_MARKER) ∧
    AUDIO_END_MARKER = [0x00, 0x00, 0x00, 0x00, 0xFF, 0xFF, 0xFF, 0xFF] ∧
    (process_received_message (playing_state 3) MSG_AUDIO_DATA AUDIO_END_MARKER).2.audio_buffer
      = (playing_state 3).audio_buffer ∧
    (process_received_message (playing_state 3) MSG_AUDIO_DATA
      AUDIO_END_MARKER).2.audio_buffer_size = 0 ∧
    (process_received_message (playing_state 3) MSG_AUDIO_DATA AUDIO_END_MARKER).2.play_log
      = (playing_state 3).play_log ++
        (if 0 < (playing_state 3).audio_buffer_size ∧
            (playing_state 3).s32EnableStreaming = true ∧
            (playing_state 3).audio_started = true then [buffered (playing_state 3)]
          else []) ∧
    ((process_received_message (playing_state 3) MSG_AUDIO_DATA [1, 2]).2
        = (process_received_message (playing_state 3) MSG_AUDIO_DATA AUDIO_END_MARKER).2
      ↔ [1, 2] = AUDIO_END_MARKER) ∧
    (process_received_message (playing_state 3) MSG_AUDIO_DATA [1, 2]).2.audio_buffer
      = (if [1, 2] = AUDIO_END_MARKER then (playing_state 3).audio_buffer
         else if [1, 2].length > AUDIO_PLAY_BUFFER_SIZE / 2 then (playing_state 3).audio_buffer
         else if (playing_state 3).audio_buffer_size + [1, 2].length < AUDIO_PLAY_BUFFER_SIZE then
           memcpy (playing_state 3).audio_buffer (playing_state 3).audio_buffer_size [1, 2]
             [1, 2].length
         else memcpy (playing_state 3).audio_buffer 0 [1, 2] [1, 2].length) ∧
    (process_received_message (playing_state 3) MSG_AUDIO_DATA [1, 2]).2.audio_buffer_size
      = (if [1, 2] = AUDIO_END_MARKER then 0
         else if [1, 2].length > AUDIO_PLAY_BUFFER_SIZE / 2 then
           (playing_state 3).audio_buffer_size
         else if (playing_state 3).audio_buffer_size + [1, 2].length < AUDIO_PLAY_BUFFER_SIZE then
           (playing_state 3).audio_buffer_size + [1, 2].length
         else [1, 2].length) ∧
    (process_received_message (playing_state 3) MSG_AUDIO_DATA [1, 2]).2.play_log
      = (playing_state 3).play_log ++
        (if [1, 2] = AUDIO_END_MARKER then
           (if 0 < (playing_state 3).audio_buffer_size ∧
              (playing_state 3).s32EnableStreaming = true ∧
              (playing_state 3).audio_started = true
            then [buffered (playing_state 3)] else [])
         else if [1, 2].length > AUDIO_PLAY_BUFFER_SIZE / 2 then
           (if (playing_state 3).s32EnableStreaming = true ∧
              (playing_state 3).audio_started = true then [[1, 2]] else [])
         else if (playing_state 3).audio_buffer_size + [1, 2].length < AUDIO_PLAY_BUFFER_SIZE
           then []
         else
           (if 0 < (playing_state 3).audio_buffer_size ∧
              (playing_state 3).s32EnableStreaming = true ∧
              (playing_state 3).audio_started = true
            then [buffered (playing_state 3)] else [])) :=
  ⟨rfl, end_marker_precedence (playing_state 3) [1, 2] rfl⟩

/-- C5: starting from an empty assembly buffer (an array of 655360 bytes with fill 0), after
every frame of every sequence of frames handled by process_received_message, whatever their
kinds and payloads, the fill is at most 655360 and the array still has its 655360 bytes, that
is, no copy into it has written past its end. -/
theorem buffer_capacity_invariant (s : State) (frames : List (Nat × List Nat)) (k : Nat)
    (h0 : s.audio_buffer_size = 0) (hlen : s.audio_buffer.length = AUDIO_PLAY_BUFFER_SIZE) :
    (process_frames s (frames.take k)).audio_buffer_size ≤ 655360 ∧
    (process_frames s (frames.take k)).audio_buffer.length = 655360 :=
  process_frames_buffer_inv (frames.take k) s (by rw [h0]; exact Nat.zero_le _) hlen

/-- The invariant on a concrete run from the idle state. -/
theorem buffer_capacity_invariant_witness :
    idle_state.audio_buffer_size = 0 ∧ idle_state.audio_buffer.length = AUDIO_PLAY_BUFFER_SIZE ∧
    (process_frames idle_state
        ([(MSG_AUDIO_START, []), (MSG_AUDIO_DATA, [1, 2, 3]),
          (MSG_AUDIO_DATA, AUDIO_END_MARKER)].take 2)).audio_buffer_size ≤ 655360 ∧
    (process_frames idle_state
        ([(MSG_AUDIO_START, []), (MSG_AUDIO_DATA, [1, 2, 3]),
          (MSG_AUDIO_DATA, AUDIO_END_MARKER)].take 2)).audio_buffer.length = 655360 :=
  ⟨rfl, List.length_replicate _ _,
    buffer_capacity_invariant idle_state
      [(MSG_AUDIO_START, []), (MSG_AUDIO_DATA, [1, 2, 3]), (MSG_AUDIO_DATA, AUDIO_END_MARKER)] 2
      rfl (List.length_replicate _ _)⟩


/-- C6 (as amended): for every non-marker AUDIO_DATA payload of length len at most half the
capacity, received while not interrupted, with fill + len strictly below the capacity, the
payload is appended: the fill becomes fill + len, the buffered bytes are the earlier ones
followed by the payload, play is not called and no device call is made. -/
theorem small_payload_appended (s : State) (p : List Nat) (hi : s.gAudioInterrupted = false)
    (hm : p ≠ AUDIO_END_MARKER) (hhalf : p.length ≤ AUDIO_PLAY_BUFFER_SIZE / 2)
    (hfit : s.audio_buffer_size + p.length < AUDIO_PLAY_BUFFER_SIZE)
    (hwf : s.audio_buffer_size ≤ s.audio_buffer.length) :
    (process_received_message s MSG_AUDIO_DATA p).2.audio_buffer_size
      = s.audio_buffer_size + p.length ∧
    buffered (process_received_message s MSG_AUDIO_DATA p).2 = buffered s ++ p ∧
    (process_received_message s MSG_AUDIO_DATA p).2.play_log = s.play_log ∧
    (process_received_message s MSG_AUDIO_DATA p).2.ao_calls = s.ao_calls := by
  rw [prm_audio_data, audio_data_append s p hi hm hhalf hfit]
  exact ⟨rfl, buffered_memcpy _ _ _ hwf, rfl, rfl⟩

/-- A two-byte payload appended to 3 buffered bytes. -/
theorem small_payload_appended_witness :
    (playing_state 3).gAudioInterrupted = false ∧ [7, 8] ≠ AUDIO_END_MARKER ∧
    [7, 8].length ≤ AUDIO_PLAY_BUFFER_SIZE / 2 ∧
    (playing_state 3).audio_buffer_size + [7, 8].length < AUDIO_PLAY_BUFFER_SIZE ∧
    (playing_state 3).audio_buffer_size ≤ (playing_state 3).audio_buffer.length ∧
    (process_received_message (playing_state 3) MSG_AUDIO_DATA [7, 8]).2.audio_buffer_size
      = (playing_state 3).audio_buffer_size + [7, 8].length ∧
    buffered (process_received_message (playing_state 3) MSG_AUDIO_DATA [7, 8]).2
      = buffered (playing_state 3) ++ [7, 8] ∧
    (process_received_message (playing_state 3) MSG_AUDIO_DATA [7, 8]).2.play_log
      = (playing_state 3).play_log ∧
    (process_received_message (playing_state 3) MSG_AUDIO_DATA [7, 8]).2.ao_calls
      = (playing_state 3).ao_calls :=
  have hwf : (playing_state 3).audio_buffer_size ≤ (playing_state 3).audio_buffer.length := by
    show 3 ≤ (List.replicate 655360 0).length
    rw [List.length_replicate]; decide
  ⟨rfl, by decide, by decide, by decide, hwf,
    small_payload_appended (playing_state 3) [7, 8] rfl (by decide) (by decide) (by decide) hwf⟩

/-- C6 as stated fails when the payload fits exactly: with 655359 bytes buffered, a one-byte
non-marker payload satisfies fill + len <= capacity, yet it is not appended: the buffer is
flushed to play and refilled, the fill being 1 afterwards instead of 655360. -/
theorem exact_fit_not_appended :
    (playing_state 655359).gAudioInterrupted = false ∧ [7] ≠ AUDIO_END_MARKER ∧
    [7].length ≤ AUDIO_PLAY_BUFFER_SIZE / 2 ∧
    (playing_state 655359).audio_buffer_size + [7].length ≤ AUDIO_PLAY_BUFFER_SIZE ∧
    (process_received_message (playing_state 655359) MSG_AUDIO_DATA [7]).2.audio_buffer_size = 1 ∧
    (process_received_message (playing_state 655359) MSG_AUDIO_DATA [7]).2.audio_buffer_size
      ≠ (playing_state 655359).audio_buffer_size + [7].length ∧
    (process_received_message (playing_state 655359) MSG_AUDIO_DATA [7]).2.play_log
      ≠ (playing_state 655359).play_log := by
  obtain ⟨-, r2, r3⟩ := audio_data_refill (playing_state 655359) [7] rfl (by decide) (by decide)
    (by decide)
  rw [prm_audio_data]
  refine ⟨rfl, by decide, by decide, by decide, r2, ?_, ?_⟩
  · rw [r2]; decide
  · rw [r3]
    have h : (0 < (playing_state 655359).audio_buffer_size ∧
        (playing_state 655359).s32EnableStreaming = true ∧
        (playing_state 655359).audio_started = true) := ⟨by decide, rfl, rfl⟩
    rw [if_pos h]
    intro hc
    have hl := congrArg List.length hc
    rw [List.length_append, List.length_singleton] at hl
    omega

/-- C7: for every AUDIO_DATA payload longer than half the buffer capacity (more than 327680
bytes, hence not the marker), received while not interrupted, the buffer array and its fill
are left unchanged, and the payload itself is passed to play exactly once when streaming
playback is active, and not at all otherwise. -/
theorem large_payload_bypass (s : State) (p : List Nat) (hi : s.gAudioInterrupted = false)
    (hbig : p.length > 327680) :
    AUDIO_PLAY_BUFFER_SIZE / 2 = 327680 ∧
    (process_received_message s MSG_AUDIO_DATA p).2.audio_buffer = s.audio_buffer ∧
    (process_received_message s MSG_AUDIO_DATA p).2.audio_buffer_size = s.audio_buffer_size ∧
    (process_received_message s MSG_AUDIO_DATA p).2.play_log
      = s.play_log ++ (if s.s32EnableStreaming = true ∧ s.audio_started = true then [p]
          else []) := by
  rw [prm_audio_data]
  exact ⟨rfl, audio_data_big s p hi hbig⟩

/-- A payload of 327681 bytes received with 3 bytes buffered. -/
theorem large_payload_bypass_witness :
    (playing_state 3).gAudioInterrupted = false ∧ (List.replicate 327681 0).length > 327680 ∧
    AUDIO_PLAY_BUFFER_SIZE / 2 = 327680 ∧
    (process_received_message (playing_state 3) MSG_AUDIO_DATA
        (List.replicate 327681 0)).2.audio_buffer = (playing_state 3).audio_buffer ∧
    (process_received_message (playing_state 3) MSG_AUDIO_DATA
        (List.replicate 327681 0)).2.audio_buffer_size = (playing_state 3).audio_buffer_size ∧
    (process_received_message (playing_state 3) MSG_AUDIO_DATA
        (List.replicate 327681 0)).2.play_log
      = (playing_state 3).play_log ++
          (if (playing_state 3).s32EnableStreaming = true ∧
              (playing_state 3).audio_started = true then [List.replicate 327681 0] else []) :=
  have hbig : (List.replicate 327681 0).length > 327680 := by
    rw [List.length_replicate]; decide
  ⟨rfl, hbig, large_payload_bypass (playing_state 3) (List.replicate 327681 0) rfl hbig⟩

/-- C8: for every frame sequence AUDIO_START, AUDIO_DATA(p1) ... AUDIO_DATA(pn), AUDIO_END in
which every pi is the end marker or has at most half the capacity, handled with streaming
enabled and device setup succeeding (the run being sequential, no interruption occurs), the
blocks passed to play during the sequence, concatenated in call order, are the non-marker
payloads concatenated in arrival order. -/
theorem play_order_preserved (s : State) (ps : List (List Nat)) (a e : List Nat)
    (hstream : s.s32EnableStreaming = true)
    (hsetup : (setup_audio_playback s).1 = RK_SUCCESS)
    (hps : ∀ p ∈ ps, p = AUDIO_END_MARKER ∨ p.length ≤ AUDIO_PLAY_BUFFER_SIZE / 2) :
    ∃ blocks,
      (process_frames s ((MSG_AUDIO_START, a) :: ps.map (fun p => (MSG_AUDIO_DATA, p))
          ++ [(MSG_AUDIO_END, e)])).play_log = s.play_log ++ blocks ∧
      blocks.flatten = (ps.filter (fun p => p ≠ AUDIO_END_MARKER)).flatten := by
  obtain ⟨a1, a2, a3, a4, a5, a6, -, -⟩ := audio_start_ok s hstream hsetup
  have hsplit : process_frames s ((MSG_AUDIO_START, a) :: ps.map (fun p => (MSG_AUDIO_DATA, p))
        ++ [(MSG_AUDIO_END, e)])
      = case_MSG_AUDIO_END (process_frames (case_MSG_AUDIO_START s)
          (ps.map (fun p => (MSG_AUDIO_DATA, p)))) := by
    rw [List.cons_append, ← List.singleton_append, process_frames_append,
      process_frames_append]
    simp [process_frames, prm_audio_start, prm_audio_end]
  rw [hsplit]
  obtain ⟨⟨i1, i2⟩, blocks, hb1, hb2⟩ :=
    audio_data_frames ps (case_MSG_AUDIO_START s) a4 a5 a6 (by rw [a2]; exact Nat.zero_le _) hps
  have hb0 : buffered (case_MSG_AUDIO_START s) = [] := by simp [buffered, a2]
  rw [hb0, List.nil_append] at hb2
  generalize process_frames (case_MSG_AUDIO_START s) (ps.map (fun p => (MSG_AUDIO_DATA, p)))
    = sn at *
  obtain ⟨-, -, n3, -⟩ := audio_end_fields sn
  by_cases h0 : 0 < sn.audio_buffer_size
  · refine ⟨blocks ++ [buffered sn], ?_, ?_⟩
    · rw [n3, hb1, a3]; simp [h0, i1, i2]
    · rw [List.flatten_append, ← hb2]; simp
  · refine ⟨blocks, ?_, ?_⟩
    · rw [n3, hb1, a3]; simp [h0]
    · have hz : sn.audio_buffer_size = 0 := by omega
      have : buffered sn = [] := by simp [buffered, hz]
      rw [this, List.append_nil] at hb2
      exact hb2

/-- A concrete segment: two payloads separated by the end marker. -/
theorem play_order_preserved_witness :
    idle_state.s32EnableStreaming = true ∧
    (setup_audio_playback idle_state).1 = RK_SUCCESS ∧
    (∀ p ∈ [[1, 2], AUDIO_END_MARKER, [3]],
      p = AUDIO_END_MARKER ∨ p.length ≤ AUDIO_PLAY_BUFFER_SIZE / 2) ∧
    ∃ blocks,
      (process_frames idle_state ((MSG_AUDIO_START, []) ::
          [[1, 2], AUDIO_END_MARKER, [3]].map (fun p => (MSG_AUDIO_DATA, p))
          ++ [(MSG_AUDIO_END, [])])).play_log = idle_state.play_log ++ blocks ∧
      blocks.flatten
        = ([[1, 2], AUDIO_END_MARKER, [3]].filter (fun p => p ≠ AUDIO_END_MARKER)).flatten :=
  ⟨rfl, by decide, by decide,
    play_order_preserved idle_state [[1, 2], AUDIO_END_MARKER, [3]] [] [] rfl (by decide)
      (by decide)⟩


theorem audio_scenario_frames (s : State) (p : List Nat)
    (hstream : s.s32EnableStreaming = true)
    (hsetup : (setup_audio_playback s).1 = RK_SUCCESS) (hne : p ≠ AUDIO_END_MARKER)
    (hhalf : p.length ≤ AUDIO_PLAY_BUFFER_SIZE / 2) (hpos : 0 < p.length) :
    (process_frames s ((scenario_frames p).take 1)).audio_buffer_size = 0 ∧
    (process_frames s ((scenario_frames p).take 2)).audio_buffer_size = p.length ∧
    buffered (process_frames s ((scenario_frames p).take 2)) = p ∧
    (process_frames s ((scenario_frames p).take 2)).play_log = s.play_log ∧
    (process_frames s ((scenario_frames p).take 2)).ao_calls
      = (process_frames s ((scenario_frames p).take 1)).ao_calls ∧
    (process_frames s ((scenario_frames p).take 3)).audio_buffer_size = 0 ∧
    (process_frames s ((scenario_frames p).take 3)).play_log = s.play_log ++ [p] ∧
    (process_frames s (scenario_frames p)).play_log = s.play_log ++ [p] ∧
    (process_frames s (scenario_frames p)).ao_calls
      = (process_frames s ((scenario_frames p).take 3)).ao_calls
        ++ [AoCall.WaitEos, AoCall.DisableReSmp, AoCall.DisableChn, AoCall.Disable] := by
  have h := audio_scenario s p [] [] hstream hsetup hne hhalf hpos
  simpa only [scenario_frames, List.take, process_frames, List.foldl] using h

/-- C9 (as amended): with streaming enabled and setup succeeding, in the frame sequence
AUDIO_START, AUDIO_DATA of 300000 bytes, AUDIO_DATA carrying the marker, AUDIO_END, the
300000-byte payload (which is below half the capacity) is buffered and not played: after it
the fill is 300000, the buffered bytes are the payload and neither play nor the device has
been called; the marker frame passes the payload to play, exactly once, and empties the
buffer; AUDIO_END makes no further play call and runs the device teardown exactly once. -/
theorem scenario_segment_boundary (s : State) (p : List Nat)
    (hstream : s.s32EnableStreaming = true)
    (hsetup : (setup_audio_playback s).1 = RK_SUCCESS) (hp : p.length = 300000) :
    (process_frames s ((scenario_frames p).take 1)).audio_buffer_size = 0 ∧
    (process_frames s ((scenario_frames p).take 2)).audio_buffer_size = 300000 ∧
    buffered (process_frames s ((scenario_frames p).take 2)) = p ∧
    (process_frames s ((scenario_frames p).take 2)).play_log = s.play_log ∧
    (process_frames s ((scenario_frames p).take 2)).ao_calls
      = (process_frames s ((scenario_frames p).take 1)).ao_calls ∧
    (process_frames s ((scenario_frames p).take 3)).audio_buffer_size = 0 ∧
    (process_frames s ((scenario_frames p).take 3)).play_log = s.play_log ++ [p] ∧
    (process_frames s (scenario_frames p)).play_log = s.play_log ++ [p] ∧
    (process_frames s (scenario_frames p)).ao_calls
      = (process_frames s ((scenario_frames p).take 3)).ao_calls
        ++ [AoCall.WaitEos, AoCall.DisableReSmp, AoCall.DisableChn, AoCall.Disable] := by
  have hne : p ≠ AUDIO_END_MARKER := by
    rintro rfl
    revert hp; decide
  have hhalf : p.length ≤ AUDIO_PLAY_BUFFER_SIZE / 2 := by rw [hp]; decide
  have h := audio_scenario_frames s p hstream hsetup hne hhalf (by omega)
  rw [hp] at h
  exact h

/-- The scenario run from the idle state on 300000 zero bytes. -/
theorem scenario_segment_boundary_witness :
    idle_state.s32EnableStreaming = true ∧
    (setup_audio_playback idle_state).1 = RK_SUCCESS ∧
    (List.replicate 300000 0).length = 300000 ∧
    (process_frames idle_state
      ((scenario_frames (List.replicate 300000 0)).take 2)).audio_buffer_size = 300000 ∧
    (process_frames idle_state
      ((scenario_frames (List.replicate 300000 0)).take 2)).play_log = idle_state.play_log ∧
    (process_frames idle_state
      ((scenario_frames (List.replicate 300000 0)).take 3)).play_log
        = idle_state.play_log ++ [List.replicate 300000 0] ∧
    (process_frames idle_state (scenario_frames (List.replicate 300000 0))).ao_calls
      = (process_frames idle_state
          ((scenario_frames (List.replicate 300000 0)).take 3)).ao_calls
        ++ [AoCall.WaitEos, AoCall.DisableReSmp, AoCall.DisableChn, AoCall.Disable] :=
  have h := scenario_segment_boundary idle_state (List.replicate 300000 0) rfl (by decide)
    (List.length_replicate _ _)
  ⟨rfl, by decide, List.length_replicate _ _, h.2.1, h.2.2.2.1, h.2.2.2.2.2.2.1,
    h.2.2.2.2.2.2.2.2⟩

/-- C9 as stated fails: from the idle state with streaming enabled and setup succeeding, the
payload of 300000 zero bytes is not played directly but buffered (after its frame the fill is
300000, not 0, and nothing has been passed to play), and the marker frame that follows does
cause a play call, of those 300000 bytes. -/
theorem scenario_payload_is_buffered :
    idle_state.s32EnableStreaming = true ∧
    (setup_audio_playback idle_state).1 = RK_SUCCESS ∧
    (process_frames idle_state
      ((scenario_frames (List.replicate 300000 0)).take 2)).audio_buffer_size ≠ 0 ∧
    (process_frames idle_state
      ((scenario_frames (List.replicate 300000 0)).take 2)).play_log = [] ∧
    (process_frames idle_state
      ((scenario_frames (List.replicate 300000 0)).take 3)).play_log
        ≠ (process_frames idle_state
            ((scenario_frames (List.replicate 300000 0)).take 2)).play_log := by
  have hl : (List.replicate 300000 0).length = 300000 := List.length_replicate _ _
  have hne : List.replicate 300000 0 ≠ AUDIO_END_MARKER := by
    intro hc
    have := congrArg List.length hc
    rw [hl] at this
    revert this; decide
  have h := audio_scenario_frames idle_state (List.replicate 300000 0) rfl (by decide) hne
    (by rw [hl]; decide) (by rw [hl]; decide)
  obtain ⟨-, h2, -, h4, -, -, h7, -⟩ := h
  refine ⟨rfl, by decide, ?_, h4, ?_⟩
  · rw [h2, hl]; decide
  · rw [h7, h4]
    intro hc
    have hlen := congrArg List.length hc
    rw [List.length_append, List.length_singleton] at hlen
    omega


/-! ## The receive loop -/

theorem receive_loop_step (sock sock1 : Socket) (s : State) (l : RecvLocals) (t n : Nat)
    (d : List Nat) (hexit : s.gRecorderExit = false) (hend : l.ai_end_received = false)
    (habort : s.gInterruptAIResponse = false)
    (hrecv : socket_receive_message sock SOCKET_RESPONSE_BUFFER_SIZE = (some (t, n, d), sock1)) :
    receive_loop sock s l =
      (let l1 : RecvLocals := { l with message_count := l.message_count + 1 }
       let s1 := (process_received_message s t d).2
       let l2 : RecvLocals :=
          if t = MSG_AUDIO_DATA ∨ t = MSG_TEXT_DATA ∨ t = MSG_AI_START ∨ t = MSG_AUDIO_START then
            { l1 with consecutive_non_progress_msgs := 0 }
          else { l1 with consecutive_non_progress_msgs := l1.consecutive_non_progress_msgs + 1 }
       let l3 : RecvLocals := if t = MSG_AI_END then { l2 with ai_end_received := true } else l2
       if t = MSG_JSON_RESPONSE ∧ s1.responseFormat = "json" then (none, sock1, s1, l3)
       else if t = MSG_ERROR then
         (none, sock1, s1, { l3 with error_received := true, ai_end_received := true })
       else if t = MSG_AI_CANCELLED then (none, sock1, s1, l3)
       else if l3.error_received ∧ l3.consecutive_non_progress_msgs ≥ 2 then (none, sock1, s1, l3)
       else if l3.consecutive_non_progress_msgs ≥ 5 then (none, sock1, s1, l3)
       else receive_loop sock1 s1 l3) := by
  rw [receive_loop]
  simp only [hexit, hend, habort, Bool.or_self, Bool.false_eq_true, if_false]
  split
  · rename_i h1
    rw [hrecv] at h1
    simp at h1
  · rename_i h1
    rw [hrecv] at h1
    simp only [Prod.mk.injEq, Option.some.injEq] at h1
    obtain ⟨⟨rfl, -, rfl⟩, rfl⟩ := h1
    rfl

theorem receive_loop_fail (sock sock1 : Socket) (s : State) (l : RecvLocals)
    (hexit : s.gRecorderExit = false) (hend : l.ai_end_received = false)
    (habort : s.gInterruptAIResponse = false)
    (hrecv : socket_receive_message sock SOCKET_RESPONSE_BUFFER_SIZE = (none, sock1)) :
    receive_loop sock s l =
      if l.message_count > 0 then (none, sock1, s, l) else (some RK_FAILURE, sock1, s, l) := by
  rw [receive_loop]
  simp only [hexit, hend, habort, Bool.or_self, Bool.false_eq_true, if_false]
  split
  · rename_i h1
    rw [hrecv] at h1
    simp only [Prod.mk.injEq, true_and] at h1
    subst h1
    rfl
  · rename_i h1
    rw [hrecv] at h1
    simp at h1

theorem receive_loop_done (sock : Socket) (s : State) (l : RecvLocals)
    (h : l.ai_end_received = true) : receive_loop sock s l = (none, sock, s, l) := by
  rw [receive_loop]
  simp [h]


theorem setup_loop_flags (s : State) :
    (setup_audio_playback s).2.gRecorderExit = s.gRecorderExit ∧
    (setup_audio_playback s).2.gInterruptAIResponse = s.gInterruptAIResponse ∧
    (setup_audio_playback s).2.responseFormat = s.responseFormat := by
  unfold setup_audio_playback
  simp only [RK_MPI_AO_SetPubAttr, RK_MPI_AO_Enable, RK_MPI_AO_SetChnParams, RK_MPI_AO_EnableChn,
    ao_call]
  split_ifs <;> simp

theorem cleanup_loop_flags (s : State) :
    (cleanup_audio_playback s).2.gRecorderExit = s.gRecorderExit ∧
    (cleanup_audio_playback s).2.gInterruptAIResponse = s.gInterruptAIResponse ∧
    (cleanup_audio_playback s).2.responseFormat = s.responseFormat := by
  unfold cleanup_audio_playback
  cases h : s.bInitialized <;> simp [set_audio_playing_state, ao_call]

theorem cleanup_gRecorderExit (s : State) :
    (cleanup_audio_playback s).2.gRecorderExit = s.gRecorderExit := (cleanup_loop_flags s).1

theorem cleanup_gInterruptAIResponse (s : State) :
    (cleanup_audio_playback s).2.gInterruptAIResponse = s.gInterruptAIResponse :=
  (cleanup_loop_flags s).2.1

theorem cleanup_responseFormat (s : State) :
    (cleanup_audio_playback s).2.responseFormat = s.responseFormat := (cleanup_loop_flags s).2.2

attribute [simp] cleanup_gRecorderExit cleanup_gInterruptAIResponse cleanup_responseFormat

theorem audio_start_loop_flags (s : State) :
    (case_MSG_AUDIO_START s).gRecorderExit = s.gRecorderExit ∧
    (case_MSG_AUDIO_START s).gInterruptAIResponse = s.gInterruptAIResponse ∧
    (case_MSG_AUDIO_START s).responseFormat = s.responseFormat := by
  unfold case_MSG_AUDIO_START
  generalize hs0 : ({ s with audio_buffer_size := 0 } : State) = s0
  have e1 : s0.gRecorderExit = s.gRecorderExit := by rw [← hs0]
  have e2 : s0.gInterruptAIResponse = s.gInterruptAIResponse := by rw [← hs0]
  have e3 : s0.responseFormat = s.responseFormat := by rw [← hs0]
  obtain ⟨h1, h2, h3⟩ := setup_loop_flags s0
  dsimp only
  split_ifs
  · simp only [set_audio_playing_state, if_true]
    exact ⟨h1.trans e1, h2.trans e2, h3.trans e3⟩
  · exact ⟨h1.trans e1, h2.trans e2, h3.trans e3⟩
  · exact ⟨e1, e2, e3⟩

theorem audio_end_loop_flags (s : State) :
    (case_MSG_AUDIO_END s).gRecorderExit = s.gRecorderExit ∧
    (case_MSG_AUDIO_END s).gInterruptAIResponse = s.gInterruptAIResponse ∧
    (case_MSG_AUDIO_END s).responseFormat = s.responseFormat := by
  unfold case_MSG_AUDIO_END
  dsimp only
  split_ifs <;> simp [set_audio_playing_state]

theorem prm_loop_flags (s : State) (t : Nat) (p : List Nat) :
    (process_received_message s t p).2.gRecorderExit = s.gRecorderExit ∧
    (process_received_message s t p).2.gInterruptAIResponse = s.gInterruptAIResponse ∧
    (process_received_message s t p).2.responseFormat = s.responseFormat := by
  obtain ⟨-, h | ⟨-, h⟩ | ⟨-, h⟩ | ⟨-, h⟩ | ⟨-, h⟩ | ⟨-, h⟩ | ⟨-, h⟩ | ⟨-, h⟩⟩ :=
    prm_cases s t p
  · rw [h]; exact ⟨rfl, rfl, rfl⟩
  · rw [h]
    obtain ⟨-, -, -, -, -, -, f7, f8, f9⟩ := audio_data_flags s p
    exact ⟨f8, f7, f9⟩
  · rw [h]; exact ⟨rfl, rfl, rfl⟩
  · rw [h]; exact ⟨rfl, rfl, rfl⟩
  · rw [h]; exact audio_start_loop_flags s
  · rw [h]; exact audio_end_loop_flags s
  · rw [h]
    unfold case_MSG_ERROR
    split_ifs <;> simp [set_audio_playing_state]
  · rw [h]
    unfold case_MSG_AI_CANCELLED
    dsimp only
    split_ifs <;> simp [set_audio_playing_state]

theorem receive_loop_progress (sock sock1 : Socket) (s : State) (l : RecvLocals) (t n : Nat)
    (d : List Nat) (hexit : s.gRecorderExit = false) (hend : l.ai_end_received = false)
    (habort : s.gInterruptAIResponse = false)
    (hrecv : socket_receive_message sock SOCKET_RESPONSE_BUFFER_SIZE = (some (t, n, d), sock1))
    (hprog : t = MSG_AUDIO_DATA ∨ t = MSG_TEXT_DATA ∨ t = MSG_AI_START ∨ t = MSG_AUDIO_START)
    (herr : l.error_received = false) :
    receive_loop sock s l =
      receive_loop sock1 (process_received_message s t d).2
        { l with message_count := l.message_count + 1, consecutive_non_progress_msgs := 0 } := by
  rw [receive_loop_step sock sock1 s l t n d hexit hend habort hrecv]
  have h1 : t ≠ MSG_AI_END := by
    rcases hprog with h | h | h | h <;> rw [h] <;> decide
  have h2 : t ≠ MSG_JSON_RESPONSE := by
    rcases hprog with h | h | h | h <;> rw [h] <;> decide
  have h3 : t ≠ MSG_ERROR := by
    rcases hprog with h | h | h | h <;> rw [h] <;> decide
  have h4 : t ≠ MSG_AI_CANCELLED := by
    rcases hprog with h | h | h | h <;> rw [h] <;> decide
  simp [hprog, h1, h2, h3, h4, herr]

theorem receive_loop_audio_end (sock sock1 : Socket) (s : State) (l : RecvLocals) (n : Nat)
    (d : List Nat) (hexit : s.gRecorderExit = false) (hend : l.ai_end_received = false)
    (habort : s.gInterruptAIResponse = false)
    (hrecv : socket_receive_message sock SOCKET_RESPONSE_BUFFER_SIZE
      = (some (MSG_AUDIO_END, n, d), sock1))
    (herr : l.error_received = false) (hcount : l.consecutive_non_progress_msgs + 1 < 5) :
    receive_loop sock s l =
      receive_loop sock1 (process_received_message s MSG_AUDIO_END d).2
        { l with message_count := l.message_count + 1,
                 consecutive_non_progress_msgs := l.consecutive_non_progress_msgs + 1 } := by
  rw [receive_loop_step sock sock1 s l MSG_AUDIO_END n d hexit hend habort hrecv]
  have h0 : ¬ (MSG_AUDIO_END = MSG_AUDIO_DATA ∨ MSG_AUDIO_END = MSG_TEXT_DATA ∨
      MSG_AUDIO_END = MSG_AI_START ∨ MSG_AUDIO_END = MSG_AUDIO_START) := by decide
  have h1 : MSG_AUDIO_END ≠ MSG_AI_END := by decide
  have h2 : MSG_AUDIO_END ≠ MSG_JSON_RESPONSE := by decide
  have h3 : MSG_AUDIO_END ≠ MSG_ERROR := by decide
  have h4 : MSG_AUDIO_END ≠ MSG_AI_CANCELLED := by decide
  simp only [h0, h1, h2, h3, h4, herr, if_false, false_and, Bool.false_eq_true]
  rw [if_neg (by simp only [ge_iff_le, not_le]; omega)]

theorem receive_loop_ai_end (sock sock1 : Socket) (s : State) (l : RecvLocals) (n : Nat)
    (d : List Nat) (hexit : s.gRecorderExit = false) (hend : l.ai_end_received = false)
    (habort : s.gInterruptAIResponse = false)
    (hrecv : socket_receive_message sock SOCKET_RESPONSE_BUFFER_SIZE
      = (some (MSG_AI_END, n, d), sock1)) :
    receive_loop sock s l =
      (none, sock1, (process_received_message s MSG_AI_END d).2,
        { l with message_count := l.message_count + 1,
                 consecutive_non_progress_msgs := l.consecutive_non_progress_msgs + 1,
                 ai_end_received := true }) := by
  rw [receive_loop_step sock sock1 s l MSG_AI_END n d hexit hend habort hrecv]
  have h0 : ¬ (MSG_AI_END = MSG_AUDIO_DATA ∨ MSG_AI_END = MSG_TEXT_DATA ∨
      MSG_AI_END = MSG_AI_START ∨ MSG_AI_END = MSG_AUDIO_START) := by decide
  have h2 : MSG_AI_END ≠ MSG_JSON_RESPONSE := by decide
  have h3 : MSG_AI_END ≠ MSG_ERROR := by decide
  have h4 : MSG_AI_END ≠ MSG_AI_CANCELLED := by decide
  simp only [h0, h2, h3, h4, if_false, if_true, false_and]
  split_ifs
  · rfl
  · rfl
  · exact receive_loop_done _ _ _ rfl

theorem recv_wire_ready (sock : Socket) (t : Nat) (p rest : List Nat)
    (hrx : sock.rx = wire t p ++ rest) (hsel : ∀ r ∈ sock.select_results, 0 < r)
    (ht : t < 256) (hp : p.length ≤ SOCKET_RESPONSE_BUFFER_SIZE) :
    socket_receive_message sock SOCKET_RESPONSE_BUFFER_SIZE
      = (some (t, p.length, p),
          { sock with rx := rest, select_results := sock.select_results.tail }) := by
  rw [socket_receive_message_wire sock _ t p rest hrx (select_ready sock hsel) ht hp
    (by decide)]
  rw [select_eq]


theorem tail_ready (L : List Int) (h : ∀ r ∈ L, 0 < r) : ∀ r ∈ L.tail, 0 < r :=
  fun r hr => h r (List.mem_of_mem_tail hr)

theorem tail_five (L : List Int) : L.tail.tail.tail.tail.tail = L.drop 5 := by
  rcases L with _ | ⟨a, _ | ⟨b, _ | ⟨c, _ | ⟨d, _ | ⟨e, L⟩⟩⟩⟩⟩ <;> rfl

theorem audio_start_playing (s : State) :
    (case_MSG_AUDIO_START s).audio_started = true ∨
    ((case_MSG_AUDIO_START s).audio_started = s.audio_started ∧
      (case_MSG_AUDIO_START s).gAudioPlaying = s.gAudioPlaying) := by
  unfold case_MSG_AUDIO_START
  generalize hs0 : ({ s with audio_buffer_size := 0 } : State) = s0
  have e1 : s0.gAudioPlaying = s.gAudioPlaying := by rw [← hs0]
  have e2 : s0.audio_started = s.audio_started := by rw [← hs0]
  obtain ⟨-, -, -, h4, -, h6, -, -⟩ := setup_fields s0
  dsimp only
  split_ifs
  · left; simp [set_audio_playing_state]
  · right; exact ⟨h6.trans e2, h4.trans e1⟩
  · right; exact ⟨e2, e1⟩

theorem exchange_playing (s : State) (x : List Nat) (hidle : s.gAudioPlaying = false) :
    (process_frames s (exchange_frames x)).gAudioPlaying = false := by
  have hunfold : process_frames s (exchange_frames x)
      = (process_received_message (process_received_message (process_received_message
          (process_received_message (process_received_message s MSG_AI_START []).2
            MSG_AUDIO_START []).2 MSG_AUDIO_DATA x).2 MSG_AUDIO_END []).2 MSG_AI_END []).2 := rfl
  rw [hunfold, prm_ai_end, prm_audio_end, prm_audio_data, prm_audio_start, prm_ai_start]
  generalize hs1 : ({ s with gAIResponseActive := true } : State) = s1
  have i1 : s1.gAudioPlaying = false := by rw [← hs1]; exact hidle
  obtain ⟨-, f2, -, f4, -⟩ := audio_data_flags (case_MSG_AUDIO_START s1) x
  obtain ⟨-, -, -, -, n5⟩ := audio_end_fields (case_MSG_AUDIO_DATA (case_MSG_AUDIO_START s1) x)
  show (case_MSG_AUDIO_END (case_MSG_AUDIO_DATA (case_MSG_AUDIO_START s1) x)).gAudioPlaying = false
  rw [n5, f2, f4]
  rcases audio_start_playing s1 with h | ⟨-, h⟩
  · simp [h]
  · rw [h, i1]; simp

theorem exchange_loop (sock : Socket) (s : State) (x rest : List Nat)
    (hexit : s.gRecorderExit = false) (habort : s.gInterruptAIResponse = false)
    (hx : x.length ≤ SOCKET_RESPONSE_BUFFER_SIZE) (hrx : sock.rx = exchange_stream x rest)
    (hsel : ∀ r ∈ sock.select_results, 0 < r) :
    receive_loop sock s ⟨0, false, false, 0⟩
      = (none, { sock with rx := rest, select_results := sock.select_results.drop 5 },
          process_frames s (exchange_frames x), ⟨5, true, false, 2⟩) := by
  have hunfold : process_frames s (exchange_frames x)
      = (process_received_message (process_received_message (process_received_message
          (process_received_message (process_received_message s MSG_AI_START []).2
            MSG_AUDIO_START []).2 MSG_AUDIO_DATA x).2 MSG_AUDIO_END []).2 MSG_AI_END []).2 := rfl
  have hs1 := tail_ready _ hsel
  have hs2 := tail_ready _ hs1
  have hs3 := tail_ready _ hs2
  have hs4 := tail_ready _ hs3
  obtain ⟨a1, a2, -⟩ := prm_loop_flags s MSG_AI_START []
  obtain ⟨b1, b2, -⟩ := prm_loop_flags (process_received_message s MSG_AI_START []).2
    MSG_AUDIO_START []
  obtain ⟨c1, c2, -⟩ := prm_loop_flags (process_received_message
    (process_received_message s MSG_AI_START []).2 MSG_AUDIO_START []).2 MSG_AUDIO_DATA x
  obtain ⟨d1, d2, -⟩ := prm_loop_flags (process_received_message (process_received_message
    (process_received_message s MSG_AI_START []).2 MSG_AUDIO_START []).2 MSG_AUDIO_DATA x).2
    MSG_AUDIO_END []
  rw [a1] at b1; rw [a2] at b2
  rw [b1] at c1; rw [b2] at c2
  rw [c1] at d1; rw [c2] at d2
  rw [receive_loop_progress sock _ s _ MSG_AI_START _ [] hexit rfl habort
    (recv_wire_ready sock MSG_AI_START [] _ hrx hsel (by decide) (by decide))
    (Or.inr (Or.inr (Or.inl rfl))) rfl]
  rw [receive_loop_progress _ _ _ _ MSG_AUDIO_START _ [] (a1.trans hexit) rfl (a2.trans habort)
    (recv_wire_ready _ MSG_AUDIO_START [] _ rfl hs1 (by decide) (by decide))
    (Or.inr (Or.inr (Or.inr rfl))) rfl]
  rw [receive_loop_progress _ _ _ _ MSG_AUDIO_DATA _ x (b1.trans hexit) rfl (b2.trans habort)
    (recv_wire_ready _ MSG_AUDIO_DATA x _ rfl hs2 (by decide) hx)
    (Or.inl rfl) rfl]
  rw [receive_loop_audio_end _ _ _ _ _ [] (c1.trans hexit) rfl (c2.trans habort)
    (recv_wire_ready _ MSG_AUDIO_END [] _ rfl hs3 (by decide) (by decide)) rfl (by decide)]
  rw [receive_loop_ai_end _ _ _ _ _ [] (d1.trans hexit) rfl (d2.trans habort)
    (recv_wire_ready _ MSG_AI_END [] _ rfl hs4 (by decide) (by decide))]
  rw [hunfold, ← tail_five]


theorem recv_wire_oversize (sock : Socket) (t : Nat) (p rest : List Nat)
    (hrx : sock.rx = wire t p ++ rest) (hsel : ∀ r ∈ sock.select_results, 0 < r)
    (hbig : SOCKET_RESPONSE_BUFFER_SIZE < p.length) (h32 : p.length < 2 ^ 32) :
    socket_receive_message sock SOCKET_RESPONSE_BUFFER_SIZE
      = (none, { sock with rx := p ++ rest, select_results := sock.select_results.tail }) := by
  rw [wire_eq] at hrx
  rw [socket_receive_message_frame sock _ (t % 256) (p.length / 2 ^ 24 % 256)
    (p.length / 2 ^ 16 % 256) (p.length / 2 ^ 8 % 256) (p.length % 256) (p ++ rest)
    (by rw [hrx]; simp only [List.cons_append]) (select_ready sock hsel)
    (Nat.mod_lt _ (by norm_num)) (Nat.mod_lt _ (by norm_num)) (Nat.mod_lt _ (by norm_num))]
  rw [be32_value p.length h32, Nat.mod_eq_of_lt h32, if_pos hbig, select_eq]

theorem oversize_exchange_loop (sock : Socket) (s : State) (x rest : List Nat)
    (hexit : s.gRecorderExit = false) (habort : s.gInterruptAIResponse = false)
    (hbig : SOCKET_RESPONSE_BUFFER_SIZE < x.length) (h32 : x.length < 2 ^ 32)
    (hrx : sock.rx = exchange_stream x rest) (hsel : ∀ r ∈ sock.select_results, 0 < r) :
    receive_loop sock s ⟨0, false, false, 0⟩
      = (none,
          { sock with rx := x ++ (wire MSG_AUDIO_END [] ++ (wire MSG_AI_END [] ++ rest)),
                      select_results := sock.select_results.tail.tail.tail },
          process_frames s ((exchange_frames x).take 2), ⟨2, false, false, 0⟩) := by
  have hunfold : process_frames s ((exchange_frames x).take 2)
      = (process_received_message (process_received_message s MSG_AI_START []).2
            MSG_AUDIO_START []).2 := rfl
  have hs1 := tail_ready _ hsel
  have hs2 := tail_ready _ hs1
  obtain ⟨a1, a2, -⟩ := prm_loop_flags s MSG_AI_START []
  obtain ⟨b1, b2, -⟩ := prm_loop_flags (process_received_message s MSG_AI_START []).2
    MSG_AUDIO_START []
  rw [a1] at b1; rw [a2] at b2
  rw [receive_loop_progress sock _ s _ MSG_AI_START _ [] hexit rfl habort
    (recv_wire_ready sock MSG_AI_START [] _ hrx hsel (by decide) (by decide))
    (Or.inr (Or.inr (Or.inl rfl))) rfl]
  rw [receive_loop_progress _ _ _ _ MSG_AUDIO_START _ [] (a1.trans hexit) rfl (a2.trans habort)
    (recv_wire_ready _ MSG_AUDIO_START [] _ rfl hs1 (by decide) (by decide))
    (Or.inr (Or.inr (Or.inr rfl))) rfl]
  rw [receive_loop_fail _ _ _ _ (b1.trans hexit) rfl (b2.trans habort)
    (recv_wire_oversize _ MSG_AUDIO_DATA x _ rfl hs2 hbig h32)]
  rw [hunfold]
  rfl

theorem receive_socket_response_of_loop (sock sock1 : Socket) (s s1 : State) (l1 : RecvLocals)
    (h : receive_loop sock s ⟨0, false, false, 0⟩ = (none, sock1, s1, l1)) :
    receive_socket_response sock s
      = (RK_SUCCESS, sock1,
          { s1 with gInterruptAIResponse := false, gAIResponseActive := false }) := by
  unfold receive_socket_response
  rw [h]

theorem setup_result_active (s : State) (b : Bool) :
    (setup_audio_playback { s with gAIResponseActive := b }).1 = (setup_audio_playback s).1 := by
  unfold setup_audio_playback
  simp only [RK_MPI_AO_SetPubAttr, RK_MPI_AO_Enable, RK_MPI_AO_SetChnParams, RK_MPI_AO_EnableChn,
    ao_call]
  split_ifs <;> rfl

theorem oversize_exchange (sock : Socket) (s : State) (x rest : List Nat)
    (hexit : s.gRecorderExit = false) (habort : s.gInterruptAIResponse = false)
    (hstream : s.s32EnableStreaming = true) (hsetup : (setup_audio_playback s).1 = RK_SUCCESS)
    (hbig : SOCKET_RESPONSE_BUFFER_SIZE < x.length) (h32 : x.length < 2 ^ 32)
    (hrx : sock.rx = exchange_stream x rest) (hsel : ∀ r ∈ sock.select_results, 0 < r) :
    (receive_socket_response sock s).1 = RK_SUCCESS ∧
    (receive_socket_response sock s).2.2.gAudioPlaying = true ∧
    (receive_loop sock s ⟨0, false, false, 0⟩).2.2.2.message_count = 2 := by
  have hloop := oversize_exchange_loop sock s x rest hexit habort hbig h32 hrx hsel
  have hplay : (process_frames s ((exchange_frames x).take 2)).gAudioPlaying = true := by
    have hunfold : process_frames s ((exchange_frames x).take 2)
        = (process_received_message (process_received_message s MSG_AI_START []).2
            MSG_AUDIO_START []).2 := rfl
    rw [hunfold, prm_audio_start, prm_ai_start]
    exact (audio_start_ok { s with gAIResponseActive := true } hstream
      ((setup_result_active s true).trans hsetup)).2.2.2.2.2.2.1
  rw [receive_socket_response_of_loop _ _ _ _ _ hloop, hloop]
  exact ⟨rfl, hplay, rfl⟩

/-- C10 (as amended): starting idle (not playing, exit and abort flags clear), for every
payload x of at most 655360 bytes (the size of the receive buffer), when the stream holds the
frames AI_START, AUDIO_START, AUDIO_DATA(x), AUDIO_END, AI_END and every readiness check
succeeds, receive_socket_response consumes exactly those five frames, dispatches exactly
them, in order, and returns success after AI_END with ai_response_active and audio_playing
both false, whatever the streaming setting and the results of the device calls. -/
theorem clean_exchange (sock : Socket) (s : State) (x rest : List Nat)
    (hidle : s.gAudioPlaying = false) (hexit : s.gRecorderExit = false)
    (habort : s.gInterruptAIResponse = false)
    (hx : x.length ≤ 655360) (hrx : sock.rx = exchange_stream x rest)
    (hsel : ∀ r ∈ sock.select_results, 0 < r) :
    receive_socket_response sock s
      = (RK_SUCCESS, { sock with rx := rest, select_results := sock.select_results.drop 5 },
          { process_frames s (exchange_frames x) with
              gInterruptAIResponse := false, gAIResponseActive := false }) ∧
    (receive_socket_response sock s).2.2.gAIResponseActive = false ∧
    (receive_socket_response sock s).2.2.gAudioPlaying = false ∧
    (receive_loop sock s ⟨0, false, false, 0⟩).2.2.2.message_count = 5 := by
  have hloop := exchange_loop sock s x rest hexit habort hx hrx hsel
  have hres : receive_socket_response sock s
      = (RK_SUCCESS, { sock with rx := rest, select_results := sock.select_results.drop 5 },
          { process_frames s (exchange_frames x) with
              gInterruptAIResponse := false, gAIResponseActive := false }) := by
    exact receive_socket_response_of_loop _ _ _ _ _ hloop
  refine ⟨hres, ?_, ?_, ?_⟩
  · rw [hres]
  · rw [hres]
    exact exchange_playing s x hidle
  · rw [hloop]

/-- The exchange run from the idle state with the payload 1, 2, 3, one byte following. -/
theorem clean_exchange_witness :
    idle_state.gAudioPlaying = false ∧ idle_state.gRecorderExit = false ∧
    idle_state.gInterruptAIResponse = false ∧ [1, 2, 3].length ≤ 655360 ∧
    (receive_socket_response (receiver_of (exchange_stream [1, 2, 3] [9])) idle_state
      = (RK_SUCCESS,
          { receiver_of (exchange_stream [1, 2, 3] [9]) with
              rx := [9],
              select_results :=
                (receiver_of (exchange_stream [1, 2, 3] [9])).select_results.drop 5 },
          { process_frames idle_state (exchange_frames [1, 2, 3]) with
              gInterruptAIResponse := false, gAIResponseActive := false }) ∧
    (receive_socket_response (receiver_of (exchange_stream [1, 2, 3] [9]))
      idle_state).2.2.gAIResponseActive = false ∧
    (receive_socket_response (receiver_of (exchange_stream [1, 2, 3] [9]))
      idle_state).2.2.gAudioPlaying = false ∧
    (receive_loop (receiver_of (exchange_stream [1, 2, 3] [9])) idle_state
      ⟨0, false, false, 0⟩).2.2.2.message_count = 5) :=
  ⟨rfl, rfl, rfl, by decide,
    clean_exchange (receiver_of (exchange_stream [1, 2, 3] [9])) idle_state [1, 2, 3] [9]
      rfl rfl rfl (by decide) rfl (by decide)⟩

/-- C10 as stated fails for a payload longer than the receive buffer: from the idle state with
streaming enabled and setup succeeding, when x is 655361 zero bytes the AUDIO_DATA frame is
rejected by the length check, so only AI_START and AUDIO_START are dispatched, and
receive_socket_response returns success with audio_playing still true. -/
theorem oversize_payload_exchange :
    idle_state.gAudioPlaying = false ∧ idle_state.gRecorderExit = false ∧
    idle_state.gInterruptAIResponse = false ∧
    (receive_socket_response (receiver_of (exchange_stream (List.replicate 655361 0) []))
      idle_state).1 = RK_SUCCESS ∧
    (receive_socket_response (receiver_of (exchange_stream (List.replicate 655361 0) []))
      idle_state).2.2.gAudioPlaying = true ∧
    (receive_loop (receiver_of (exchange_stream (List.replicate 655361 0) [])) idle_state
      ⟨0, false, false, 0⟩).2.2.2.message_count = 2 :=
  have hl : (List.replicate 655361 0).length = 655361 := List.length_replicate _ _
  ⟨rfl, rfl, rfl,
    oversize_exchange (receiver_of (exchange_stream (List.replicate 655361 0) [])) idle_state
      (List.replicate 655361 0) [] rfl rfl rfl (by decide) (by rw [hl]; decide)
      (by rw [hl]; decide) rfl (by decide)⟩

/-! ## The interruption controller -/

theorem audio_data_interrupted (s : State) (p : List Nat) (hi : s.gAudioInterrupted = true) :
    case_MSG_AUDIO_DATA s p = { s with audio_buffer_size := 0 } := by
  unfold case_MSG_AUDIO_DATA
  simp only [is_audio_interrupted, hi, if_true]

/-- C16: whenever `audio_interrupted` is set, processing an AUDIO_DATA frame with any
payload, the end marker included, only sets the assembly buffer fill to 0: no play call is
made, no device call is made, nothing is written to the assembly buffer; processing a second
AUDIO_DATA frame leaves the state exactly as it was after the first. -/
theorem interrupted_audio_dropped (s : State) (p q : List Nat)
    (hi : s.gAudioInterrupted = true) :
    (process_received_message s MSG_AUDIO_DATA p).2 = { s with audio_buffer_size := 0 } ∧
    (process_received_message s MSG_AUDIO_DATA p).2.play_log = s.play_log ∧
    (process_received_message s MSG_AUDIO_DATA p).2.ao_calls = s.ao_calls ∧
    (process_received_message s MSG_AUDIO_DATA p).2.audio_buffer = s.audio_buffer ∧
    (process_received_message s MSG_AUDIO_DATA p).2.audio_buffer_size = 0 ∧
    (process_received_message (process_received_message s MSG_AUDIO_DATA p).2
        MSG_AUDIO_DATA q).2 = (process_received_message s MSG_AUDIO_DATA p).2 := by
  rw [prm_audio_data, prm_audio_data, audio_data_interrupted s p hi,
    audio_data_interrupted { s with audio_buffer_size := 0 } q hi]
  exact ⟨rfl, rfl, rfl, rfl, rfl, rfl⟩

/-- C17: `interrupt_audio_playback` returns success exactly when `audio_playing` was true.
On success it leaves playing false, interrupted true and the device uninitialised, and the
only device calls it makes are the channel and device disable calls of a hard stop (made when
the device was initialised), with no wait for the end of the stream. On failure it returns
`RK_FAILURE` and leaves the whole state as it was. A second call made right after a first one
therefore fails and leaves the state set by the first call unchanged. -/
theorem interrupt_result (s : State) :
    ((interrupt_audio_playback s).1 = RK_SUCCESS ↔ s.gAudioPlaying = true) ∧
    (s.gAudioPlaying = true →
      (interrupt_audio_playback s).2.gAudioPlaying = false ∧
      (interrupt_audio_playback s).2.gAudioInterrupted = true ∧
      (interrupt_audio_playback s).2.bInitialized = false ∧
      (interrupt_audio_playback s).2.ao_calls
        = s.ao_calls ++ (if s.bInitialized = true then [AoCall.DisableChn, AoCall.Disable]
            else [])) ∧
    (s.gAudioPlaying = false →
      (interrupt_audio_playback s).1 = RK_FAILURE ∧ (interrupt_audio_playback s).2 = s) ∧
    (interrupt_audio_playback (interrupt_audio_playback s).2).1 = RK_FAILURE ∧
    (interrupt_audio_playback (interrupt_audio_playback s).2).2
      = (interrupt_audio_playback s).2 := by
  unfold interrupt_audio_playback
  cases hp : s.gAudioPlaying <;> cases hb : s.bInitialized <;>
    simp [hp, hb, ao_call, RK_SUCCESS, RK_FAILURE]

/-- C18: over every sequence of the controller operations `set_audio_playing_state(true)`,
`set_audio_playing_state(false)` and `interrupt_audio_playback`, the `audio_interrupted` flag
is true after an operation exactly when the operation was an interrupt issued while
`audio_playing` was true, or the flag was already true and the operation was not
`set_audio_playing_state(true)`; in particular `set_audio_playing_state(false)` never sets
it. -/
theorem interrupted_flag_rule (s : State) (ops : List ControllerOp) (op : ControllerOp) :
    ((apply_ops s (ops ++ [op])).gAudioInterrupted = true ↔
      (op = ControllerOp.interrupt ∧ (apply_ops s ops).gAudioPlaying = true) ∨
      ((apply_ops s ops).gAudioInterrupted = true ∧ op ≠ ControllerOp.set_playing true)) ∧
    ((apply_ops s ops).gAudioInterrupted = false →
      (apply_ops s (ops ++ [ControllerOp.set_playing false])).gAudioInterrupted = false) := by
  have happ : ∀ o, apply_ops s (ops ++ [o]) = apply_op (apply_ops s ops) o := by
    intro o; simp [apply_ops, List.foldl_append]
  rw [happ, happ]
  generalize apply_ops s ops = t
  constructor
  · cases op with
    | set_playing b =>
      cases b <;> cases hi : t.gAudioInterrupted <;>
        simp [apply_op, set_audio_playing_state, hi]
    | interrupt =>
      cases hp : t.gAudioPlaying <;> cases hi : t.gAudioInterrupted <;>
        cases hb : t.bInitialized <;>
        simp [apply_op, interrupt_audio_playback, hp, hi, hb, ao_call]
  · intro h
    simpa [apply_op, set_audio_playing_state] using h

theorem play_not_playing (s : State) (d : List Nat) (hp : s.gAudioPlaying = false) :
    play_audio_buffer s d = (RK_SUCCESS, s) := by
  unfold play_audio_buffer play_audio_buffer_body
  simp only [get_audio_playing_state, hp]
  split_ifs <;> simp_all

theorem play_leaf_not_playing (s : State) (d : List Nat) (hp : s.gAudioPlaying = false) :
    play_audio_buffer_leaf s d = (RK_SUCCESS, s) := by
  unfold play_audio_buffer_leaf play_audio_buffer_body
  simp only [get_audio_playing_state, hp]
  split_ifs <;> simp_all

theorem play_chunks_idle (recurse : State → List Nat → Int × State) (s : State)
    (hrec : ∀ d, recurse s d = (RK_SUCCESS, s)) (n : Nat) :
    ∀ (d : List Nat) (o : Int), d.length ≤ n → play_chunks recurse s d o = (o, s) := by
  induction n with
  | zero =>
    intro d o h
    rw [play_chunks]
    simp [show ¬ (d.length > 0) by omega]
  | succ n ih =>
    intro d o h
    rw [play_chunks]
    by_cases h0 : d.length > 0
    · simp only [h0, dite_true, hrec]
      rw [ih _ _ (by simp; split <;> omega)]
      simp
    · simp [h0]


theorem interrupt_not_playing (t : State) :
    (interrupt_audio_playback t).2.gAudioPlaying = false := by
  unfold interrupt_audio_playback
  cases hp : t.gAudioPlaying <;> cases hb : t.bInitialized <;> simp [hp, hb, ao_call]

/-- C20: whenever `audio_playing` is false, `play_audio_buffer` returns success for every
input and leaves the whole state, the log of device calls included, as it was, whatever the
value of `bInitialized`; the chunk loop of a large input run in such a state (with the
function itself as the recursive call) submits nothing either and keeps its running result,
and this is the state every chunk left over meets once `interrupt_audio_playback` has run
part-way through the input. -/
theorem idle_play_is_noop (s t : State) (d remaining : List Nat) (o : Int)
    (hp : s.gAudioPlaying = false) :
    play_audio_buffer s d = (RK_SUCCESS, s) ∧
    (play_audio_buffer s d).2.ao_calls = s.ao_calls ∧
    play_chunks play_audio_buffer s d o = (o, s) ∧
    play_chunks play_audio_buffer (interrupt_audio_playback t).2 remaining o
      = (o, (interrupt_audio_playback t).2) ∧
    play_audio_buffer (interrupt_audio_playback t).2 remaining
      = (RK_SUCCESS, (interrupt_audio_playback t).2) := by
  refine ⟨play_not_playing s d hp, by rw [play_not_playing s d hp], ?_, ?_, ?_⟩
  · exact play_chunks_idle _ s (fun c => play_not_playing s c hp) _ d o (le_refl _)
  · exact play_chunks_idle _ _ (fun c => play_not_playing _ c (interrupt_not_playing t)) _
      remaining o (le_refl _)
  · exact play_not_playing _ _ (interrupt_not_playing t)

theorem idle_play_is_noop_witness :
    idle_state.gAudioPlaying = false ∧
    play_audio_buffer idle_state [1, 2, 3] = (RK_SUCCESS, idle_state) ∧
    play_chunks play_audio_buffer (interrupt_audio_playback (playing_state 0)).2 [4, 5] 0
      = (0, (interrupt_audio_playback (playing_state 0)).2) :=
  ⟨rfl, (idle_play_is_noop idle_state (playing_state 0) [1, 2, 3] [4, 5] 0 rfl).1,
    (idle_play_is_noop idle_state (playing_state 0) [1, 2, 3] [4, 5] 0 rfl).2.2.2.1⟩

theorem interrupted_audio_dropped_witness :
    interrupted_state.gAudioInterrupted = true ∧
    (process_received_message interrupted_state MSG_AUDIO_DATA [1, 2, 3]).2.audio_buffer_size
      = 0 ∧
    (process_received_message interrupted_state MSG_AUDIO_DATA [1, 2, 3]).2.play_log
      = interrupted_state.play_log :=
  ⟨rfl, (interrupted_audio_dropped interrupted_state [1, 2, 3] AUDIO_END_MARKER rfl).2.2.2.2.1,
    (interrupted_audio_dropped interrupted_state [1, 2, 3] AUDIO_END_MARKER rfl).2.1⟩

/-! ## How the receive loop ends -/

theorem socket_receive_message_consumes (sock sock1 : Socket) (m : Nat)
    (x : Nat × Nat × List Nat) (h : socket_receive_message sock m = (some x, sock1)) :
    sock1.rx.length < sock.rx.length := by
  unfold socket_receive_message select recv at h
  cases hs : sock.select_results <;> simp only [hs] at h <;>
    (split_ifs at h <;> simp at h <;> obtain ⟨-, rfl⟩ := h <;> simp at * <;> omega)

theorem receive_loop_exit (sock : Socket) (s : State) (l : RecvLocals)
    (h : s.gRecorderExit = true) : receive_loop sock s l = (none, sock, s, l) := by
  rw [receive_loop]
  simp [h]

theorem receive_loop_abort (sock : Socket) (s : State) (l : RecvLocals)
    (h : s.gInterruptAIResponse = true) : receive_loop sock s l = (none, sock, s, l) := by
  rw [receive_loop]
  simp [h]

/-- Once a frame has been processed the loop is only ever left by `break` or by its
condition, never by `return RK_FAILURE`. -/
theorem receive_loop_counted (n : Nat) :
    ∀ (sock : Socket) (s : State) (l : RecvLocals), sock.rx.length ≤ n →
      0 < l.message_count → (receive_loop sock s l).1 = none := by
  induction n with
  | zero =>
    intro sock s l hn hl
    by_cases hexit : s.gRecorderExit = true
    · rw [receive_loop_exit sock s l hexit]
    by_cases hend : l.ai_end_received = true
    · rw [receive_loop_done sock s l hend]
    by_cases habort : s.gInterruptAIResponse = true
    · rw [receive_loop_abort sock s l habort]
    simp only [Bool.not_eq_true] at hexit hend habort
    rcases hdec : socket_receive_message sock SOCKET_RESPONSE_BUFFER_SIZE with ⟨_ | x, sock1⟩
    · rw [receive_loop_fail sock sock1 s l hexit hend habort hdec]
      simp [hl]
    · have := socket_receive_message_consumes sock sock1 _ x hdec
      omega
  | succ n ih =>
    intro sock s l hn hl
    by_cases hexit : s.gRecorderExit = true
    · rw [receive_loop_exit sock s l hexit]
    by_cases hend : l.ai_end_received = true
    · rw [receive_loop_done sock s l hend]
    by_cases habort : s.gInterruptAIResponse = true
    · rw [receive_loop_abort sock s l habort]
    simp only [Bool.not_eq_true] at hexit hend habort
    rcases hdec : socket_receive_message sock SOCKET_RESPONSE_BUFFER_SIZE with
      ⟨_ | ⟨t, m, d⟩, sock1⟩
    · rw [receive_loop_fail sock sock1 s l hexit hend habort hdec]
      simp [hl]
    · have hlt := socket_receive_message_consumes sock sock1 _ _ hdec
      rw [receive_loop_step sock sock1 s l t m d hexit hend habort hdec]
      dsimp only
      split_ifs <;> first
        | rfl
        | (apply ih
           · omega
           · simp only []; omega)


/-- What one entry into the loop can give: it is left by `break` or by its condition, or the
very first decode fails and it returns failure with the state untouched. -/
theorem receive_loop_result (sock : Socket) (s : State) (l : RecvLocals) :
    (receive_loop sock s l).1 = none ∨
    (receive_loop sock s l = (some RK_FAILURE,
        (socket_receive_message sock SOCKET_RESPONSE_BUFFER_SIZE).2, s, l) ∧
      (socket_receive_message sock SOCKET_RESPONSE_BUFFER_SIZE).1 = none ∧
      l.message_count = 0 ∧ s.gRecorderExit = false ∧ s.gInterruptAIResponse = false) := by
  by_cases hexit : s.gRecorderExit = true
  · rw [receive_loop_exit sock s l hexit]; exact Or.inl rfl
  by_cases hend : l.ai_end_received = true
  · rw [receive_loop_done sock s l hend]; exact Or.inl rfl
  by_cases habort : s.gInterruptAIResponse = true
  · rw [receive_loop_abort sock s l habort]; exact Or.inl rfl
  simp only [Bool.not_eq_true] at hexit hend habort
  rcases hdec : socket_receive_message sock SOCKET_RESPONSE_BUFFER_SIZE with
    ⟨_ | ⟨t, m, d⟩, sock1⟩
  · rw [receive_loop_fail sock sock1 s l hexit hend habort hdec]
    by_cases hl : l.message_count > 0
    · simp [hl]
    · right
      simp only [hl, if_false]
      refine ⟨?_, ?_, by omega, hexit, habort⟩ <;> first | rfl | trivial
  · left
    rw [receive_loop_step sock sock1 s l t m d hexit hend habort hdec]
    dsimp only
    split_ifs <;> first
      | rfl
      | (apply receive_loop_counted _ _ _ _ (le_refl _)
         simp only []; omega)

theorem receive_loop_first_frame (sock : Socket) (s : State) (l : RecvLocals)
    (h : (socket_receive_message sock SOCKET_RESPONSE_BUFFER_SIZE).1 ≠ none) :
    (receive_loop sock s l).1 = none := by
  rcases receive_loop_result sock s l with h1 | ⟨-, h2, -⟩
  · exact h1
  · exact absurd h2 h

theorem receive_socket_response_none (sock : Socket) (s : State)
    (h : (receive_loop sock s ⟨0, false, false, 0⟩).1 = none) :
    receive_socket_response sock s
      = (RK_SUCCESS, (receive_loop sock s ⟨0, false, false, 0⟩).2.1,
          { (receive_loop sock s ⟨0, false, false, 0⟩).2.2.1 with
            gInterruptAIResponse := false, gAIResponseActive := false }) := by
  rcases hloop : receive_loop sock s ⟨0, false, false, 0⟩ with ⟨_ | r, sock1, s1, l1⟩
  · exact receive_socket_response_of_loop sock sock1 s s1 l1 hloop
  · rw [hloop] at h
    simp at h

theorem receive_socket_response_failed (sock sock1 : Socket) (s s1 : State) (l1 : RecvLocals)
    (r : Int) (h : receive_loop sock s ⟨0, false, false, 0⟩ = (some r, sock1, s1, l1)) :
    receive_socket_response sock s = (r, sock1, s1) := by
  unfold receive_socket_response
  rw [h]

/-- C14: with the exit and abort flags clear, `receive_socket_response` returns failure
exactly when the very first decode fails, and then no frame was processed: the state is the
one it was called in. When the first decode succeeds the call returns success whatever
follows; in particular a decode failure met in an iteration that starts with a positive
message count leaves the loop by `break`, and no entry into the loop with a positive message
count ever ends in `return RK_FAILURE`. -/
theorem failure_iff_first_decode_fails (sock : Socket) (s : State)
    (hexit : s.gRecorderExit = false) (habort : s.gInterruptAIResponse = false) :
    ((receive_socket_response sock s).1 = RK_FAILURE ↔
      (socket_receive_message sock SOCKET_RESPONSE_BUFFER_SIZE).1 = none) ∧
    ((socket_receive_message sock SOCKET_RESPONSE_BUFFER_SIZE).1 = none →
      receive_socket_response sock s
        = (RK_FAILURE, (socket_receive_message sock SOCKET_RESPONSE_BUFFER_SIZE).2, s)) ∧
    ((socket_receive_message sock SOCKET_RESPONSE_BUFFER_SIZE).1 ≠ none →
      (receive_socket_response sock s).1 = RK_SUCCESS) ∧
    (∀ l : RecvLocals, l.ai_end_received = false → 0 < l.message_count →
      (socket_receive_message sock SOCKET_RESPONSE_BUFFER_SIZE).1 = none →
      receive_loop sock s l
        = (none, (socket_receive_message sock SOCKET_RESPONSE_BUFFER_SIZE).2, s, l)) ∧
    (∀ l : RecvLocals, 0 < l.message_count → (receive_loop sock s l).1 = none) := by
  have hfail : (socket_receive_message sock SOCKET_RESPONSE_BUFFER_SIZE).1 = none →
      receive_socket_response sock s
        = (RK_FAILURE, (socket_receive_message sock SOCKET_RESPONSE_BUFFER_SIZE).2, s) := by
    intro h
    rcases hdec : socket_receive_message sock SOCKET_RESPONSE_BUFFER_SIZE with ⟨x, sock1⟩
    rw [hdec] at h
    simp only at h
    subst h
    have hl := receive_loop_fail sock sock1 s ⟨0, false, false, 0⟩ hexit rfl habort hdec
    simp only [gt_iff_lt, lt_self_iff_false, if_false] at hl
    exact receive_socket_response_failed sock sock1 s s _ _ hl
  have hok : (socket_receive_message sock SOCKET_RESPONSE_BUFFER_SIZE).1 ≠ none →
      (receive_socket_response sock s).1 = RK_SUCCESS := by
    intro h
    rw [receive_socket_response_none sock s (receive_loop_first_frame sock s _ h)]
  refine ⟨⟨?_, fun h => by rw [hfail h]⟩, hfail, hok, ?_, ?_⟩
  · intro h
    by_contra hne
    rw [hok hne] at h
    exact absurd h (by decide)
  · intro l hend hl h
    rcases hdec : socket_receive_message sock SOCKET_RESPONSE_BUFFER_SIZE with ⟨x, sock1⟩
    rw [hdec] at h
    simp only at h
    subst h
    rw [receive_loop_fail sock sock1 s l hexit hend habort hdec]
    simp [hl]
  · intro l hl
    exact receive_loop_counted _ sock s l (le_refl _) hl

/-- C15: if the abort-AI-response signal is set when an iteration of the receive loop
begins, the loop is left at once with the connection, the state and the loop variables
untouched, so no further frame is consumed, and `receive_socket_response` returns success
with the signal and `ai_response_active` cleared. And for every run, from any connection
and any state: whenever `receive_socket_response` returns success, both the abort signal and
`ai_response_active` are false in the state it returns. -/
theorem abort_signal_stops_loop (sock sock2 : Socket) (s s2 : State) (l : RecvLocals)
    (habort : s.gInterruptAIResponse = true) :
    receive_loop sock s l = (none, sock, s, l) ∧
    receive_socket_response sock s
      = (RK_SUCCESS, sock,
          { s with gInterruptAIResponse := false, gAIResponseActive := false }) ∧
    ((receive_socket_response sock2 s2).1 = RK_SUCCESS →
      (receive_socket_response sock2 s2).2.2.gInterruptAIResponse = false ∧
      (receive_socket_response sock2 s2).2.2.gAIResponseActive = false) := by
  have hloop : ∀ k, receive_loop sock s k = (none, sock, s, k) := by
    intro k
    by_cases hexit : s.gRecorderExit = true
    · exact receive_loop_exit sock s k hexit
    by_cases hend : k.ai_end_received = true
    · exact receive_loop_done sock s k hend
    exact receive_loop_abort sock s k habort
  refine ⟨hloop l, receive_socket_response_of_loop sock sock s s _ (hloop _), ?_⟩
  intro h
  rcases receive_loop_result sock2 s2 ⟨0, false, false, 0⟩ with h1 | ⟨h2, -⟩
  · rw [receive_socket_response_none sock2 s2 h1]
    exact ⟨rfl, rfl⟩
  · rw [receive_socket_response_failed sock2 _ s2 _ _ _ h2] at h
    simp [RK_FAILURE, RK_SUCCESS] at h

theorem failure_iff_first_decode_fails_witness :
    idle_state.gRecorderExit = false ∧ idle_state.gInterruptAIResponse = false ∧
    ((receive_socket_response (receiver_of []) idle_state).1 = RK_FAILURE ↔
      (socket_receive_message (receiver_of []) SOCKET_RESPONSE_BUFFER_SIZE).1 = none) :=
  ⟨rfl, rfl, (failure_iff_first_decode_fails (receiver_of []) idle_state rfl rfl).1⟩

theorem abort_signal_stops_loop_witness :
    aborting_state.gInterruptAIResponse = true ∧
    receive_loop roundtrip_receiver aborting_state ⟨0, false, false, 0⟩
      = (none, roundtrip_receiver, aborting_state, ⟨0, false, false, 0⟩) :=
  ⟨rfl, (abort_signal_stops_loop roundtrip_receiver roundtrip_receiver aborting_state
    idle_state ⟨0, false, false, 0⟩ rfl).1⟩

/-! ## The receive loop over a stream of frames -/

theorem next_locals_fields (l : RecvLocals) (t : Nat) :
    (next_locals l t).message_count = l.message_count + 1 ∧
    (next_locals l t).error_received = l.error_received ∧
    (next_locals l t).consecutive_non_progress_msgs
      = (if progress_kind t then 0 else l.consecutive_non_progress_msgs + 1) ∧
    (next_locals l t).ai_end_received = (l.ai_end_received || decide (t = MSG_AI_END)) := by
  unfold next_locals progress_kind
  dsimp only
  split_ifs <;> simp_all

theorem receive_loop_next (sock sock1 : Socket) (s : State) (l : RecvLocals) (t n : Nat)
    (d : List Nat) (hexit : s.gRecorderExit = false) (hend : l.ai_end_received = false)
    (habort : s.gInterruptAIResponse = false)
    (hrecv : socket_receive_message sock SOCKET_RESPONSE_BUFFER_SIZE = (some (t, n, d), sock1)) :
    receive_loop sock s l =
      if t = MSG_JSON_RESPONSE ∧ (process_received_message s t d).2.responseFormat = "json" then
        (none, sock1, (process_received_message s t d).2, next_locals l t)
      else if t = MSG_ERROR then
        (none, sock1, (process_received_message s t d).2,
          { next_locals l t with error_received := true, ai_end_received := true })
      else if t = MSG_AI_CANCELLED then
        (none, sock1, (process_received_message s t d).2, next_locals l t)
      else if (next_locals l t).error_received ∧
          (next_locals l t).consecutive_non_progress_msgs ≥ 2 then
        (none, sock1, (process_received_message s t d).2, next_locals l t)
      else if (next_locals l t).consecutive_non_progress_msgs ≥ 5 then
        (none, sock1, (process_received_message s t d).2, next_locals l t)
      else receive_loop sock1 (process_received_message s t d).2 (next_locals l t) := by
  rw [receive_loop_step sock sock1 s l t n d hexit hend habort hrecv]
  rfl

theorem process_frames_cons (s : State) (f : Nat × List Nat) (fs : List (Nat × List Nat)) :
    process_frames s (f :: fs) = process_frames (process_received_message s f.1 f.2).2 fs := rfl

theorem process_frames_loop_flags (fs : List (Nat × List Nat)) :
    ∀ s : State, (process_frames s fs).gRecorderExit = s.gRecorderExit ∧
      (process_frames s fs).gInterruptAIResponse = s.gInterruptAIResponse ∧
      (process_frames s fs).responseFormat = s.responseFormat := by
  induction fs with
  | nil => intro s; exact ⟨rfl, rfl, rfl⟩
  | cons f fs ih =>
    intro s
    rw [process_frames_cons]
    obtain ⟨h1, h2, h3⟩ := ih (process_received_message s f.1 f.2).2
    obtain ⟨g1, g2, g3⟩ := prm_loop_flags s f.1 f.2
    exact ⟨h1.trans g1, h2.trans g2, h3.trans g3⟩

/-- The loop run on a stream that starts with the frames `fs`: either it is left by `break`
or by its condition with everything after `fs` still unread, or it processes every frame of
`fs`, none of which ends the loop, and goes on from the state the dispatcher reaches. -/
theorem receive_loop_frames (fs : List (Nat × List Nat)) :
    ∀ (sock : Socket) (s : State) (l : RecvLocals) (after : List Nat), frames_ok fs →
      sock.rx = wire_frames fs ++ after → (∀ r ∈ sock.select_results, 0 < r) →
      ((receive_loop sock s l).1 = none ∧
        ∃ unread, (receive_loop sock s l).2.1.rx = unread ++ after) ∨
      (∃ (sock1 : Socket) (l1 : RecvLocals),
        receive_loop sock s l = receive_loop sock1 (process_frames s fs) l1 ∧
        sock1.rx = after ∧ (∀ r ∈ sock1.select_results, 0 < r) ∧
        l1.message_count = l.message_count + fs.length ∧
        l1.error_received = l.error_received ∧
        l1.consecutive_non_progress_msgs = count_after l.consecutive_non_progress_msgs fs ∧
        (fs ≠ [] → l1.consecutive_non_progress_msgs < 5) ∧
        (∀ g ∈ fs, ¬ ends_loop s.responseFormat g.1)) := by
  induction fs with
  | nil =>
    intro sock s l after _ hrx hsel
    right
    exact ⟨sock, l, rfl, by simpa [wire_frames] using hrx, hsel, rfl, rfl, rfl,
      fun h => absurd rfl h, by simp⟩
  | cons f fs ih =>
    intro sock s l after hok hrx hsel
    have hstop : ∀ k, receive_loop sock s l = (none, sock, s, k) →
        ((receive_loop sock s l).1 = none ∧
          ∃ unread, (receive_loop sock s l).2.1.rx = unread ++ after) := by
      intro k hk
      rw [hk]
      exact ⟨rfl, wire_frames (f :: fs), hrx⟩
    by_cases hexit : s.gRecorderExit = true
    · exact Or.inl (hstop _ (receive_loop_exit sock s l hexit))
    by_cases hend : l.ai_end_received = true
    · exact Or.inl (hstop _ (receive_loop_done sock s l hend))
    by_cases habort : s.gInterruptAIResponse = true
    · exact Or.inl (hstop _ (receive_loop_abort sock s l habort))
    simp only [Bool.not_eq_true] at hexit hend habort
    have hf := hok f (List.mem_cons_self _ _)
    have hokfs : frames_ok fs := fun g hg => hok g (List.mem_cons_of_mem _ hg)
    have hrx1 : sock.rx = wire f.1 f.2 ++ (wire_frames fs ++ after) := by
      rw [hrx, wire_frames, List.append_assoc]
    have hdec := recv_wire_ready sock f.1 f.2 (wire_frames fs ++ after) hrx1 hsel hf.1 hf.2
    have hstep := receive_loop_next sock _ s l f.1 f.2.length f.2 hexit hend habort hdec
    have hbreak : ∀ k, receive_loop sock s l
        = (none, { sock with rx := wire_frames fs ++ after,
                             select_results := sock.select_results.tail },
            (process_received_message s f.1 f.2).2, k) →
        ((receive_loop sock s l).1 = none ∧
          ∃ unread, (receive_loop sock s l).2.1.rx = unread ++ after) := by
      intro k hk
      rw [hk]
      exact ⟨rfl, wire_frames fs, rfl⟩
    obtain ⟨n1, n2, n3, n4⟩ := next_locals_fields l f.1
    obtain ⟨-, -, hfmt⟩ := prm_loop_flags s f.1 f.2
    split_ifs at hstep with c1 c2 c3 c4 c5
    · exact Or.inl (hbreak _ hstep)
    · exact Or.inl (hbreak _ hstep)
    · exact Or.inl (hbreak _ hstep)
    · exact Or.inl (hbreak _ hstep)
    · exact Or.inl (hbreak _ hstep)
    · rcases ih { sock with rx := wire_frames fs ++ after,
                            select_results := sock.select_results.tail }
          (process_received_message s f.1 f.2).2 (next_locals l f.1) after hokfs rfl
          (tail_ready _ hsel) with hl | ⟨sock1, l1, e1, e2, e3, e4, e5, e6, e7, e8⟩
      · left
        rw [hstep]
        exact hl
      · right
        refine ⟨sock1, l1, ?_, e2, e3, ?_, ?_, ?_, ?_, ?_⟩
        · rw [hstep, e1, process_frames_cons]
        · rw [e4, n1, List.length_cons]; omega
        · rw [e5, n2]
        · rw [e6, n3, count_after]
        · intro _
          by_cases hnil : fs = []
          · subst hnil
            rw [e6]
            simp only [count_after]
            omega
          · exact e7 hnil
        · intro g hg
          rcases List.mem_cons.1 hg with rfl | hg
          · rw [hfmt] at c1
            unfold ends_loop
            tauto
          · rw [← hfmt]
            exact e8 g hg


theorem wire_frames_append (xs ys : List (Nat × List Nat)) :
    wire_frames (xs ++ ys) = wire_frames xs ++ wire_frames ys := by
  induction xs with
  | nil => rfl
  | cons f fs ih => simp [wire_frames, ih]

theorem wire_frames_single (f : Nat × List Nat) : wire_frames [f] = wire f.1 f.2 := by
  simp [wire_frames]

theorem count_after_append (xs ys : List (Nat × List Nat)) :
    ∀ c, count_after c (xs ++ ys) = count_after (count_after c xs) ys := by
  induction xs with
  | nil => intro c; rfl
  | cons f fs ih => intro c; simp [count_after, ih]

theorem count_after_non_progress (np : List (Nat × List Nat))
    (h : ∀ f ∈ np, ¬ progress_kind f.1) : ∀ c, count_after c np = c + np.length := by
  induction np with
  | nil => intro c; rfl
  | cons f fs ih =>
    intro c
    have hf := h f (List.mem_cons_self _ _)
    rw [count_after, if_neg hf, ih (fun g hg => h g (List.mem_cons_of_mem _ hg)),
      List.length_cons]
    omega

theorem prm_log_only (s : State) (t : Nat) (d : List Nat)
    (h : t = MSG_AI_NEWCHAT ∨ t = MSG_CONFIG ∨ t = MSG_JSON_RESPONSE) :
    (process_received_message s t d).2 = s := by
  unfold process_received_message
  rcases h with rfl | rfl | rfl <;> simp [MSG_AI_NEWCHAT, MSG_CONFIG, MSG_JSON_RESPONSE,
    MSG_TEXT_DATA, MSG_AUDIO_DATA, MSG_AI_START, MSG_AI_END, MSG_AUDIO_START, MSG_AUDIO_END,
    MSG_ERROR, MSG_AI_CANCELLED]

/-- One iteration on a frame whose kind is only logged and only counted as non-progress:
the loop goes on while fewer than 5 such frames were met in a row and stops at the fifth. -/
theorem receive_loop_log_only (sock : Socket) (s : State) (l : RecvLocals) (t : Nat)
    (d rest : List Nat) (hexit : s.gRecorderExit = false) (hend : l.ai_end_received = false)
    (habort : s.gInterruptAIResponse = false) (herr : l.error_received = false)
    (ht : t = MSG_AI_NEWCHAT ∨ t = MSG_CONFIG ∨ (t = MSG_JSON_RESPONSE ∧ s.responseFormat ≠ "json"))
    (hd : d.length ≤ SOCKET_RESPONSE_BUFFER_SIZE)
    (hrx : sock.rx = wire t d ++ rest) (hsel : ∀ r ∈ sock.select_results, 0 < r) :
    receive_loop sock s l =
      if l.consecutive_non_progress_msgs + 1 ≥ 5 then
        (none, { sock with rx := rest, select_results := sock.select_results.tail }, s,
          { l with message_count := l.message_count + 1,
                   consecutive_non_progress_msgs := l.consecutive_non_progress_msgs + 1 })
      else
        receive_loop { sock with rx := rest, select_results := sock.select_results.tail } s
          { l with message_count := l.message_count + 1,
                   consecutive_non_progress_msgs := l.consecutive_non_progress_msgs + 1 } := by
  have ht256 : t < 256 := by
    rcases ht with rfl | rfl | ⟨rfl, -⟩ <;> decide
  have hdec := recv_wire_ready sock t d rest hrx hsel ht256 hd
  have hs1 : (process_received_message s t d).2 = s :=
    prm_log_only s t d (by tauto)
  have hl : next_locals l t
      = { l with message_count := l.message_count + 1,
                 consecutive_non_progress_msgs := l.consecutive_non_progress_msgs + 1 } := by
    unfold next_locals
    rcases ht with rfl | rfl | ⟨rfl, -⟩ <;>
      simp [MSG_AI_NEWCHAT, MSG_CONFIG, MSG_JSON_RESPONSE,
        MSG_TEXT_DATA, MSG_AUDIO_DATA, MSG_AI_START, MSG_AI_END, MSG_AUDIO_START]
  rw [receive_loop_next sock _ s l t d.length d hexit hend habort hdec, hs1, hl]
  have c1 : ¬ (t = MSG_JSON_RESPONSE ∧ s.responseFormat = "json") := by
    rcases ht with rfl | rfl | ⟨rfl, h⟩
    · simp [MSG_AI_NEWCHAT, MSG_JSON_RESPONSE]
    · simp [MSG_CONFIG, MSG_JSON_RESPONSE]
    · simp [h]
  have c2 : ¬ t = MSG_ERROR := by
    rcases ht with rfl | rfl | ⟨rfl, -⟩ <;> decide
  have c3 : ¬ t = MSG_AI_CANCELLED := by
    rcases ht with rfl | rfl | ⟨rfl, -⟩ <;> decide
  simp only [c1, c2, c3, herr, if_false, Bool.false_eq_true, false_and]


theorem drop_tail (L : List Int) (n : Nat) : L.tail.drop n = L.drop (n + 1) := by
  cases L <;> simp

/-- A run of frames that are only logged, the last of which brings the count of consecutive
non-progress frames to 5: every frame is processed and the loop stops after the last. -/
theorem receive_loop_log_only_run (np : List (Nat × List Nat)) :
    ∀ (sock : Socket) (s : State) (l : RecvLocals) (after : List Nat),
      np ≠ [] → l.consecutive_non_progress_msgs + np.length = 5 →
      (∀ f ∈ np, (f.1 = MSG_AI_NEWCHAT ∨ f.1 = MSG_CONFIG) ∧
        f.2.length ≤ SOCKET_RESPONSE_BUFFER_SIZE) →
      s.gRecorderExit = false → s.gInterruptAIResponse = false →
      l.ai_end_received = false → l.error_received = false →
      sock.rx = wire_frames np ++ after → (∀ r ∈ sock.select_results, 0 < r) →
      receive_loop sock s l
        = (none,
            { sock with rx := after, select_results := sock.select_results.drop np.length },
            s,
            { l with message_count := l.message_count + np.length
                     consecutive_non_progress_msgs := 5 }) := by
  induction np with
  | nil => intro sock s l after h; exact absurd rfl h
  | cons f fs ih =>
    intro sock s l after _ hcount hkinds hexit habort hend herr hrx hsel
    have hf := hkinds f (List.mem_cons_self _ _)
    have hrx1 : sock.rx = wire f.1 f.2 ++ (wire_frames fs ++ after) := by
      rw [hrx, wire_frames, List.append_assoc]
    rw [receive_loop_log_only sock s l f.1 f.2 _ hexit hend habort herr (by tauto) hf.2 hrx1
      hsel]
    rw [List.length_cons] at hcount
    by_cases hnil : fs = []
    · subst hnil
      simp only [List.length_nil] at hcount
      rw [if_pos (by omega)]
      simp only [wire_frames, List.nil_append, List.length_cons, List.length_nil, zero_add,
        List.drop_one]
      rw [show l.consecutive_non_progress_msgs + 1 = 5 by omega]
    · have hpos : 0 < fs.length := List.length_pos.2 hnil
      rw [if_neg (by omega)]
      have hrest := ih
        { sock with rx := wire_frames fs ++ after, select_results := sock.select_results.tail }
        s { l with message_count := l.message_count + 1
                   consecutive_non_progress_msgs := l.consecutive_non_progress_msgs + 1 }
        after hnil (by simp only []; omega)
        (fun g hg => hkinds g (List.mem_cons_of_mem _ hg)) hexit habort hend herr rfl
        (tail_ready _ hsel)
      rw [hrest]
      simp only [drop_tail, List.length_cons, Nat.add_assoc, Nat.add_comm 1]

theorem wire_length (t : Nat) (d : List Nat) : (wire t d).length = 5 + d.length := by
  rw [wire_eq]
  simp only [List.length_cons]
  omega

/-- C11: in every run of `receive_socket_response` on a stream that holds, after any frames
`pre`, five consecutive frames whose kind is outside AUDIO_DATA, TEXT_DATA, AI_START and
AUDIO_START, the call returns success and everything that follows the fifth of them is still
unread on the connection, so no sixth consecutive non-progress frame is ever processed. When
the run starts with five AI_NEWCHAT or CONFIG frames and the exit and abort flags clear, the
loop processes exactly these five frames and stops by `break` with a message count of 5,
although no AI_END was received. -/
theorem non_progress_valve (sock : Socket) (s : State) (pre np : List (Nat × List Nat))
    (after : List Nat) (hok : frames_ok (pre ++ np)) (hfive : np.length = 5)
    (hnon : ∀ f ∈ np, ¬ progress_kind f.1)
    (hrx : sock.rx = wire_frames (pre ++ np) ++ after)
    (hsel : ∀ r ∈ sock.select_results, 0 < r) :
    (receive_socket_response sock s).1 = RK_SUCCESS ∧
    (∃ unread, (receive_socket_response sock s).2.1.rx = unread ++ after) ∧
    (pre = [] → s.gRecorderExit = false → s.gInterruptAIResponse = false →
      (∀ f ∈ np, f.1 = MSG_AI_NEWCHAT ∨ f.1 = MSG_CONFIG) →
      receive_loop sock s ⟨0, false, false, 0⟩
        = (none, { sock with rx := after, select_results := sock.select_results.drop 5 }, s,
            ⟨5, false, false, 5⟩) ∧
      receive_socket_response sock s
        = (RK_SUCCESS, { sock with rx := after, select_results := sock.select_results.drop 5 },
            { s with gInterruptAIResponse := false, gAIResponseActive := false })) := by
  have hgen : (receive_loop sock s ⟨0, false, false, 0⟩).1 = none ∧
      ∃ unread, (receive_loop sock s ⟨0, false, false, 0⟩).2.1.rx = unread ++ after := by
    rcases receive_loop_frames (pre ++ np) sock s ⟨0, false, false, 0⟩ after hok hrx hsel with
      h | ⟨sock1, l1, -, -, -, -, -, e6, e7, -⟩
    · exact h
    · exfalso
      have hne : pre ++ np ≠ [] := by
        intro h
        have := congrArg List.length h
        simp only [List.length_append, List.length_nil] at this
        omega
      have h5 := e7 hne
      rw [e6, count_after_append, count_after_non_progress np hnon, hfive] at h5
      omega
  refine ⟨?_, ?_, ?_⟩
  · rw [receive_socket_response_none sock s hgen.1]
  · rw [receive_socket_response_none sock s hgen.1]
    exact hgen.2
  · intro hpre hexit habort hkinds
    subst hpre
    have hloop := receive_loop_log_only_run np sock s ⟨0, false, false, 0⟩ after
      (by intro h; rw [h] at hfive; simp at hfive) (by simp only []; omega)
      (fun f hf => ⟨hkinds f hf, (hok f (by simpa using hf)).2⟩) hexit habort rfl rfl
      (by simpa using hrx) hsel
    rw [hfive] at hloop
    exact ⟨hloop, receive_socket_response_of_loop sock _ s s _ hloop⟩


theorem setup_fail_uninit (s : State) (h : (setup_audio_playback s).1 ≠ RK_SUCCESS) :
    (setup_audio_playback s).2.bInitialized = false := by
  revert h
  unfold setup_audio_playback
  simp only [RK_MPI_AO_SetPubAttr, RK_MPI_AO_Enable, RK_MPI_AO_SetChnParams, RK_MPI_AO_EnableChn,
    ao_call]
  split_ifs <;> simp_all [RK_FAILURE, RK_SUCCESS]

theorem error_teardown (s : State) (h : playback_tracked s) :
    (case_MSG_ERROR s).gAudioPlaying = false ∧ (case_MSG_ERROR s).bInitialized = false ∧
    (case_MSG_ERROR s).audio_started = false := by
  obtain ⟨h1, h2⟩ := h
  unfold case_MSG_ERROR
  cases ha : s.audio_started <;> cases hp : s.gAudioPlaying <;> cases hb : s.bInitialized <;>
    simp_all [cleanup_audio_playback, set_audio_playing_state, ao_call]

theorem cancelled_teardown (s : State) (h : playback_tracked s) :
    (case_MSG_AI_CANCELLED s).gAudioPlaying = false ∧
    (case_MSG_AI_CANCELLED s).bInitialized = false ∧
    (case_MSG_AI_CANCELLED s).audio_started = false := by
  obtain ⟨h1, h2⟩ := h
  unfold case_MSG_AI_CANCELLED
  cases ha : s.audio_started <;> cases hp : s.gAudioPlaying <;> cases hb : s.bInitialized <;>
    simp_all [cleanup_audio_playback, set_audio_playing_state, ao_call]

theorem audio_end_tracked (s : State) (h : playback_tracked s) :
    playback_tracked (case_MSG_AUDIO_END s) := by
  obtain ⟨h1, h2⟩ := h
  unfold case_MSG_AUDIO_END playback_tracked
  by_cases h0 : 0 < s.audio_buffer_size
  · cases hs : s.s32EnableStreaming <;> cases ha : s.audio_started <;>
      cases hp : s.gAudioPlaying <;> cases hb : s.bInitialized <;>
      simp_all [cleanup_audio_playback, set_audio_playing_state, ao_call]
  · have hz : s.audio_buffer_size = 0 := by omega
    cases ha : s.audio_started <;> cases hp : s.gAudioPlaying <;> cases hb : s.bInitialized <;>
      simp_all [cleanup_audio_playback, set_audio_playing_state, ao_call]

theorem audio_start_tracked (s : State) (h : playback_tracked s) :
    playback_tracked (case_MSG_AUDIO_START s) := by
  obtain ⟨h1, h2⟩ := h
  unfold case_MSG_AUDIO_START
  generalize hs0 : ({ s with audio_buffer_size := 0 } : State) = s0
  have e1 : s0.gAudioPlaying = s.gAudioPlaying := by rw [← hs0]
  have e2 : s0.audio_started = s.audio_started := by rw [← hs0]
  have e3 : s0.bInitialized = s.bInitialized := by rw [← hs0]
  obtain ⟨-, -, -, f4, -, f6, -, -⟩ := setup_fields s0
  dsimp only
  split_ifs with c1 c2
  · unfold playback_tracked
    simp [set_audio_playing_state]
  · have f7 := setup_fail_uninit s0 c2
    unfold playback_tracked
    rw [f4, f6, f7, e1, e2]
    exact ⟨h1, by simp⟩
  · unfold playback_tracked
    rw [e1, e2, e3]
    exact ⟨h1, h2⟩

theorem prm_tracked (s : State) (t : Nat) (p : List Nat) (h : playback_tracked s) :
    playback_tracked (process_received_message s t p).2 := by
  obtain ⟨-, e | ⟨-, e⟩ | ⟨-, e⟩ | ⟨-, e⟩ | ⟨-, e⟩ | ⟨-, e⟩ | ⟨-, e⟩ | ⟨-, e⟩⟩ :=
    prm_cases s t p
  · rw [e]; exact h
  · rw [e]
    obtain ⟨-, f2, -, f4, f5, -⟩ := audio_data_flags s p
    unfold playback_tracked
    rw [f2, f4, f5]
    exact h
  · rw [e]; exact h
  · rw [e]; exact h
  · rw [e]; exact audio_start_tracked s h
  · rw [e]; exact audio_end_tracked s h
  · rw [e]
    obtain ⟨g1, g2, g3⟩ := error_teardown s h
    unfold playback_tracked
    rw [g1, g2]
    simp
  · rw [e]
    obtain ⟨g1, g2, g3⟩ := cancelled_teardown s h
    unfold playback_tracked
    rw [g1, g2]
    simp

theorem process_frames_tracked (fs : List (Nat × List Nat)) :
    ∀ s : State, playback_tracked s → playback_tracked (process_frames s fs) := by
  induction fs with
  | nil => intro s h; exact h
  | cons f fs ih => intro s h; exact ih _ (prm_tracked s f.1 f.2 h)

/-- One iteration on a frame that ends the loop: it is decoded, processed and the loop is
left by `break`. -/
theorem receive_loop_terminal (sock : Socket) (s : State) (l : RecvLocals) (t : Nat)
    (d rest : List Nat) (hexit : s.gRecorderExit = false) (hend : l.ai_end_received = false)
    (habort : s.gInterruptAIResponse = false) (ht : ends_loop s.responseFormat t)
    (ht256 : t < 256) (hd : d.length ≤ SOCKET_RESPONSE_BUFFER_SIZE)
    (hrx : sock.rx = wire t d ++ rest) (hsel : ∀ r ∈ sock.select_results, 0 < r) :
    ∃ k, receive_loop sock s l
      = (none, { sock with rx := rest, select_results := sock.select_results.tail },
          (process_received_message s t d).2, k) := by
  have hdec := recv_wire_ready sock t d rest hrx hsel ht256 hd
  have hstep := receive_loop_next sock _ s l t d.length d hexit hend habort hdec
  obtain ⟨-, -, hfmt⟩ := prm_loop_flags s t d
  split_ifs at hstep with c1 c2 c3 c4 c5
  · exact ⟨_, hstep⟩
  · exact ⟨_, hstep⟩
  · exact ⟨_, hstep⟩
  · exact ⟨_, hstep⟩
  · exact ⟨_, hstep⟩
  · exfalso
    rw [hfmt] at c1
    unfold ends_loop at ht
    tauto

/-- C12: for every stream in which, after any frames `pre`, comes a frame that is ERROR, or
AI_CANCELLED, or JSON_RESPONSE while the response format is "json", `receive_socket_response`
returns success and everything that follows this frame is still unread on the connection.
When the frame is the first of the stream and the exit and abort flags are clear, it is the
only frame consumed and the state returned is the one the dispatcher reaches on it, the abort
signal and `ai_response_active` cleared. A JSON_RESPONSE frame received while the format is
not "json" does not by itself end the loop: met when no error was received and fewer than
four non-progress frames precede it in a row, it is counted and the loop goes on with the
next iteration. -/
theorem terminal_frame_ends_loop (sock sockj : Socket) (s sj : State) (lj : RecvLocals)
    (pre : List (Nat × List Nat)) (t : Nat) (d after j afterj : List Nat)
    (hok : frames_ok (pre ++ [(t, d)]))
    (hterm : t = MSG_ERROR ∨ t = MSG_AI_CANCELLED ∨
      (t = MSG_JSON_RESPONSE ∧ s.responseFormat = "json"))
    (hrx : sock.rx = wire_frames (pre ++ [(t, d)]) ++ after)
    (hsel : ∀ r ∈ sock.select_results, 0 < r) :
    (receive_socket_response sock s).1 = RK_SUCCESS ∧
    (∃ unread, (receive_socket_response sock s).2.1.rx = unread ++ after) ∧
    (pre = [] → s.gRecorderExit = false → s.gInterruptAIResponse = false →
      receive_socket_response sock s
        = (RK_SUCCESS, { sock with rx := after, select_results := sock.select_results.tail },
            { (process_received_message s t d).2 with
              gInterruptAIResponse := false, gAIResponseActive := false })) ∧
    (sj.responseFormat ≠ "json" → sj.gRecorderExit = false → sj.gInterruptAIResponse = false →
      lj.ai_end_received = false → lj.error_received = false →
      lj.consecutive_non_progress_msgs + 1 < 5 → j.length ≤ SOCKET_RESPONSE_BUFFER_SIZE →
      sockj.rx = wire MSG_JSON_RESPONSE j ++ afterj → (∀ r ∈ sockj.select_results, 0 < r) →
      receive_loop sockj sj lj
        = receive_loop { sockj with rx := afterj, select_results := sockj.select_results.tail }
            sj { lj with message_count := lj.message_count + 1
                         consecutive_non_progress_msgs :=
                           lj.consecutive_non_progress_msgs + 1 }) := by
  have hends : ends_loop s.responseFormat t := by
    unfold ends_loop
    tauto
  have hgen : (receive_loop sock s ⟨0, false, false, 0⟩).1 = none ∧
      ∃ unread, (receive_loop sock s ⟨0, false, false, 0⟩).2.1.rx = unread ++ after := by
    rcases receive_loop_frames (pre ++ [(t, d)]) sock s ⟨0, false, false, 0⟩ after hok hrx
      hsel with h | ⟨sock1, l1, -, -, -, -, -, -, -, e8⟩
    · exact h
    · exact absurd hends (e8 (t, d) (by simp))
  refine ⟨?_, ?_, ?_, ?_⟩
  · rw [receive_socket_response_none sock s hgen.1]
  · rw [receive_socket_response_none sock s hgen.1]
    exact hgen.2
  · intro hpre hexit habort
    subst hpre
    have hf := hok (t, d) (by simp)
    obtain ⟨k, hk⟩ := receive_loop_terminal sock s ⟨0, false, false, 0⟩ t d after hexit rfl
      habort hends hf.1 hf.2 (by simpa [wire_frames] using hrx) hsel
    exact receive_socket_response_of_loop sock _ s _ k hk
  · intro hfmt hexit habort hend herr hcount hj hrxj hselj
    rw [receive_loop_log_only sockj sj lj MSG_JSON_RESPONSE j afterj hexit hend habort herr
      (Or.inr (Or.inr ⟨rfl, hfmt⟩)) hj hrxj hselj]
    rw [if_neg (by omega)]

/-- C13: from every state reached by the dispatcher from a start state in which nothing is
playing and the device is uninitialised, whenever `receive_socket_response` has read a stream
exactly up to the end of an ERROR or AI_CANCELLED frame, it reports success and any active
playback has been torn down: `audio_playing` is false, the playback device is uninitialised,
the dispatcher no longer holds a started segment, and `ai_response_active` is false. -/
theorem error_frame_tears_down (s0 : State) (hist pre : List (Nat × List Nat)) (sock : Socket)
    (t : Nat) (d rest : List Nat) (h0p : s0.gAudioPlaying = false)
    (h0i : s0.bInitialized = false) (ht : t = MSG_ERROR ∨ t = MSG_AI_CANCELLED)
    (hok : frames_ok (pre ++ [(t, d)]))
    (hrx : sock.rx = wire_frames (pre ++ [(t, d)]) ++ rest)
    (hsel : ∀ r ∈ sock.select_results, 0 < r)
    (hread : (receive_socket_response sock (process_frames s0 hist)).2.1.rx = rest) :
    (receive_socket_response sock (process_frames s0 hist)).1 = RK_SUCCESS ∧
    (receive_socket_response sock (process_frames s0 hist)).2.2.gAudioPlaying = false ∧
    (receive_socket_response sock (process_frames s0 hist)).2.2.bInitialized = false ∧
    (receive_socket_response sock (process_frames s0 hist)).2.2.audio_started = false ∧
    (receive_socket_response sock (process_frames s0 hist)).2.2.gAIResponseActive = false := by
  have htr0 : playback_tracked s0 := by
    unfold playback_tracked
    rw [h0p, h0i]
    simp
  have htr := process_frames_tracked pre _ (process_frames_tracked hist s0 htr0)
  generalize process_frames s0 hist = s at hread htr ⊢
  have hokpre : frames_ok pre := fun g hg => hok g (List.mem_append_left _ hg)
  have hf := hok (t, d) (by simp)
  have hrx1 : sock.rx = wire_frames pre ++ (wire t d ++ rest) := by
    rw [hrx, wire_frames_append, wire_frames_single, List.append_assoc]
  have hlen := wire_length t d
  have hshort : ∀ (sock1 : Socket) (s1 : State) (k : RecvLocals) (unread : List Nat),
      receive_loop sock s ⟨0, false, false, 0⟩ = (none, sock1, s1, k) →
      sock1.rx = unread ++ (wire t d ++ rest) → False := by
    intro sock1 s1 k unread hk hu
    rw [receive_socket_response_of_loop sock sock1 s s1 k hk] at hread
    simp only at hread
    rw [hu] at hread
    have := congrArg List.length hread
    simp only [List.length_append] at this
    omega
  rcases receive_loop_frames pre sock s ⟨0, false, false, 0⟩ (wire t d ++ rest) hokpre hrx1
    hsel with ⟨h1, unread, h2⟩ | ⟨sock1, l1, e1, e2, e3, -⟩
  · exfalso
    rcases hloop : receive_loop sock s ⟨0, false, false, 0⟩ with ⟨r, sockx, sx, k⟩
    rw [hloop] at h1 h2
    simp only at h1 h2
    subst h1
    exact hshort sockx sx k unread hloop h2
  · obtain ⟨p1, p2, p3⟩ := process_frames_loop_flags pre s
    by_cases hexit : (process_frames s pre).gRecorderExit = true
    · rw [receive_loop_exit sock1 _ l1 hexit] at e1
      exact (hshort _ _ _ [] e1 (by simpa using e2)).elim
    by_cases hend : l1.ai_end_received = true
    · rw [receive_loop_done sock1 _ l1 hend] at e1
      exact (hshort _ _ _ [] e1 (by simpa using e2)).elim
    by_cases habort : (process_frames s pre).gInterruptAIResponse = true
    · rw [receive_loop_abort sock1 _ l1 habort] at e1
      exact (hshort _ _ _ [] e1 (by simpa using e2)).elim
    simp only [Bool.not_eq_true] at hexit hend habort
    have hends : ends_loop (process_frames s pre).responseFormat t := by
      unfold ends_loop
      tauto
    obtain ⟨k, hk⟩ := receive_loop_terminal sock1 (process_frames s pre) l1 t d rest hexit hend
      habort hends hf.1 hf.2 e2 e3
    rw [hk] at e1
    rw [receive_socket_response_of_loop sock _ s _ k e1]
    refine ⟨rfl, ?_⟩
    rcases ht with rfl | rfl
    · rw [show (process_received_message (process_frames s pre) MSG_ERROR d).2
        = case_MSG_ERROR (process_frames s pre) from rfl]
      obtain ⟨g1, g2, g3⟩ := error_teardown _ htr
      exact ⟨g1, g2, g3, rfl⟩
    · rw [show (process_received_message (process_frames s pre) MSG_AI_CANCELLED d).2
        = case_MSG_AI_CANCELLED (process_frames s pre) from rfl]
      obtain ⟨g1, g2, g3⟩ := cancelled_teardown _ htr
      exact ⟨g1, g2, g3, rfl⟩

/-- A run whose first frame ends the loop, started with the exit and abort flags clear. -/
theorem terminal_first_frame (sock : Socket) (s : State) (t : Nat) (d after : List Nat)
    (hexit : s.gRecorderExit = false) (habort : s.gInterruptAIResponse = false)
    (ht : ends_loop s.responseFormat t) (ht256 : t < 256)
    (hd : d.length ≤ SOCKET_RESPONSE_BUFFER_SIZE) (hrx : sock.rx = wire t d ++ after)
    (hsel : ∀ r ∈ sock.select_results, 0 < r) :
    receive_socket_response sock s
      = (RK_SUCCESS, { sock with rx := after, select_results := sock.select_results.tail },
          { (process_received_message s t d).2 with
            gInterruptAIResponse := false, gAIResponseActive := false }) := by
  obtain ⟨k, hk⟩ := receive_loop_terminal sock s ⟨0, false, false, 0⟩ t d after hexit rfl
    habort ht ht256 hd hrx hsel
  exact receive_socket_response_of_loop sock _ s _ k hk

theorem non_progress_valve_witness :
    frames_ok ([] ++ newchat_frames) ∧ newchat_frames.length = 5 ∧
    (∀ f ∈ newchat_frames, ¬ progress_kind f.1) ∧
    (receive_socket_response (receiver_of (wire_frames ([] ++ newchat_frames) ++ [9]))
      idle_state).1 = RK_SUCCESS ∧
    ∃ unread,
      (receive_socket_response (receiver_of (wire_frames ([] ++ newchat_frames) ++ [9]))
        idle_state).2.1.rx = unread ++ [9] :=
  ⟨by decide, rfl, by decide,
    (non_progress_valve (receiver_of (wire_frames ([] ++ newchat_frames) ++ [9])) idle_state []
      newchat_frames [9] (by decide) rfl (by decide) rfl (by decide)).1,
    (non_progress_valve (receiver_of (wire_frames ([] ++ newchat_frames) ++ [9])) idle_state []
      newchat_frames [9] (by decide) rfl (by decide) rfl (by decide)).2.1⟩

theorem terminal_frame_ends_loop_witness :
    frames_ok ([] ++ [(MSG_ERROR, [])]) ∧
    (receive_socket_response (receiver_of (wire_frames ([] ++ [(MSG_ERROR, [])]) ++ [9]))
      idle_state).1 = RK_SUCCESS ∧
    ∃ unread,
      (receive_socket_response (receiver_of (wire_frames ([] ++ [(MSG_ERROR, [])]) ++ [9]))
        idle_state).2.1.rx = unread ++ [9] :=
  ⟨by decide,
    (terminal_frame_ends_loop (receiver_of (wire_frames ([] ++ [(MSG_ERROR, [])]) ++ [9]))
      (receiver_of []) idle_state idle_state ⟨0, false, false, 0⟩ [] MSG_ERROR [] [9] [] []
      (by decide) (Or.inl rfl) rfl (by decide)).1,
    (terminal_frame_ends_loop (receiver_of (wire_frames ([] ++ [(MSG_ERROR, [])]) ++ [9]))
      (receiver_of []) idle_state idle_state ⟨0, false, false, 0⟩ [] MSG_ERROR [] [9] [] []
      (by decide) (Or.inl rfl) rfl (by decide)).2.1⟩

/-- An audio segment has been started when the ERROR frame arrives. -/
theorem error_frame_tears_down_witness :
    idle_state.gAudioPlaying = false ∧ idle_state.bInitialized = false ∧
    (process_frames idle_state [(MSG_AUDIO_START, [])]).gAudioPlaying = true ∧
    (receive_socket_response (receiver_of (wire_frames ([] ++ [(MSG_ERROR, [])]) ++ [9]))
      (process_frames idle_state [(MSG_AUDIO_START, [])])).2.1.rx = [9] ∧
    (receive_socket_response (receiver_of (wire_frames ([] ++ [(MSG_ERROR, [])]) ++ [9]))
      (process_frames idle_state [(MSG_AUDIO_START, [])])).1 = RK_SUCCESS ∧
    (receive_socket_response (receiver_of (wire_frames ([] ++ [(MSG_ERROR, [])]) ++ [9]))
      (process_frames idle_state [(MSG_AUDIO_START, [])])).2.2.gAudioPlaying = false :=
  have hread : (receive_socket_response
      (receiver_of (wire_frames ([] ++ [(MSG_ERROR, [])]) ++ [9]))
      (process_frames idle_state [(MSG_AUDIO_START, [])])).2.1.rx = [9] := by
    rw [terminal_first_frame _ (process_frames idle_state [(MSG_AUDIO_START, [])]) MSG_ERROR []
      [9] ((process_frames_loop_flags _ idle_state).1.trans rfl)
      ((process_frames_loop_flags _ idle_state).2.1.trans rfl) (Or.inr (Or.inl rfl))
      (by decide) (by decide) rfl (by decide)]
  ⟨rfl, rfl, (audio_start_ok idle_state rfl (by decide)).2.2.2.2.2.2.1, hread,
    (error_frame_tears_down idle_state [(MSG_AUDIO_START, [])] []
      (receiver_of (wire_frames ([] ++ [(MSG_ERROR, [])]) ++ [9])) MSG_ERROR [] [9] rfl rfl
      (Or.inl rfl) (by decide) rfl (by decide) hread).1,
    (error_frame_tears_down idle_state [(MSG_AUDIO_START, [])] []
      (receiver_of (wire_frames ([] ++ [(MSG_ERROR, [])]) ++ [9])) MSG_ERROR [] [9] rfl rfl
      (Or.inl rfl) (by decide) rfl (by decide) hread).2.1⟩

/-! ## Chunked submission -/

theorem chunks4096_nil (d : List Nat) (h : d.length = 0) : chunks4096 d = [] := by
  rw [chunks4096]
  simp [h]

theorem chunks4096_cons (d : List Nat) (h : 0 < d.length) :
    chunks4096 d = d.take 4096 :: chunks4096 (d.drop 4096) := by
  rw [chunks4096]
  simp only [gt_iff_lt, h, dite_true]
  by_cases h2 : 4096 < d.length
  · simp only [h2, if_true]
  · simp only [h2, if_false]
    rw [List.take_of_length_le (le_refl _), List.take_of_length_le (by omega),
      List.drop_of_length_le (le_refl _), List.drop_of_length_le (by omega)]

theorem chunks4096_facts (n : Nat) :
    ∀ d : List Nat, d.length ≤ n →
      (chunks4096 d).length = (d.length + 4095) / 4096 ∧
      (∀ c ∈ chunks4096 d, c.length ≤ 4096) ∧
      (∀ c ∈ (chunks4096 d).dropLast, c.length = 4096) ∧
      (chunks4096 d).flatten = d := by
  induction n with
  | zero =>
    intro d h
    have h0 : d.length = 0 := by omega
    rw [chunks4096_nil d h0]
    have : d = [] := List.length_eq_zero.1 h0
    subst this
    simp
  | succ n ih =>
    intro d h
    by_cases h0 : d.length = 0
    · rw [chunks4096_nil d h0]
      have : d = [] := List.length_eq_zero.1 h0
      subst this
      simp
    · have hpos : 0 < d.length := by omega
      rw [chunks4096_cons d hpos]
      have hdrop : (d.drop 4096).length ≤ n := by
        simp only [List.length_drop]; omega
      obtain ⟨i1, i2, i3, i4⟩ := ih _ hdrop
      refine ⟨?_, ?_, ?_, ?_⟩
      · rw [List.length_cons, i1, List.length_drop]
        omega
      · intro c hc
        rcases List.mem_cons.1 hc with rfl | hc
        · simp only [List.length_take]; omega
        · exact i2 c hc
      · intro c hc
        by_cases hrest : (d.drop 4096).length = 0
        · rw [chunks4096_nil _ hrest] at hc
          simp at hc
        · have hne : chunks4096 (d.drop 4096) ≠ [] := by
            intro hnil
            have := congrArg List.length hnil
            rw [i1] at this
            simp only [List.length_nil] at this
            omega
          rw [List.dropLast_cons_of_ne_nil hne] at hc
          rcases List.mem_cons.1 hc with rfl | hc
          · simp only [List.length_take, List.length_drop] at hrest ⊢
            omega
          · exact i3 c hc
      · rw [List.flatten_cons, i4, List.take_append_drop]

theorem headD_of_forall (L : List Int) (h : ∀ r ∈ L, r = RK_SUCCESS) :
    L.headD 0 = RK_SUCCESS := by
  cases L with
  | nil => rfl
  | cons a t => exact h a (List.mem_cons_self _ _)

/-- A submission that is not answered with device-busy is made once. -/
theorem send_frame_once (s : State) (c : List Nat)
    (hnb : ¬ (s.vendor.SendFrame.headD 0 < 0 ∧
      s.vendor.SendFrame.headD 0 = s.vendor.RK_ERR_AO_BUSY)) :
    (send_frame_retry s c).1 = s.vendor.SendFrame.headD 0 ∧
    (send_frame_retry s c).2.ao_calls = s.ao_calls ++ [AoCall.SendFrame c] ∧
    (send_frame_retry s c).2.vendor = { s.vendor with SendFrame := s.vendor.SendFrame.tail } ∧
    (send_frame_retry s c).2.gAudioPlaying = s.gAudioPlaying ∧
    (send_frame_retry s c).2.bInitialized = s.bInitialized := by
  rw [send_frame_retry]
  simp only [RK_MPI_AO_SendFrame, ao_call]
  split_ifs with h1 h2 h3 h4
  · exact absurd ⟨h1, h3.1⟩ hnb
  · exact ⟨rfl, rfl, rfl, rfl, rfl⟩
  · exact absurd ⟨h1, h4.1⟩ hnb
  · exact ⟨rfl, rfl, rfl, rfl, rfl⟩
  · exact ⟨rfl, rfl, rfl, rfl, rfl⟩

/-- The straight-line part of `play_audio_buffer`, lines 1228-1386, reached with a
non-empty input of at most 4096 bytes while playing on an initialised device. -/
theorem leaf_body (recurse : State → List Nat → Int × State) (s : State) (c : List Nat)
    (hp : s.gAudioPlaying = true) (hi : s.bInitialized = true) (hc0 : 0 < c.length)
    (hc : c.length ≤ 4096) :
    play_audio_buffer_body recurse s c =
      (let s1 := if !s.first_audio_played then { s with first_audio_played := true } else s
       let m := RK_MPI_SYS_CreateMB { s1 with timeStamp := s1.timeStamp + 1 }
       if m.1 ≠ RK_SUCCESS then (RK_FAILURE, m.2)
       else
         ((send_frame_retry m.2 c).1,
           if (send_frame_retry m.2 c).1 = RK_SUCCESS then
             { (send_frame_retry m.2 c).2 with
               audio_segments_played := (send_frame_retry m.2 c).2.audio_segments_played + 1 }
           else (send_frame_retry m.2 c).2)) := by
  have hgp : (!get_audio_playing_state s) = false := by
    simp [get_audio_playing_state, hp]
  have hbi : (!s.bInitialized) = false := by simp [hi]
  unfold play_audio_buffer_body
  simp only [hgp, hbi, show ¬ (c.length = 0) by omega, show ¬ (c.length > 4096) by omega,
    if_false, Bool.false_eq_true]

theorem not_busy_of_forall (L : List Int) (b : Int) (h : ∀ r ∈ L, r ≠ b) :
    ¬ (L.headD 0 < 0 ∧ L.headD 0 = b) := by
  rintro ⟨hneg, heq⟩
  cases L with
  | nil => simp at hneg
  | cons a t => exact h a (List.mem_cons_self _ _) heq

/-- What follows the bookkeeping of the first played block, on a steady device: the frame is
submitted once, the result is the one the device gives, and the device stays steady. -/
theorem leaf_tail (s1 : State) (c : List Nat) (out : Int × State) (hs : steady_device s1) :
    ((if (RK_MPI_SYS_CreateMB { s1 with timeStamp := s1.timeStamp + 1 }).1 ≠ RK_SUCCESS then
        (RK_FAILURE, (RK_MPI_SYS_CreateMB { s1 with timeStamp := s1.timeStamp + 1 }).2)
      else
        ((send_frame_retry
            (RK_MPI_SYS_CreateMB { s1 with timeStamp := s1.timeStamp + 1 }).2 c).1,
          if (send_frame_retry
              (RK_MPI_SYS_CreateMB { s1 with timeStamp := s1.timeStamp + 1 }).2 c).1
              = RK_SUCCESS then
            { (send_frame_retry
                (RK_MPI_SYS_CreateMB { s1 with timeStamp := s1.timeStamp + 1 }).2 c).2 with
              audio_segments_played :=
                (send_frame_retry
                  (RK_MPI_SYS_CreateMB { s1 with timeStamp := s1.timeStamp + 1 }).2
                  c).2.audio_segments_played + 1 }
          else
            (send_frame_retry
              (RK_MPI_SYS_CreateMB { s1 with timeStamp := s1.timeStamp + 1 }).2 c).2)) :
        Int × State) = out →
    out.1 = s1.vendor.SendFrame.headD 0 ∧
    out.2.ao_calls = s1.ao_calls ++ [AoCall.SendFrame c] ∧
    out.2.vendor.SendFrame = s1.vendor.SendFrame.tail ∧
    steady_device out.2 := by
  obtain ⟨hp, hi, hmb, hbusy⟩ := hs
  have hm1 : (RK_MPI_SYS_CreateMB { s1 with timeStamp := s1.timeStamp + 1 }).1 = RK_SUCCESS :=
    headD_of_forall _ hmb
  generalize hm : (RK_MPI_SYS_CreateMB { s1 with timeStamp := s1.timeStamp + 1 }).2 = m
  have v1 : m.vendor.SendFrame = s1.vendor.SendFrame := by rw [← hm]; rfl
  have v2 : m.vendor.RK_ERR_AO_BUSY = s1.vendor.RK_ERR_AO_BUSY := by rw [← hm]; rfl
  have v3 : m.vendor.CreateMB = s1.vendor.CreateMB.tail := by rw [← hm]; rfl
  have v4 : m.ao_calls = s1.ao_calls := by rw [← hm]; rfl
  have v5 : m.gAudioPlaying = true := by rw [← hm]; exact hp
  have v6 : m.bInitialized = true := by rw [← hm]; exact hi
  have hnb : ¬ (m.vendor.SendFrame.headD 0 < 0 ∧
      m.vendor.SendFrame.headD 0 = m.vendor.RK_ERR_AO_BUSY) := by
    rw [v1, v2]
    exact not_busy_of_forall _ _ hbusy
  obtain ⟨r1, r2, r3, r4, r5⟩ := send_frame_once m c hnb
  intro hout
  rw [if_neg (by rw [hm1]; simp)] at hout
  have hsteady : steady_device (send_frame_retry m c).2 := by
    refine ⟨r4.trans v5, r5.trans v6, ?_, ?_⟩
    · rw [r3]
      intro r hr
      have hr1 : r ∈ m.vendor.CreateMB := hr
      rw [v3] at hr1
      exact hmb r (List.mem_of_mem_tail hr1)
    · rw [r3]
      intro r hr
      have hr1 : r ∈ m.vendor.SendFrame.tail := hr
      rw [v1] at hr1
      have hne := hbusy r (List.mem_of_mem_tail hr1)
      rw [← v2] at hne
      exact hne
  have hv : (send_frame_retry m c).2.vendor.SendFrame = s1.vendor.SendFrame.tail := by
    rw [r3, ← v1]
  subst hout
  refine ⟨r1.trans (by rw [v1]), ?_, ?_, ?_⟩
  · simp only []
    split_ifs
    · exact r2.trans (by rw [v4])
    · exact r2.trans (by rw [v4])
  · simp only []
    split_ifs
    · exact hv
    · exact hv
  · simp only []
    split_ifs
    · exact hsteady
    · exact hsteady

/-- One chunk played on a steady device: it is submitted once, the result is the one the
device gives, and the device stays steady. -/
theorem leaf_submit (s : State) (c : List Nat) (hs : steady_device s) (hc0 : 0 < c.length)
    (hc : c.length ≤ 4096) :
    (play_audio_buffer_leaf s c).1 = s.vendor.SendFrame.headD 0 ∧
    (play_audio_buffer_leaf s c).2.ao_calls = s.ao_calls ++ [AoCall.SendFrame c] ∧
    (play_audio_buffer_leaf s c).2.vendor.SendFrame = s.vendor.SendFrame.tail ∧
    steady_device (play_audio_buffer_leaf s c).2 := by
  rw [play_audio_buffer_leaf, leaf_body _ s c hs.1 hs.2.1 hc0 hc]
  by_cases hf : (!s.first_audio_played) = true
  · simp only [hf, if_true]
    exact leaf_tail { s with first_audio_played := true } c _ hs rfl
  · simp only [hf, if_false]
    exact leaf_tail s c _ hs rfl

theorem play_chunks_step (recurse : State → List Nat → Int × State) (s : State)
    (d : List Nat) (o : Int) (hpos : 0 < d.length) :
    play_chunks recurse s d o
      = play_chunks recurse (recurse s (d.take 4096)).2 (d.drop 4096)
          (if (recurse s (d.take 4096)).1 ≠ RK_SUCCESS then (recurse s (d.take 4096)).1
            else o) := by
  have hcs : (if d.length > 4096 then 4096 else d.length) = min 4096 d.length := by
    split <;> omega
  have htake : d.take (min 4096 d.length) = d.take 4096 := by
    by_cases h2 : 4096 < d.length
    · rw [Nat.min_eq_left (by omega)]
    · rw [Nat.min_eq_right (by omega), List.take_of_length_le (le_refl _),
        List.take_of_length_le (by omega)]
  have hdrop : d.drop (min 4096 d.length) = d.drop 4096 := by
    by_cases h2 : 4096 < d.length
    · rw [Nat.min_eq_left (by omega)]
    · rw [Nat.min_eq_right (by omega), List.drop_of_length_le (le_refl _),
        List.drop_of_length_le (by omega)]
  conv_lhs => rw [play_chunks]
  simp only [gt_iff_lt, hpos, dite_true, hcs, htake, hdrop]

/-- The chunked path of `play_audio_buffer`, lines 1240-1278, reached with more than 4096
bytes while playing on an initialised device. -/
theorem play_big_body (s : State) (d : List Nat) (hlen : d.length > 4096)
    (hp : s.gAudioPlaying = true) (hi : s.bInitialized = true) :
    play_audio_buffer s d
      = play_chunks play_audio_buffer_leaf
          (if !s.first_audio_played then { s with first_audio_played := true } else s) d
          RK_SUCCESS := by
  have hgp : (!get_audio_playing_state s) = false := by
    simp [get_audio_playing_state, hp]
  have hbi : (!s.bInitialized) = false := by simp [hi]
  unfold play_audio_buffer play_audio_buffer_body
  simp only [hgp, hbi, show ¬ (d.length = 0) by omega, hlen, if_true, if_false,
    Bool.false_eq_true]

theorem take_succ_script (L : List Int) (k : Nat) :
    (∀ x ∈ L.take (k + 1), x = RK_SUCCESS) ↔
      (L.headD 0 = RK_SUCCESS ∧ ∀ x ∈ L.tail.take k, x = RK_SUCCESS) := by
  cases L with
  | nil => simp [RK_SUCCESS]
  | cons a t => simp

/-- The chunk loop on a steady device: the chunks are submitted once each, in order, whatever
the results, and the loop returns success exactly when it was entered with success and the
device reported success for every chunk. -/
theorem play_chunks_submit (n : Nat) :
    ∀ (s : State) (d : List Nat) (o : Int), d.length ≤ n → steady_device s →
      (play_chunks play_audio_buffer_leaf s d o).2.ao_calls
        = s.ao_calls ++ (chunks4096 d).map AoCall.SendFrame ∧
      ((play_chunks play_audio_buffer_leaf s d o).1 = RK_SUCCESS ↔
        (o = RK_SUCCESS ∧
          ∀ x ∈ s.vendor.SendFrame.take (chunks4096 d).length, x = RK_SUCCESS)) ∧
      steady_device (play_chunks play_audio_buffer_leaf s d o).2 := by
  induction n with
  | zero =>
    intro s d o h hs
    have h0 : d.length = 0 := by omega
    rw [play_chunks, chunks4096_nil d h0]
    simp [h0, hs]
  | succ n ih =>
    intro s d o h hs
    by_cases h0 : d.length = 0
    · rw [play_chunks, chunks4096_nil d h0]
      simp [h0, hs]
    · have hpos : 0 < d.length := by omega
      rw [play_chunks_step _ s d o hpos, chunks4096_cons d hpos]
      obtain ⟨l1, l2, l3, l4⟩ := leaf_submit s (d.take 4096) hs
        (by simp only [List.length_take]; omega) (by simp only [List.length_take]; omega)
      obtain ⟨i1, i2, i3⟩ := ih (play_audio_buffer_leaf s (d.take 4096)).2 (d.drop 4096)
        (if (play_audio_buffer_leaf s (d.take 4096)).1 ≠ RK_SUCCESS then
          (play_audio_buffer_leaf s (d.take 4096)).1 else o)
        (by simp only [List.length_drop]; omega) l4
      refine ⟨?_, ?_, i3⟩
      · rw [i1, l2, List.map_cons, List.append_assoc]
        rfl
      · rw [i2, l3, List.length_cons, take_succ_script, l1]
        generalize s.vendor.SendFrame.headD 0 = r
        by_cases hr : r = RK_SUCCESS
        · rw [if_neg (by simp [hr])]
          tauto
        · rw [if_pos hr]
          tauto

/-- The chunked path of `play_audio_buffer` on a steady device. -/
theorem play_big_submit (s : State) (d : List Nat) (hlen : d.length > 4096)
    (hs : steady_device s) :
    (play_audio_buffer s d).2.ao_calls = s.ao_calls ++ (chunks4096 d).map AoCall.SendFrame ∧
    ((play_audio_buffer s d).1 = RK_SUCCESS ↔
      ∀ x ∈ s.vendor.SendFrame.take (chunks4096 d).length, x = RK_SUCCESS) ∧
    steady_device (play_audio_buffer s d).2 := by
  rw [play_big_body s d hlen hs.1 hs.2.1]
  by_cases hf : (!s.first_audio_played) = true
  · rw [if_pos hf]
    obtain ⟨i1, i2, i3⟩ := play_chunks_submit _ { s with first_audio_played := true } d
      RK_SUCCESS (le_refl _) hs
    exact ⟨i1, by rw [i2]; simp, i3⟩
  · rw [if_neg hf]
    obtain ⟨i1, i2, i3⟩ := play_chunks_submit _ s d RK_SUCCESS (le_refl _) hs
    exact ⟨i1, by rw [i2]; simp, i3⟩

/-- A chunk whose memory block cannot be created is not submitted. -/
theorem leaf_no_block (s : State) (c : List Nat) (hp : s.gAudioPlaying = true)
    (hi : s.bInitialized = true) (hc0 : 0 < c.length) (hc : c.length ≤ 4096)
    (hfail : s.vendor.CreateMB.headD 0 ≠ RK_SUCCESS) :
    (play_audio_buffer_leaf s c).1 = RK_FAILURE ∧
    (play_audio_buffer_leaf s c).2.ao_calls = s.ao_calls ∧
    (play_audio_buffer_leaf s c).2.vendor
      = { s.vendor with CreateMB := s.vendor.CreateMB.tail } ∧
    (play_audio_buffer_leaf s c).2.gAudioPlaying = true ∧
    (play_audio_buffer_leaf s c).2.bInitialized = true := by
  rw [play_audio_buffer_leaf, leaf_body _ s c hp hi hc0 hc]
  by_cases hf : (!s.first_audio_played) = true
  · rw [if_pos hf]
    have hm : (RK_MPI_SYS_CreateMB
        { ({ s with first_audio_played := true } : State) with
          timeStamp := s.timeStamp + 1 }).1 ≠ RK_SUCCESS := hfail
    simp only []
    rw [if_pos hm]
    exact ⟨rfl, rfl, rfl, hp, hi⟩
  · rw [if_neg hf]
    have hm : (RK_MPI_SYS_CreateMB { s with timeStamp := s.timeStamp + 1 }).1 ≠ RK_SUCCESS :=
      hfail
    simp only []
    rw [if_pos hm]
    exact ⟨rfl, rfl, rfl, hp, hi⟩

theorem chunks4096_single (d : List Nat) (h0 : 0 < d.length) (h : d.length ≤ 4096) :
    chunks4096 d = [d] := by
  rw [chunks4096_cons d h0, List.take_of_length_le h, List.drop_of_length_le h,
    chunks4096_nil [] rfl]

/-- An input of two chunks whose first memory block cannot be created: only the second chunk
is submitted. -/
theorem first_block_lost (s : State) (d : List Nat) (hlen : d.length > 4096)
    (hlen2 : d.length ≤ 8192) (hp : s.gAudioPlaying = true) (hi : s.bInitialized = true)
    (hfail : s.vendor.CreateMB.headD 0 ≠ RK_SUCCESS)
    (hmb : ∀ r ∈ s.vendor.CreateMB.tail, r = RK_SUCCESS)
    (hbusy : ∀ r ∈ s.vendor.SendFrame, r ≠ s.vendor.RK_ERR_AO_BUSY) :
    (play_audio_buffer s d).2.ao_calls = s.ao_calls ++ [AoCall.SendFrame (d.drop 4096)] ∧
    (play_audio_buffer s d).2.gAudioPlaying = true ∧
    (play_audio_buffer s d).2.bInitialized = true := by
  have key : ∀ s1 : State, s1.gAudioPlaying = true → s1.bInitialized = true →
      s1.vendor = s.vendor → s1.ao_calls = s.ao_calls →
      (play_chunks play_audio_buffer_leaf s1 d RK_SUCCESS).2.ao_calls
        = s.ao_calls ++ [AoCall.SendFrame (d.drop 4096)] ∧
      (play_chunks play_audio_buffer_leaf s1 d RK_SUCCESS).2.gAudioPlaying = true ∧
      (play_chunks play_audio_buffer_leaf s1 d RK_SUCCESS).2.bInitialized = true := by
    intro s1 hp1 hi1 hv ha
    obtain ⟨f1, f2, f3, f4, f5⟩ := leaf_no_block s1 (d.take 4096) hp1 hi1
      (by simp only [List.length_take]; omega) (by simp only [List.length_take]; omega)
      (by rw [hv]; exact hfail)
    have hsteady : steady_device (play_audio_buffer_leaf s1 (d.take 4096)).2 := by
      refine ⟨f4, f5, ?_, ?_⟩
      · rw [f3, hv]
        exact hmb
      · rw [f3, hv]
        exact hbusy
    rw [play_chunks_step _ s1 d _ (by omega)]
    obtain ⟨i1, -, i3⟩ := play_chunks_submit _ (play_audio_buffer_leaf s1 (d.take 4096)).2
      (d.drop 4096)
      (if (play_audio_buffer_leaf s1 (d.take 4096)).1 ≠ RK_SUCCESS then
        (play_audio_buffer_leaf s1 (d.take 4096)).1 else RK_SUCCESS) (le_refl _) hsteady
    rw [chunks4096_single (d.drop 4096) (by simp only [List.length_drop]; omega)
      (by simp only [List.length_drop]; omega), f2, ha] at i1
    exact ⟨i1, i3.1, i3.2.1⟩
  rw [play_big_body s d hlen hp hi]
  by_cases hf : (!s.first_audio_played) = true
  · rw [if_pos hf]
    exact key _ hp hi rfl rfl
  · rw [if_neg hf]
    exact key _ hp hi rfl rfl

/-- A chunk whose memory block is created goes to the submission loop: the result and the
device calls of `play_audio_buffer` on it are those of `send_frame_retry`. -/
theorem leaf_after_block (s : State) (c : List Nat) (hp : s.gAudioPlaying = true)
    (hi : s.bInitialized = true) (hc0 : 0 < c.length) (hc : c.length ≤ 4096)
    (hmb : s.vendor.CreateMB.headD 0 = RK_SUCCESS) :
    ∃ m : State, m.vendor = { s.vendor with CreateMB := s.vendor.CreateMB.tail } ∧
      m.ao_calls = s.ao_calls ∧ m.gAudioPlaying = true ∧ m.bInitialized = true ∧
      m.error_count = s.error_count ∧
      (play_audio_buffer_leaf s c).1 = (send_frame_retry m c).1 ∧
      (play_audio_buffer_leaf s c).2.ao_calls = (send_frame_retry m c).2.ao_calls ∧
      (play_audio_buffer_leaf s c).2.vendor = (send_frame_retry m c).2.vendor ∧
      (play_audio_buffer_leaf s c).2.gAudioPlaying = (send_frame_retry m c).2.gAudioPlaying ∧
      (play_audio_buffer_leaf s c).2.bInitialized = (send_frame_retry m c).2.bInitialized := by
  have key : ∀ s1 : State, s1.gAudioPlaying = true → s1.bInitialized = true →
      s1.vendor = s.vendor → s1.ao_calls = s.ao_calls → s1.error_count = s.error_count →
      ∀ out : Int × State,
      ((if (RK_MPI_SYS_CreateMB { s1 with timeStamp := s1.timeStamp + 1 }).1 ≠ RK_SUCCESS then
        (RK_FAILURE, (RK_MPI_SYS_CreateMB { s1 with timeStamp := s1.timeStamp + 1 }).2)
      else
        ((send_frame_retry
            (RK_MPI_SYS_CreateMB { s1 with timeStamp := s1.timeStamp + 1 }).2 c).1,
          if (send_frame_retry
              (RK_MPI_SYS_CreateMB { s1 with timeStamp := s1.timeStamp + 1 }).2 c).1
              = RK_SUCCESS then
            { (send_frame_retry
                (RK_MPI_SYS_CreateMB { s1 with timeStamp := s1.timeStamp + 1 }).2 c).2 with
              audio_segments_played :=
                (send_frame_retry
                  (RK_MPI_SYS_CreateMB { s1 with timeStamp := s1.timeStamp + 1 }).2
                  c).2.audio_segments_played + 1 }
          else
            (send_frame_retry
              (RK_MPI_SYS_CreateMB { s1 with timeStamp := s1.timeStamp + 1 }).2 c).2)) :
        Int × State) = out →
      ∃ m : State, m.vendor = { s.vendor with CreateMB := s.vendor.CreateMB.tail } ∧
        m.ao_calls = s.ao_calls ∧ m.gAudioPlaying = true ∧ m.bInitialized = true ∧
        m.error_count = s.error_count ∧
        out.1 = (send_frame_retry m c).1 ∧
        out.2.ao_calls = (send_frame_retry m c).2.ao_calls ∧
        out.2.vendor = (send_frame_retry m c).2.vendor ∧
        out.2.gAudioPlaying = (send_frame_retry m c).2.gAudioPlaying ∧
        out.2.bInitialized = (send_frame_retry m c).2.bInitialized := by
    intro s1 hp1 hi1 hv ha he out hout
    have hm1 : (RK_MPI_SYS_CreateMB { s1 with timeStamp := s1.timeStamp + 1 }).1
        = RK_SUCCESS := by
      show s1.vendor.CreateMB.headD 0 = RK_SUCCESS
      rw [hv]
      exact hmb
    rw [if_neg (by rw [hm1]; simp)] at hout
    refine ⟨(RK_MPI_SYS_CreateMB { s1 with timeStamp := s1.timeStamp + 1 }).2, ?_, ha, hp1,
      hi1, he, ?_⟩
    · show ({ s1.vendor with CreateMB := s1.vendor.CreateMB.tail } : Vendor) = _
      rw [hv]
    · subst hout
      refine ⟨?_, ?_, ?_, ?_, ?_⟩ <;> first | rfl | (split_ifs <;> rfl)
  rw [play_audio_buffer_leaf, leaf_body _ s c hp hi hc0 hc]
  by_cases hf : (!s.first_audio_played) = true
  · rw [if_pos hf]
    exact key { s with first_audio_played := true } hp hi rfl rfl rfl _ rfl
  · rw [if_neg hf]
    exact key s hp hi rfl rfl rfl _ rfl

/-- A submission answered once with device-busy while the error count allows a retry is
made twice. -/
theorem send_frame_twice (s : State) (c : List Nat)
    (hneg : s.vendor.SendFrame.headD 0 < 0)
    (hb : s.vendor.SendFrame.headD 0 = s.vendor.RK_ERR_AO_BUSY)
    (hec : s.error_count + 1 < 3)
    (hnb : ¬ (s.vendor.SendFrame.tail.headD 0 < 0 ∧
      s.vendor.SendFrame.tail.headD 0 = s.vendor.RK_ERR_AO_BUSY)) :
    (send_frame_retry s c).1 = s.vendor.SendFrame.tail.headD 0 ∧
    (send_frame_retry s c).2.ao_calls
      = s.ao_calls ++ [AoCall.SendFrame c, AoCall.SendFrame c] ∧
    (send_frame_retry s c).2.vendor
      = { s.vendor with SendFrame := s.vendor.SendFrame.tail.tail } ∧
    (send_frame_retry s c).2.gAudioPlaying = s.gAudioPlaying ∧
    (send_frame_retry s c).2.bInitialized = s.bInitialized := by
  rw [send_frame_retry]
  simp only [RK_MPI_AO_SendFrame, ao_call, hneg, if_true, show s.error_count < 5 by omega]
  rw [if_pos ⟨hb, hec⟩]
  obtain ⟨r1, r2, r3, r4, r5⟩ := send_frame_once
    { s with vendor := { s.vendor with SendFrame := s.vendor.SendFrame.tail },
             ao_calls := s.ao_calls ++ [AoCall.SendFrame c],
             error_count := s.error_count + 1 } c hnb
  refine ⟨r1, ?_, r3, r4, r5⟩
  rw [r2]
  simp

/-- An input of two chunks whose first submission is answered once with device-busy: the
first chunk is submitted twice, then the second chunk. -/
theorem first_frame_twice (s : State) (d : List Nat) (hlen : d.length > 4096)
    (hlen2 : d.length ≤ 8192) (hp : s.gAudioPlaying = true) (hi : s.bInitialized = true)
    (hmb : ∀ r ∈ s.vendor.CreateMB, r = RK_SUCCESS)
    (hneg : s.vendor.SendFrame.headD 0 < 0)
    (hb : s.vendor.SendFrame.headD 0 = s.vendor.RK_ERR_AO_BUSY)
    (hec : s.error_count + 1 < 3)
    (hbusy : ∀ r ∈ s.vendor.SendFrame.tail, r ≠ s.vendor.RK_ERR_AO_BUSY) :
    (play_audio_buffer s d).2.ao_calls
      = s.ao_calls ++ [AoCall.SendFrame (d.take 4096), AoCall.SendFrame (d.take 4096),
          AoCall.SendFrame (d.drop 4096)] ∧
    (play_audio_buffer s d).2.gAudioPlaying = true ∧
    (play_audio_buffer s d).2.bInitialized = true := by
  have key : ∀ s1 : State, s1.gAudioPlaying = true → s1.bInitialized = true →
      s1.vendor = s.vendor → s1.ao_calls = s.ao_calls → s1.error_count = s.error_count →
      (play_chunks play_audio_buffer_leaf s1 d RK_SUCCESS).2.ao_calls
        = s.ao_calls ++ [AoCall.SendFrame (d.take 4096), AoCall.SendFrame (d.take 4096),
            AoCall.SendFrame (d.drop 4096)] ∧
      (play_chunks play_audio_buffer_leaf s1 d RK_SUCCESS).2.gAudioPlaying = true ∧
      (play_chunks play_audio_buffer_leaf s1 d RK_SUCCESS).2.bInitialized = true := by
    intro s1 hp1 hi1 hv ha he
    obtain ⟨m, m1, m2, m3, m4, m5, f1, f2, f3, f4, f5⟩ := leaf_after_block s1 (d.take 4096)
      hp1 hi1 (by simp only [List.length_take]; omega) (by simp only [List.length_take]; omega)
      (by rw [hv]; exact headD_of_forall _ hmb)
    have mv1 : m.vendor.SendFrame = s.vendor.SendFrame := by rw [m1, hv]
    have mv2 : m.vendor.RK_ERR_AO_BUSY = s.vendor.RK_ERR_AO_BUSY := by rw [m1, hv]
    have mv3 : m.vendor.CreateMB = s.vendor.CreateMB.tail := by rw [m1, hv]
    obtain ⟨t1, t2, t3, t4, t5⟩ := send_frame_twice m (d.take 4096) (by rw [mv1]; exact hneg)
      (by rw [mv1, mv2]; exact hb) (by rw [m5, he]; exact hec)
      (by rw [mv1, mv2]; exact not_busy_of_forall _ _ hbusy)
    have hsteady : steady_device (play_audio_buffer_leaf s1 (d.take 4096)).2 := by
      refine ⟨by rw [f4, t4, m3], by rw [f5, t5, m4], ?_, ?_⟩
      · rw [f3, t3]
        intro r hr
        have hr1 : r ∈ m.vendor.CreateMB := hr
        rw [mv3] at hr1
        exact hmb r (List.mem_of_mem_tail hr1)
      · rw [f3, t3]
        intro r hr
        have hr1 : r ∈ m.vendor.SendFrame.tail.tail := hr
        rw [mv1] at hr1
        have hne := hbusy r (List.mem_of_mem_tail hr1)
        rw [← mv2] at hne
        exact hne
    rw [play_chunks_step _ s1 d _ (by omega)]
    obtain ⟨i1, -, i3⟩ := play_chunks_submit _ (play_audio_buffer_leaf s1 (d.take 4096)).2
      (d.drop 4096)
      (if (play_audio_buffer_leaf s1 (d.take 4096)).1 ≠ RK_SUCCESS then
        (play_audio_buffer_leaf s1 (d.take 4096)).1 else RK_SUCCESS) (le_refl _) hsteady
    rw [chunks4096_single (d.drop 4096) (by simp only [List.length_drop]; omega)
      (by simp only [List.length_drop]; omega), f2, t2, m2, ha] at i1
    refine ⟨i1.trans (by simp), i3.1, i3.2.1⟩
  rw [play_big_body s d hlen hp hi]
  by_cases hf : (!s.first_audio_played) = true
  · rw [if_pos hf]
    exact key _ hp hi rfl rfl rfl
  · rw [if_neg hf]
    exact key _ hp hi rfl rfl rfl

/-- C19 (as amended): for every input of more than 4096 bytes, played while playback is active
and the device initialised, provided every memory block is created and no submission is
answered with device-busy, `play_audio_buffer` submits exactly the chunks of the input, once
each and in order: there are ceil(n / 4096) of them, each of at most 4096 bytes and all but
the last of exactly 4096, and their concatenation is the input. The results the device gives
play no part in this, so a failing chunk does not stop the remaining chunks from being
submitted; the call returns success exactly when the device reported success for every
chunk, and playback is still active and the device still initialised afterwards. -/
theorem chunked_submission (s : State) (d : List Nat) (hlen : d.length > 4096)
    (hp : s.gAudioPlaying = true) (hi : s.bInitialized = true)
    (hmb : ∀ r ∈ s.vendor.CreateMB, r = RK_SUCCESS)
    (hbusy : ∀ r ∈ s.vendor.SendFrame, r ≠ s.vendor.RK_ERR_AO_BUSY) :
    (play_audio_buffer s d).2.ao_calls = s.ao_calls ++ (chunks4096 d).map AoCall.SendFrame ∧
    (chunks4096 d).length = (d.length + 4095) / 4096 ∧
    (∀ c ∈ chunks4096 d, c.length ≤ 4096) ∧
    (∀ c ∈ (chunks4096 d).dropLast, c.length = 4096) ∧
    (chunks4096 d).flatten = d ∧
    ((play_audio_buffer s d).1 = RK_SUCCESS ↔
      ∀ x ∈ s.vendor.SendFrame.take (chunks4096 d).length, x = RK_SUCCESS) ∧
    (play_audio_buffer s d).2.gAudioPlaying = true ∧
    (play_audio_buffer s d).2.bInitialized = true := by
  obtain ⟨i1, i2, i3⟩ := play_big_submit s d hlen ⟨hp, hi, hmb, hbusy⟩
  obtain ⟨c1, c2, c3, c4⟩ := chunks4096_facts _ d (le_refl _)
  exact ⟨i1, c1, c2, c3, c4, i2, i3.1, i3.2.1⟩

theorem chunked_submission_witness :
    (List.replicate 4097 0).length > 4096 ∧ (playing_state 0).gAudioPlaying = true ∧
    (playing_state 0).bInitialized = true ∧
    (play_audio_buffer (playing_state 0) (List.replicate 4097 0)).2.ao_calls
      = (playing_state 0).ao_calls
          ++ (chunks4096 (List.replicate 4097 0)).map AoCall.SendFrame ∧
    (chunks4096 (List.replicate 4097 0)).length = ((List.replicate 4097 0).length + 4095) / 4096 :=
  ⟨by rw [List.length_replicate]; decide, rfl, rfl,
    (chunked_submission (playing_state 0) (List.replicate 4097 0)
      (by rw [List.length_replicate]; decide) rfl rfl (by decide) (by decide)).1,
    (chunked_submission (playing_state 0) (List.replicate 4097 0)
      (by rw [List.length_replicate]; decide) rfl rfl (by decide) (by decide)).2.1⟩

/-- C19 as stated fails: an input of 4097 bytes has ceil(4097 / 4096) = 2 chunks, yet with
playback active and the device initialised before and after the call, only one frame (the
last byte) is submitted when the first memory block cannot be created, and three frames (the
first chunk twice, then the last byte) when the first submission is answered with
device-busy. -/
theorem chunk_count_not_exact :
    (List.replicate 4097 0).length > 4096 ∧ (4097 + 4095) / 4096 = 2 ∧
    no_block_state.gAudioPlaying = true ∧ no_block_state.bInitialized = true ∧
    (play_audio_buffer no_block_state (List.replicate 4097 0)).2.gAudioPlaying = true ∧
    (play_audio_buffer no_block_state (List.replicate 4097 0)).2.bInitialized = true ∧
    (play_audio_buffer no_block_state (List.replicate 4097 0)).2.ao_calls
      = [AoCall.SendFrame [0]] ∧
    busy_state.gAudioPlaying = true ∧ busy_state.bInitialized = true ∧
    (play_audio_buffer busy_state (List.replicate 4097 0)).2.gAudioPlaying = true ∧
    (play_audio_buffer busy_state (List.replicate 4097 0)).2.bInitialized = true ∧
    (play_audio_buffer busy_state (List.replicate 4097 0)).2.ao_calls
      = [AoCall.SendFrame (List.replicate 4096 0), AoCall.SendFrame (List.replicate 4096 0),
          AoCall.SendFrame [0]] := by
  have hl : (List.replicate 4097 0).length = 4097 := List.length_replicate _ _
  have hdrop : (List.replicate 4097 0).drop 4096 = [0] := by
    rw [List.drop_replicate]
    rfl
  have htake : (List.replicate 4097 0).take 4096 = List.replicate 4096 0 := by
    rw [List.take_replicate]
    rfl
  obtain ⟨a1, a2, a3⟩ := first_block_lost no_block_state (List.replicate 4097 0)
    (by rw [hl]; decide) (by rw [hl]; decide) rfl rfl (by decide) (by decide) (by decide)
  obtain ⟨b1, b2, b3⟩ := first_frame_twice busy_state (List.replicate 4097 0)
    (by rw [hl]; decide) (by rw [hl]; decide) rfl rfl (by decide) (by decide) rfl (by decide)
    (by decide)
  rw [hdrop] at a1
  rw [hdrop, htake] at b1
  exact ⟨by rw [hl]; decide, by decide, rfl, rfl, a2, a3, a1, rfl, rfl, b2, b3, b1⟩

/-! ## Teardown, interruption and the playing flags -/

theorem cleanup_with_eq (s : State) (w a b c : Int) :
    cleanup_audio_playback_with s w a b c = cleanup_audio_playback s := by
  unfold cleanup_audio_playback_with cleanup_audio_playback
  simp only [ite_self]

theorem cleanup_uninit (s : State) (h : s.bInitialized = false) :
    cleanup_audio_playback s = (RK_SUCCESS, s) := by
  unfold cleanup_audio_playback
  simp [h]

theorem cleanup_init (s : State) (h : s.bInitialized = true) :
    (cleanup_audio_playback s).1 = RK_SUCCESS ∧
    (cleanup_audio_playback s).2.gAudioPlaying = false ∧
    (cleanup_audio_playback s).2.bInitialized = false ∧
    (cleanup_audio_playback s).2.ao_calls
      = s.ao_calls ++ [AoCall.WaitEos, AoCall.DisableReSmp, AoCall.DisableChn,
          AoCall.Disable] := by
  unfold cleanup_audio_playback
  simp [h, set_audio_playing_state, ao_call]

/-- C22 (as amended): for every prior state and every combination of results of the drain
wait and of the three disable calls, `cleanup_audio_playback` returns success with the device
marked uninitialised. When the device was initialised on entry the four device calls are
made and the shared `audio_playing` flag is false afterwards; when it was not, the function
returns at once and leaves the whole state, `audio_playing` included, as it was. -/
theorem cleanup_clears_initialised (s t : State) (w a b c : Int)
    (hinit : s.bInitialized = true) (huninit : t.bInitialized = false) :
    (cleanup_audio_playback_with s w a b c).1 = RK_SUCCESS ∧
    (cleanup_audio_playback_with s w a b c).2.gAudioPlaying = false ∧
    (cleanup_audio_playback_with s w a b c).2.bInitialized = false ∧
    (cleanup_audio_playback_with s w a b c).2.ao_calls
      = s.ao_calls ++ [AoCall.WaitEos, AoCall.DisableReSmp, AoCall.DisableChn,
          AoCall.Disable] ∧
    cleanup_audio_playback_with s w a b c = cleanup_audio_playback s ∧
    cleanup_audio_playback_with t w a b c = (RK_SUCCESS, t) ∧
    cleanup_audio_playback t = (RK_SUCCESS, t) := by
  rw [cleanup_with_eq, cleanup_with_eq]
  obtain ⟨h1, h2, h3, h4⟩ := cleanup_init s hinit
  exact ⟨h1, h2, h3, h4, rfl, cleanup_uninit t huninit, cleanup_uninit t huninit⟩

theorem cleanup_clears_initialised_witness :
    (playing_state 0).bInitialized = true ∧ idle_state.bInitialized = false ∧
    (cleanup_audio_playback_with (playing_state 0) (-1) (-1) (-1) (-1)).2.gAudioPlaying
      = false ∧
    (cleanup_audio_playback_with (playing_state 0) (-1) (-1) (-1) (-1)).2.bInitialized
      = false :=
  ⟨rfl, rfl,
    (cleanup_clears_initialised (playing_state 0) idle_state (-1) (-1) (-1) (-1) rfl rfl).2.1,
    (cleanup_clears_initialised (playing_state 0) idle_state (-1) (-1) (-1) (-1) rfl
      rfl).2.2.1⟩

/-- C22 as stated fails when the device is not initialised on entry. After an AUDIO_START
whose setup succeeds and a second AUDIO_START whose setup is refused, audio is still marked
as playing while the device is uninitialised; `cleanup_audio_playback` called in that state
returns success at once and `audio_playing` is still true. -/
theorem cleanup_skips_uninitialised :
    restart_state.gAudioPlaying = false ∧ restart_state.bInitialized = false ∧
    (process_frames restart_state
      [(MSG_AUDIO_START, []), (MSG_AUDIO_START, [])]).gAudioPlaying = true ∧
    (process_frames restart_state
      [(MSG_AUDIO_START, []), (MSG_AUDIO_START, [])]).bInitialized = false ∧
    (cleanup_audio_playback (process_frames restart_state
      [(MSG_AUDIO_START, []), (MSG_AUDIO_START, [])])).1 = RK_SUCCESS ∧
    (cleanup_audio_playback (process_frames restart_state
      [(MSG_AUDIO_START, []), (MSG_AUDIO_START, [])])).2.gAudioPlaying = true := by
  have hp : (process_frames restart_state
      [(MSG_AUDIO_START, []), (MSG_AUDIO_START, [])]).gAudioPlaying = true := by decide
  have hi : (process_frames restart_state
      [(MSG_AUDIO_START, []), (MSG_AUDIO_START, [])]).bInitialized = false := by decide
  refine ⟨rfl, rfl, hp, hi, ?_, ?_⟩
  · rw [cleanup_uninit _ hi]
  · rw [cleanup_uninit _ hi]
    exact hp

/-- The buffer-full flush of the `AUDIO_DATA` case: the fill is reset and the incoming payload
is then stored from offset 0, so the buffer holds exactly the payload afterwards. -/
theorem audio_data_refill_buffered (s : State) (p : List Nat) (hi : s.gAudioInterrupted = false)
    (hm : p ≠ AUDIO_END_MARKER) (hhalf : p.length ≤ AUDIO_PLAY_BUFFER_SIZE / 2)
    (hfull : ¬ s.audio_buffer_size + p.length < AUDIO_PLAY_BUFFER_SIZE) :
    (case_MSG_AUDIO_DATA s p).audio_buffer = memcpy s.audio_buffer 0 p p.length ∧
    (case_MSG_AUDIO_DATA s p).audio_buffer_size = p.length ∧
    buffered (case_MSG_AUDIO_DATA s p) = p := by
  obtain ⟨r1, r2, -⟩ := audio_data_refill s p hi hm hhalf hfull
  refine ⟨r1, r2, ?_⟩
  unfold buffered
  rw [r1, r2]
  have := buffered_memcpy s.audio_buffer p 0 (Nat.zero_le _)
  simpa using this

/-- C25 (as amended): for every state with `audio_playing` true and any buffer fill,
`interrupt_audio_playback` succeeds and leaves the assembly buffer and its fill exactly as
they were. The fill is set to 0 by the next AUDIO_DATA frame, whatever its payload: by the
frame handled right after the interrupt, and by a frame handled in any state in which
`audio_interrupted` is set. From every state the fill is 0 immediately after AUDIO_START and
immediately after AUDIO_END, and from every state that is not interrupted it is 0 after the
AUDIO_DATA frame carrying the end marker. After a buffer-full flush (a non-marker payload of
at most half the capacity that does not fit behind the buffered bytes, received while not
interrupted) the fill is not 0: the buffer has been restarted and the payload copied into it
from offset 0, so the fill is the length of the payload and the buffered bytes are exactly
the payload. -/
theorem interrupt_keeps_buffer (s t u : State) (p a q : List Nat)
    (hp : s.gAudioPlaying = true) (ht : t.gAudioInterrupted = false) :
    (interrupt_audio_playback s).1 = RK_SUCCESS ∧
    (interrupt_audio_playback s).2.audio_buffer_size = s.audio_buffer_size ∧
    (interrupt_audio_playback s).2.audio_buffer = s.audio_buffer ∧
    (process_received_message (interrupt_audio_playback s).2 MSG_AUDIO_DATA
      p).2.audio_buffer_size = 0 ∧
    (u.gAudioInterrupted = true →
      (process_received_message u MSG_AUDIO_DATA p).2.audio_buffer_size = 0) ∧
    (process_received_message u MSG_AUDIO_START a).2.audio_buffer_size = 0 ∧
    (process_received_message u MSG_AUDIO_END a).2.audio_buffer_size = 0 ∧
    (process_received_message t MSG_AUDIO_DATA AUDIO_END_MARKER).2.audio_buffer_size = 0 ∧
    (q ≠ AUDIO_END_MARKER → q.length ≤ AUDIO_PLAY_BUFFER_SIZE / 2 →
      ¬ t.audio_buffer_size + q.length < AUDIO_PLAY_BUFFER_SIZE →
      (process_received_message t MSG_AUDIO_DATA q).2.audio_buffer
        = memcpy t.audio_buffer 0 q q.length ∧
      (process_received_message t MSG_AUDIO_DATA q).2.audio_buffer_size = q.length ∧
      buffered (process_received_message t MSG_AUDIO_DATA q).2 = q) := by
  have hint : (interrupt_audio_playback s).2.gAudioInterrupted = true := by
    unfold interrupt_audio_playback
    cases hb : s.bInitialized <;> simp [hp, hb, ao_call]
  refine ⟨?_, ?_, ?_, ?_, ?_, ?_, ?_, ?_, ?_⟩
  · unfold interrupt_audio_playback
    simp [hp]
  · unfold interrupt_audio_playback
    cases hb : s.bInitialized <;> simp [hp, hb, ao_call]
  · unfold interrupt_audio_playback
    cases hb : s.bInitialized <;> simp [hp, hb, ao_call]
  · rw [prm_audio_data, audio_data_interrupted _ p hint]
  · intro hu
    rw [prm_audio_data, audio_data_interrupted u p hu]
  · rw [prm_audio_start]
    exact (audio_start_buffer u).2
  · rw [prm_audio_end]
    exact (audio_end_fields u).2.1
  · rw [prm_audio_data]
    exact (audio_data_marker t ht).2.1
  · intro hm hhalf hfull
    rw [prm_audio_data]
    exact audio_data_refill_buffered t q ht hm hhalf hfull

/-- The interrupt with 100 bytes buffered, followed by an AUDIO_DATA frame; an AUDIO_DATA frame
in an interrupted state; an AUDIO_END frame with 100 bytes buffered; and a one-byte payload
received with 655359 bytes buffered. -/
theorem interrupt_keeps_buffer_witness :
    (playing_state 100).gAudioPlaying = true ∧
    (playing_state 655359).gAudioInterrupted = false ∧
    (interrupt_audio_playback (playing_state 100)).2.audio_buffer_size
      = (playing_state 100).audio_buffer_size ∧
    (process_received_message (interrupt_audio_playback (playing_state 100)).2 MSG_AUDIO_DATA
      [1, 2, 3]).2.audio_buffer_size = 0 ∧
    interrupted_state.gAudioInterrupted = true ∧
    (process_received_message interrupted_state MSG_AUDIO_DATA [1, 2, 3]).2.audio_buffer_size
      = 0 ∧
    (process_received_message (playing_state 100) MSG_AUDIO_END []).2.audio_buffer_size = 0 ∧
    [7] ≠ AUDIO_END_MARKER ∧ [7].length ≤ AUDIO_PLAY_BUFFER_SIZE / 2 ∧
    ¬ (playing_state 655359).audio_buffer_size + [7].length < AUDIO_PLAY_BUFFER_SIZE ∧
    (process_received_message (playing_state 655359) MSG_AUDIO_DATA [7]).2.audio_buffer_size
      = [7].length ∧
    buffered (process_received_message (playing_state 655359) MSG_AUDIO_DATA [7]).2 = [7] :=
  ⟨rfl, rfl,
    (interrupt_keeps_buffer (playing_state 100) (playing_state 655359) (playing_state 100)
      [1, 2, 3] [] [7] rfl rfl).2.1,
    (interrupt_keeps_buffer (playing_state 100) (playing_state 655359) (playing_state 100)
      [1, 2, 3] [] [7] rfl rfl).2.2.2.1,
    rfl,
    (interrupt_keeps_buffer (playing_state 100) (playing_state 655359) interrupted_state
      [1, 2, 3] [] [7] rfl rfl).2.2.2.2.1 rfl,
    (interrupt_keeps_buffer (playing_state 100) (playing_state 655359) (playing_state 100)
      [1, 2, 3] [] [7] rfl rfl).2.2.2.2.2.2.1,
    by decide, by decide, by decide,
    ((interrupt_keeps_buffer (playing_state 100) (playing_state 655359) (playing_state 100)
      [1, 2, 3] [] [7] rfl rfl).2.2.2.2.2.2.2.2 (by decide) (by decide) (by decide)).2.1,
    ((interrupt_keeps_buffer (playing_state 100) (playing_state 655359) (playing_state 100)
      [1, 2, 3] [] [7] rfl rfl).2.2.2.2.2.2.2.2 (by decide) (by decide) (by decide)).2.2⟩

/-- C25 as stated fails: with audio playing and 100 bytes in the assembly buffer,
`interrupt_audio_playback` succeeds and the fill is still 100 immediately afterwards. -/
theorem interrupt_leaves_fill :
    (playing_state 100).gAudioPlaying = true ∧ (playing_state 100).audio_buffer_size = 100 ∧
    (interrupt_audio_playback (playing_state 100)).1 = RK_SUCCESS ∧
    (interrupt_audio_playback (playing_state 100)).2.audio_buffer_size = 100 :=
  ⟨rfl, rfl, by decide, by decide⟩

/-- C28: for every non-marker AUDIO_DATA payload of at most half the capacity, received
while not interrupted with a well-formed assembly buffer, the payload is shorter than the
capacity, so the test that guards the copy after a flush holds and the branch reporting the
packet as too large to buffer is never taken: either the payload is appended behind the
bytes already buffered, or the buffer is flushed and then holds exactly the payload. In both
cases the buffered bytes end with the payload. -/
theorem buffered_payload_kept (s : State) (p : List Nat) (hi : s.gAudioInterrupted = false)
    (hm : p ≠ AUDIO_END_MARKER) (hhalf : p.length ≤ AUDIO_PLAY_BUFFER_SIZE / 2)
    (hfill : s.audio_buffer_size ≤ AUDIO_PLAY_BUFFER_SIZE)
    (hlen : s.audio_buffer.length = AUDIO_PLAY_BUFFER_SIZE) :
    p.length < AUDIO_PLAY_BUFFER_SIZE ∧
    (((case_MSG_AUDIO_DATA s p).audio_buffer_size = s.audio_buffer_size + p.length ∧
        buffered (case_MSG_AUDIO_DATA s p) = buffered s ++ p) ∨
      ((case_MSG_AUDIO_DATA s p).audio_buffer_size = p.length ∧
        buffered (case_MSG_AUDIO_DATA s p) = p)) ∧
    (∃ front, buffered (case_MSG_AUDIO_DATA s p) = front ++ p) ∧
    (process_received_message s MSG_AUDIO_DATA p).2 = case_MSG_AUDIO_DATA s p := by
  have hcap : AUDIO_PLAY_BUFFER_SIZE = 655360 := rfl
  have hlt : p.length < AUDIO_PLAY_BUFFER_SIZE := by omega
  have hcases : ((case_MSG_AUDIO_DATA s p).audio_buffer_size = s.audio_buffer_size + p.length ∧
        buffered (case_MSG_AUDIO_DATA s p) = buffered s ++ p) ∨
      ((case_MSG_AUDIO_DATA s p).audio_buffer_size = p.length ∧
        buffered (case_MSG_AUDIO_DATA s p) = p) := by
    by_cases hfit : s.audio_buffer_size + p.length < AUDIO_PLAY_BUFFER_SIZE
    · left
      rw [audio_data_append s p hi hm hhalf hfit]
      refine ⟨rfl, ?_⟩
      show (memcpy s.audio_buffer s.audio_buffer_size p p.length).take
        (s.audio_buffer_size + p.length) = s.audio_buffer.take s.audio_buffer_size ++ p
      exact buffered_memcpy _ _ _ (by omega)
    · right
      obtain ⟨r1, r2, -⟩ := audio_data_refill s p hi hm hhalf hfit
      refine ⟨r2, ?_⟩
      unfold buffered
      rw [r1, r2]
      have := buffered_memcpy s.audio_buffer p 0 (Nat.zero_le _)
      simpa using this
  refine ⟨hlt, hcases, ?_, prm_audio_data s p⟩
  rcases hcases with ⟨-, h⟩ | ⟨-, h⟩
  · exact ⟨_, h⟩
  · exact ⟨[], by rw [h]; rfl⟩

theorem buffered_payload_kept_witness :
    (playing_state 3).gAudioInterrupted = false ∧ [7, 8] ≠ AUDIO_END_MARKER ∧
    [7, 8].length ≤ AUDIO_PLAY_BUFFER_SIZE / 2 ∧
    (playing_state 3).audio_buffer_size ≤ AUDIO_PLAY_BUFFER_SIZE ∧
    ∃ front, buffered (case_MSG_AUDIO_DATA (playing_state 3) [7, 8]) = front ++ [7, 8] :=
  ⟨rfl, by decide, by decide, by decide,
    (buffered_payload_kept (playing_state 3) [7, 8] rfl (by decide) (by decide) (by decide)
      (List.length_replicate _ _)).2.2.1⟩

theorem set_playing_exclusive (s : State) (b : Bool) :
    flags_exclusive (set_audio_playing_state s b) := by
  unfold flags_exclusive
  unfold set_audio_playing_state
  cases b <;> simp

theorem interrupt_exclusive (s : State) (h : flags_exclusive s) :
    flags_exclusive (interrupt_audio_playback s).2 := by
  unfold flags_exclusive at h ⊢
  unfold interrupt_audio_playback
  cases hp : s.gAudioPlaying <;> cases hb : s.bInitialized <;> simp_all [ao_call]

theorem cleanup_exclusive (s : State) (h : flags_exclusive s) :
    flags_exclusive (cleanup_audio_playback s).2 := by
  unfold flags_exclusive at h ⊢
  unfold cleanup_audio_playback
  cases hb : s.bInitialized <;> simp_all [ao_call, set_audio_playing_state]

theorem audio_start_exclusive (s : State) (h : flags_exclusive s) :
    flags_exclusive (case_MSG_AUDIO_START s) := by
  unfold flags_exclusive at h ⊢
  unfold case_MSG_AUDIO_START
  generalize hs0 : ({ s with audio_buffer_size := 0 } : State) = s0
  have e1 : s0.gAudioPlaying = s.gAudioPlaying := by rw [← hs0]
  have e2 : s0.gAudioInterrupted = s.gAudioInterrupted := by rw [← hs0]
  obtain ⟨-, -, -, f4, f5, -, -, -⟩ := setup_fields s0
  dsimp only
  split_ifs
  · simp [set_audio_playing_state]
  · rw [f4, f5, e1, e2]
    exact h
  · rw [e1, e2]
    exact h

theorem teardown_exclusive (s : State) (h : flags_exclusive s) :
    flags_exclusive (case_MSG_AUDIO_END s) ∧ flags_exclusive (case_MSG_ERROR s) ∧
    flags_exclusive (case_MSG_AI_CANCELLED s) := by
  unfold flags_exclusive at h ⊢
  refine ⟨?_, ?_, ?_⟩
  · unfold case_MSG_AUDIO_END
    by_cases h0 : 0 < s.audio_buffer_size
    · cases hs : s.s32EnableStreaming <;> cases ha : s.audio_started <;>
        cases hb : s.bInitialized <;>
        simp_all [cleanup_audio_playback, set_audio_playing_state, ao_call]
    · have hz : s.audio_buffer_size = 0 := by omega
      cases ha : s.audio_started <;> cases hb : s.bInitialized <;>
        simp_all [cleanup_audio_playback, set_audio_playing_state, ao_call]
  · unfold case_MSG_ERROR
    cases ha : s.audio_started <;> cases hb : s.bInitialized <;>
      simp_all [cleanup_audio_playback, set_audio_playing_state, ao_call]
  · unfold case_MSG_AI_CANCELLED
    cases ha : s.audio_started <;> cases hb : s.bInitialized <;>
      simp_all [cleanup_audio_playback, set_audio_playing_state, ao_call]

theorem prm_exclusive (s : State) (t : Nat) (p : List Nat) (h : flags_exclusive s) :
    flags_exclusive (process_received_message s t p).2 := by
  obtain ⟨-, e | ⟨-, e⟩ | ⟨-, e⟩ | ⟨-, e⟩ | ⟨-, e⟩ | ⟨-, e⟩ | ⟨-, e⟩ | ⟨-, e⟩⟩ :=
    prm_cases s t p
  · rw [e]; exact h
  · rw [e]
    obtain ⟨-, -, f3, f4, -⟩ := audio_data_flags s p
    unfold flags_exclusive at h ⊢
    rw [f3, f4]
    exact h
  · rw [e]; exact h
  · rw [e]; exact h
  · rw [e]; exact audio_start_exclusive s h
  · rw [e]; exact (teardown_exclusive s h).1
  · rw [e]; exact (teardown_exclusive s h).2.1
  · rw [e]; exact (teardown_exclusive s h).2.2

theorem run_ops_exclusive (ops : List PlaybackOp) :
    ∀ s : State, flags_exclusive s → flags_exclusive (run_ops s ops) := by
  induction ops with
  | nil => intro s h; exact h
  | cons op ops ih =>
    intro s h
    apply ih
    cases op with
    | set_playing b => exact set_playing_exclusive s b
    | interrupt => exact interrupt_exclusive s h
    | cleanup => exact cleanup_exclusive s h
    | frame t p => exact prm_exclusive s t p h

/-- C29: from every initial state in which `audio_playing` and `audio_interrupted` are not
both true, in particular from the initial state of the program (not playing, not
interrupted), after every sequence of calls of `set_audio_playing_state`,
`interrupt_audio_playback`, `cleanup_audio_playback` and of frames handled by
`process_received_message`, in any order and with any arguments, `audio_playing` and
`audio_interrupted` are not both true. -/
theorem playing_interrupted_exclusive (s0 : State) (ops : List PlaybackOp)
    (h0 : ¬ (s0.gAudioPlaying = true ∧ s0.gAudioInterrupted = true)) :
    ¬ ((run_ops s0 ops).gAudioPlaying = true ∧ (run_ops s0 ops).gAudioInterrupted = true) :=
  run_ops_exclusive ops s0 h0

theorem playing_interrupted_exclusive_witness :
    idle_state.gAudioPlaying = false ∧ idle_state.gAudioInterrupted = false ∧
    ¬ ((run_ops idle_state [PlaybackOp.frame MSG_AUDIO_START [], PlaybackOp.interrupt,
          PlaybackOp.set_playing true, PlaybackOp.cleanup]).gAudioPlaying = true ∧
      (run_ops idle_state [PlaybackOp.frame MSG_AUDIO_START [], PlaybackOp.interrupt,
          PlaybackOp.set_playing true, PlaybackOp.cleanup]).gAudioInterrupted = true) :=
  ⟨rfl, rfl, playing_interrupted_exclusive idle_state _ (by decide)⟩

/-! ## A refused setup and the bypass of large payloads -/

theorem play_uninit (s : State) (d : List Nat) (h : s.bInitialized = false) :
    (play_audio_buffer s d).2 = s := by
  unfold play_audio_buffer play_audio_buffer_body
  split_ifs <;> first | rfl | simp_all

theorem dispatcher_play_uninit_eq (s : State) (blk : List Nat) (h : s.bInitialized = false) :
    dispatcher_play s blk = { s with play_log := s.play_log ++ [blk] } := by
  unfold dispatcher_play
  rw [play_uninit s blk h]

theorem dispatcher_play_uninit (s : State) (blk : List Nat) (h : s.bInitialized = false) :
    (dispatcher_play s blk).ao_calls = s.ao_calls ∧
    (dispatcher_play s blk).bInitialized = false := by
  unfold dispatcher_play
  rw [play_uninit s blk h]
  exact ⟨rfl, h⟩

/-- While the device is uninitialised, AUDIO_DATA and AUDIO_END frames make no device
call and leave it uninitialised. -/
theorem muted_frame (s : State) (p : List Nat) (h : s.bInitialized = false) :
    ((case_MSG_AUDIO_DATA s p).ao_calls = s.ao_calls ∧
      (case_MSG_AUDIO_DATA s p).bInitialized = false) ∧
    ((case_MSG_AUDIO_END s).ao_calls = s.ao_calls ∧
      (case_MSG_AUDIO_END s).bInitialized = false) := by
  constructor
  · refine ⟨?_, (audio_data_flags s p).2.2.2.2.1.trans h⟩
    unfold case_MSG_AUDIO_DATA
    dsimp only
    split_ifs <;> first
      | rfl
      | simp [dispatcher_play_uninit_eq, h]
  · unfold case_MSG_AUDIO_END
    by_cases h0 : 0 < s.audio_buffer_size
    · cases hs : s.s32EnableStreaming <;> cases ha : s.audio_started <;>
        simp [h0, hs, ha, h, cleanup_audio_playback, set_audio_playing_state,
          dispatcher_play_uninit]
    · have hz : s.audio_buffer_size = 0 := by omega
      cases ha : s.audio_started <;>
        simp [hz, ha, h, cleanup_audio_playback, set_audio_playing_state]

theorem muted_frames (fs : List (Nat × List Nat)) :
    ∀ s : State, s.bInitialized = false →
      (∀ f ∈ fs, f.1 = MSG_AUDIO_DATA ∨ f.1 = MSG_AUDIO_END) →
      (process_frames s fs).ao_calls = s.ao_calls ∧
      (process_frames s fs).bInitialized = false := by
  induction fs with
  | nil => intro s h _; exact ⟨rfl, h⟩
  | cons f fs ih =>
    intro s h hk
    rw [process_frames_cons]
    have hf := hk f (List.mem_cons_self _ _)
    obtain ⟨⟨d1, d2⟩, ⟨e1, e2⟩⟩ := muted_frame s f.2 h
    rcases hf with hf | hf
    · rw [hf, prm_audio_data]
      obtain ⟨i1, i2⟩ := ih _ d2 (fun g hg => hk g (List.mem_cons_of_mem _ hg))
      exact ⟨i1.trans d1, i2⟩
    · rw [hf, prm_audio_end]
      obtain ⟨i1, i2⟩ := ih _ e2 (fun g hg => hk g (List.mem_cons_of_mem _ hg))
      exact ⟨i1.trans e1, i2⟩

theorem audio_start_fail (s : State) (hstream : s.s32EnableStreaming = true)
    (hfail : (setup_audio_playback s).1 ≠ RK_SUCCESS) :
    (case_MSG_AUDIO_START s).bInitialized = false ∧
    (case_MSG_AUDIO_START s).audio_started = s.audio_started ∧
    (case_MSG_AUDIO_START s).gAudioPlaying = s.gAudioPlaying := by
  have hr := setup_result_fill s 0
  unfold case_MSG_AUDIO_START
  generalize hs0 : ({ s with audio_buffer_size := 0 } : State) = s0 at hr ⊢
  have e1 : s0.s32EnableStreaming = s.s32EnableStreaming := by rw [← hs0]
  have e2 : s0.audio_started = s.audio_started := by rw [← hs0]
  have e3 : s0.gAudioPlaying = s.gAudioPlaying := by rw [← hs0]
  have hf0 : (setup_audio_playback s0).1 ≠ RK_SUCCESS := by rw [hr]; exact hfail
  obtain ⟨-, -, -, f4, -, f6, -, -⟩ := setup_fields s0
  simp only [e1.trans hstream, hf0, if_true, if_false]
  exact ⟨setup_fail_uninit s0 hf0, f6.trans e2, f4.trans e3⟩

/-- C24: if device setup fails while an AUDIO_START frame is handled (streaming enabled),
`process_received_message` still returns success and leaves the device uninitialised; over
every following sequence of AUDIO_DATA and AUDIO_END frames (none being an AUDIO_START) no
device call at all is made, so no frame is submitted, and the device stays uninitialised.
The receive loop is not aborted by the failure: having read the AUDIO_START frame with its
flags clear, it goes on with the next iteration. -/
theorem setup_failure_mutes_segment (sock : Socket) (s : State) (l : RecvLocals)
    (a rest : List Nat) (fs : List (Nat × List Nat)) (hstream : s.s32EnableStreaming = true)
    (hfail : (setup_audio_playback s).1 ≠ RK_SUCCESS)
    (hkinds : ∀ f ∈ fs, f.1 = MSG_AUDIO_DATA ∨ f.1 = MSG_AUDIO_END) :
    (process_received_message s MSG_AUDIO_START a).1 = RK_SUCCESS ∧
    (process_received_message s MSG_AUDIO_START a).2.bInitialized = false ∧
    (process_frames (process_received_message s MSG_AUDIO_START a).2 fs).ao_calls
      = (process_received_message s MSG_AUDIO_START a).2.ao_calls ∧
    (process_frames (process_received_message s MSG_AUDIO_START a).2 fs).bInitialized
      = false ∧
    (s.gRecorderExit = false → s.gInterruptAIResponse = false →
      l.ai_end_received = false → l.error_received = false →
      a.length ≤ SOCKET_RESPONSE_BUFFER_SIZE → sock.rx = wire MSG_AUDIO_START a ++ rest →
      (∀ r ∈ sock.select_results, 0 < r) →
      receive_loop sock s l
        = receive_loop { sock with rx := rest, select_results := sock.select_results.tail }
            (process_received_message s MSG_AUDIO_START a).2
            { l with message_count := l.message_count + 1
                     consecutive_non_progress_msgs := 0 }) := by
  have huninit : (process_received_message s MSG_AUDIO_START a).2.bInitialized = false := by
    rw [prm_audio_start]
    exact (audio_start_fail s hstream hfail).1
  obtain ⟨m1, m2⟩ := muted_frames fs _ huninit hkinds
  refine ⟨(prm_cases s MSG_AUDIO_START a).1, huninit, m1, m2, ?_⟩
  intro hexit habort hend herr ha hrx hsel
  exact receive_loop_progress sock _ s l MSG_AUDIO_START a.length a hexit hend habort
    (recv_wire_ready sock MSG_AUDIO_START a rest hrx hsel (by decide) ha)
    (Or.inr (Or.inr (Or.inr rfl))) herr

theorem setup_failure_mutes_segment_witness :
    refusing_state.s32EnableStreaming = true ∧
    (setup_audio_playback refusing_state).1 ≠ RK_SUCCESS ∧
    (process_frames (process_received_message refusing_state MSG_AUDIO_START []).2
      [(MSG_AUDIO_DATA, [1, 2, 3]), (MSG_AUDIO_DATA, AUDIO_END_MARKER),
        (MSG_AUDIO_END, [])]).ao_calls
      = (process_received_message refusing_state MSG_AUDIO_START []).2.ao_calls :=
  ⟨rfl, by decide,
    (setup_failure_mutes_segment (receiver_of []) refusing_state ⟨0, false, false, 0⟩ [] []
      [(MSG_AUDIO_DATA, [1, 2, 3]), (MSG_AUDIO_DATA, AUDIO_END_MARKER), (MSG_AUDIO_END, [])]
      rfl (by decide) (by decide)).2.2.1⟩

/-- C27: with streaming enabled and device setup succeeding, for every non-empty non-marker
payload a of at most half the capacity and every payload b longer than half the capacity,
in the frame sequence AUDIO_START, AUDIO_DATA(a), AUDIO_DATA(b), AUDIO_END the blocks passed
to play are b and then a: a is buffered, b bypasses the buffer and is played at once, and a
is played only on AUDIO_END. The bytes played are b followed by a, although a arrived
first. -/
theorem bypass_reorders (s : State) (a b e1 e2 : List Nat)
    (hstream : s.s32EnableStreaming = true)
    (hsetup : (setup_audio_playback s).1 = RK_SUCCESS) (hne : a ≠ AUDIO_END_MARKER)
    (hpos : 0 < a.length) (hhalf : a.length ≤ AUDIO_PLAY_BUFFER_SIZE / 2)
    (hbig : b.length > AUDIO_PLAY_BUFFER_SIZE / 2) :
    (process_frames s [(MSG_AUDIO_START, e1), (MSG_AUDIO_DATA, a)]).play_log = s.play_log ∧
    (process_frames s [(MSG_AUDIO_START, e1), (MSG_AUDIO_DATA, a),
      (MSG_AUDIO_DATA, b)]).play_log = s.play_log ++ [b] ∧
    (process_frames s [(MSG_AUDIO_START, e1), (MSG_AUDIO_DATA, a), (MSG_AUDIO_DATA, b),
      (MSG_AUDIO_END, e2)]).play_log = s.play_log ++ [b, a] ∧
    ([b, a] : List (List Nat)).flatten = b ++ a := by
  have hcap : AUDIO_PLAY_BUFFER_SIZE = 655360 := rfl
  obtain ⟨s1a, s1b, s1c, s1d, s1e, s1f, -, -⟩ := audio_start_ok s hstream hsetup
  generalize hs1 : case_MSG_AUDIO_START s = s1 at s1a s1b s1c s1d s1e s1f
  have hfit : s1.audio_buffer_size + a.length < AUDIO_PLAY_BUFFER_SIZE := by
    rw [s1b]; omega
  have hs2 := audio_data_append s1 a s1f hne hhalf hfit
  obtain ⟨f1, f2, f3, -⟩ := audio_data_flags s1 a
  generalize hs2e : case_MSG_AUDIO_DATA s1 a = s2 at hs2 f1 f2 f3
  have s2log : s2.play_log = s.play_log := by rw [hs2]; exact s1c
  have s2fill : s2.audio_buffer_size = a.length := by
    rw [hs2]; show s1.audio_buffer_size + a.length = a.length; rw [s1b]; omega
  have s2buf : buffered s2 = a := by
    rw [hs2]
    show (memcpy s1.audio_buffer s1.audio_buffer_size a a.length).take
      (s1.audio_buffer_size + a.length) = a
    rw [buffered_memcpy _ _ _ (by rw [s1b]; exact Nat.zero_le _), s1b]
    rfl
  obtain ⟨b1, b2, b3⟩ := audio_data_big s2 b (f3.trans s1f) hbig
  obtain ⟨g1, g2, -⟩ := audio_data_flags s2 b
  generalize hs3e : case_MSG_AUDIO_DATA s2 b = s3 at b1 b2 b3 g1 g2
  have s3log : s3.play_log = s.play_log ++ [b] := by
    rw [b3, if_pos ⟨f1.trans s1d, f2.trans s1e⟩, s2log]
  have s3buf : buffered s3 = a := by
    unfold buffered
    rw [b1, b2]
    exact s2buf
  obtain ⟨-, -, c3, -⟩ := audio_end_fields s3
  have s4log : (case_MSG_AUDIO_END s3).play_log = s.play_log ++ [b, a] := by
    rw [c3, if_pos ⟨by rw [b2, s2fill]; exact hpos, g1.trans (f1.trans s1d),
      g2.trans (f2.trans s1e)⟩, s3log, s3buf]
    simp
  have e12 : process_frames s [(MSG_AUDIO_START, e1), (MSG_AUDIO_DATA, a)] = s2 := by
    show (process_received_message (process_received_message s MSG_AUDIO_START e1).2
      MSG_AUDIO_DATA a).2 = s2
    rw [prm_audio_start, hs1, prm_audio_data s1 a, hs2e]
  have e123 : process_frames s [(MSG_AUDIO_START, e1), (MSG_AUDIO_DATA, a),
      (MSG_AUDIO_DATA, b)] = s3 := by
    show (process_received_message (process_received_message
      (process_received_message s MSG_AUDIO_START e1).2 MSG_AUDIO_DATA a).2
      MSG_AUDIO_DATA b).2 = s3
    rw [prm_audio_start, hs1, prm_audio_data s1 a, hs2e, prm_audio_data s2 b, hs3e]
  have e1234 : process_frames s [(MSG_AUDIO_START, e1), (MSG_AUDIO_DATA, a),
      (MSG_AUDIO_DATA, b), (MSG_AUDIO_END, e2)] = case_MSG_AUDIO_END s3 := by
    show (process_received_message (process_received_message (process_received_message
      (process_received_message s MSG_AUDIO_START e1).2 MSG_AUDIO_DATA a).2
      MSG_AUDIO_DATA b).2 MSG_AUDIO_END e2).2 = case_MSG_AUDIO_END s3
    rw [prm_audio_start, hs1, prm_audio_data s1 a, hs2e, prm_audio_data s2 b, hs3e,
      prm_audio_end]
  rw [e12, e123, e1234]
  exact ⟨s2log, s3log, s4log, by simp⟩

theorem bypass_reorders_witness :
    idle_state.s32EnableStreaming = true ∧ (setup_audio_playback idle_state).1 = RK_SUCCESS ∧
    [1, 2, 3] ≠ AUDIO_END_MARKER ∧
    (List.replicate 327681 0).length > AUDIO_PLAY_BUFFER_SIZE / 2 ∧
    (process_frames idle_state [(MSG_AUDIO_START, []), (MSG_AUDIO_DATA, [1, 2, 3]),
      (MSG_AUDIO_DATA, List.replicate 327681 0), (MSG_AUDIO_END, [])]).play_log
      = idle_state.play_log ++ [List.replicate 327681 0, [1, 2, 3]] ∧
    List.replicate 327681 0 ++ [1, 2, 3] ≠ [1, 2, 3] ++ List.replicate 327681 0 :=
  ⟨rfl, by decide, by decide, by rw [List.length_replicate]; decide,
    (bypass_reorders idle_state [1, 2, 3] (List.replicate 327681 0) [] [] rfl (by decide)
      (by decide) (by decide) (by decide) (by rw [List.length_replicate]; decide)).2.2.1,
    fun h => absurd (congrArg List.head? h) (by
      rw [List.head?_append_of_ne_nil _ (by decide), List.head?_replicate]
      decide)⟩

/-! ## The press edge -/

theorem wait_loop_success (samples : List Int) :
    ∀ (s : State) (g : Gpio) (prev : Int),
      (wait_for_gpio_press_loop s g prev samples).1 = RK_SUCCESS →
      s.gRecorderExit = false ∧
      ∃ pre rest, prev :: samples = pre ++ 0 :: 1 :: rest ∧
        wait_for_gpio_press_loop s g prev samples
          = gpio_pressed s { g with samples := rest } := by
  induction samples with
  | nil =>
    intro s g prev h
    simp [wait_for_gpio_press_loop, RK_FAILURE, RK_SUCCESS] at h
  | cons c rest ih =>
    intro s g prev h
    rw [wait_for_gpio_press_loop] at h ⊢
    split_ifs at h ⊢ with h1 h2 h3
    · simp [RK_FAILURE, RK_SUCCESS] at h
    · simp [RK_FAILURE, RK_SUCCESS] at h
    · refine ⟨by simpa using h1, [], rest, ?_, rfl⟩
      rw [h3.1, h3.2]
      rfl
    · obtain ⟨he, pre, rest1, hsplit, hres⟩ := ih s g c h
      exact ⟨he, prev :: pre, rest1, by rw [hsplit]; rfl, hres⟩

theorem gpio_pressed_fields (s : State) (g : Gpio) :
    (gpio_pressed s g).1 = RK_SUCCESS ∧
    ((s.gAudioPlaying = true ∨ s.gAIResponseActive = true) →
      (gpio_pressed s g).2.1.gInterruptAIResponse = true) ∧
    (¬ (s.gAudioPlaying = true ∨ s.gAIResponseActive = true) →
      (gpio_pressed s g).2.1 = s) ∧
    (s.gAudioPlaying = true →
      (gpio_pressed s g).2.1
        = { (interrupt_audio_playback s).2 with gInterruptAIResponse := true } ∧
      (gpio_pressed s g).2.1.gAudioPlaying = false ∧
      (gpio_pressed s g).2.1.gAudioInterrupted = true ∧
      (gpio_pressed s g).2.1.bInitialized = false) ∧
    (s.gAudioPlaying = false →
      (gpio_pressed s g).2.1.gAudioPlaying = false ∧
      (gpio_pressed s g).2.1.gAudioInterrupted = s.gAudioInterrupted ∧
      (gpio_pressed s g).2.1.ao_calls = s.ao_calls) ∧
    (gpio_pressed s g).2.2.gGpioPressed = true ∧
    (gpio_pressed s g).2.2.gGpioRecording = true ∧
    (gpio_pressed s g).2.2.samples = g.samples := by
  unfold gpio_pressed
  refine ⟨rfl, ?_, ?_, ?_, ?_, rfl, ?_, ?_⟩
  · cases hp : s.gAudioPlaying <;> cases ha : s.gAIResponseActive <;>
      simp [get_audio_playing_state, hp, ha]
  · cases hp : s.gAudioPlaying <;> cases ha : s.gAIResponseActive <;>
      simp [get_audio_playing_state, hp, ha]
  · intro hp
    cases hb : s.bInitialized <;>
      simp [get_audio_playing_state, hp, hb, interrupt_audio_playback, ao_call]
  · intro hp
    cases ha : s.gAIResponseActive <;> simp [get_audio_playing_state, hp, ha]
  · cases hr : g.gGpioRecording <;> simp [hr]
  · cases hr : g.gGpioRecording <;> simp [hr]

/-- C26: whenever `wait_for_gpio_press` returns success it has detected a press edge: the
samples read end with a low sample immediately followed by a high one, and the samples after
the edge are left unread. The abort-AI-response signal is then raised if audio was playing
or an AI response was active when the edge was detected, and otherwise the whole state,
the signal included, is left as it was. If audio was playing, the state is the one
`interrupt_audio_playback` gives, with the signal raised: `audio_playing` is false,
`audio_interrupted` is true and the device is uninitialised. In every case the pressed and
recording flags are set. -/
theorem gpio_press_edge (s : State) (g : Gpio)
    (hsucc : (wait_for_gpio_press s g).1 = RK_SUCCESS) :
    (∃ pre rest, g.samples = pre ++ 0 :: 1 :: rest ∧
      (wait_for_gpio_press s g).2.2.samples = rest) ∧
    ((s.gAudioPlaying = true ∨ s.gAIResponseActive = true) →
      (wait_for_gpio_press s g).2.1.gInterruptAIResponse = true) ∧
    (¬ (s.gAudioPlaying = true ∨ s.gAIResponseActive = true) →
      (wait_for_gpio_press s g).2.1 = s) ∧
    (s.gAudioPlaying = true →
      (wait_for_gpio_press s g).2.1
        = { (interrupt_audio_playback s).2 with gInterruptAIResponse := true } ∧
      (wait_for_gpio_press s g).2.1.gAudioPlaying = false ∧
      (wait_for_gpio_press s g).2.1.gAudioInterrupted = true ∧
      (wait_for_gpio_press s g).2.1.bInitialized = false) ∧
    (wait_for_gpio_press s g).2.2.gGpioPressed = true ∧
    (wait_for_gpio_press s g).2.2.gGpioRecording = true := by
  unfold wait_for_gpio_press at hsucc ⊢
  obtain ⟨-, pre, rest, hsplit, hres⟩ := wait_loop_success g.samples s g (-1) hsucc
  rw [hres]
  obtain ⟨-, f2, f3, f4, -, f6, f7, f8⟩ := gpio_pressed_fields s { g with samples := rest }
  refine ⟨?_, f2, f3, f4, f6, f7⟩
  cases pre with
  | nil =>
    have := (List.cons.inj hsplit).1
    exact absurd this (by decide)
  | cons x pre1 =>
    exact ⟨pre1, rest, (List.cons.inj hsplit).2, f8⟩

theorem gpio_press_edge_witness :
    (wait_for_gpio_press (playing_state 0) press_gpio).1 = RK_SUCCESS ∧
    (playing_state 0).gAudioPlaying = true ∧
    (wait_for_gpio_press (playing_state 0) press_gpio).2.1.gInterruptAIResponse = true ∧
    (wait_for_gpio_press (playing_state 0) press_gpio).2.1.gAudioPlaying = false ∧
    (wait_for_gpio_press (playing_state 0) press_gpio).2.1.gAudioInterrupted = true :=
  ⟨by decide, rfl, (gpio_press_edge (playing_state 0) press_gpio (by decide)).2.1 (Or.inl rfl),
    ((gpio_press_edge (playing_state 0) press_gpio (by decide)).2.2.2.1 rfl).2.1,
    ((gpio_press_edge (playing_state 0) press_gpio (by decide)).2.2.2.1 rfl).2.2.1⟩

/-! ## Framing of the voice upload -/

theorem file_slices_nil (d : List Nat) (h : d.length = 0) : file_slices d = [] := by
  rw [file_slices]
  simp [h]

theorem file_slices_cons (d : List Nat) (h : 0 < d.length) :
    file_slices d = d.take 1024 :: file_slices (d.drop 1024) := by
  rw [file_slices]
  have : (d.take 1024).length > 0 := by simp only [List.length_take]; omega
  simp only [this, dite_true]

theorem file_slices_facts (n : Nat) :
    ∀ d : List Nat, d.length ≤ n →
      (file_slices d).length = (d.length + 1023) / 1024 ∧
      (∀ c ∈ file_slices d, 0 < c.length ∧ c.length ≤ 1024) ∧
      (∀ c ∈ (file_slices d).dropLast, c.length = 1024) ∧
      (file_slices d).flatten = d := by
  induction n with
  | zero =>
    intro d h
    have h0 : d.length = 0 := by omega
    rw [file_slices_nil d h0]
    have : d = [] := List.length_eq_zero.1 h0
    subst this
    simp
  | succ n ih =>
    intro d h
    by_cases h0 : d.length = 0
    · rw [file_slices_nil d h0]
      have : d = [] := List.length_eq_zero.1 h0
      subst this
      simp
    · have hpos : 0 < d.length := by omega
      rw [file_slices_cons d hpos]
      have hdrop : (d.drop 1024).length ≤ n := by
        simp only [List.length_drop]; omega
      obtain ⟨i1, i2, i3, i4⟩ := ih _ hdrop
      refine ⟨?_, ?_, ?_, ?_⟩
      · rw [List.length_cons, i1, List.length_drop]
        omega
      · intro c hc
        rcases List.mem_cons.1 hc with rfl | hc
        · simp only [List.length_take]; omega
        · exact i2 c hc
      · intro c hc
        by_cases hrest : (d.drop 1024).length = 0
        · rw [file_slices_nil _ hrest] at hc
          simp at hc
        · have hne : file_slices (d.drop 1024) ≠ [] := by
            intro hnil
            have := congrArg List.length hnil
            rw [i1] at this
            simp only [List.length_nil] at this
            omega
          rw [List.dropLast_cons_of_ne_nil hne] at hc
          rcases List.mem_cons.1 hc with rfl | hc
          · simp only [List.length_take, List.length_drop] at hrest ⊢
            omega
          · exact i3 c hc
      · rw [List.flatten_cons, i4, List.take_append_drop]

/-- A frame sent on a connection with room for it: the call succeeds and the bytes written
are those of the frame. -/
theorem socket_send_message_full (sock : Socket) (t : Nat) (p : List Nat)
    (hroom : 5 + p.length ≤ sock.tx_room) :
    socket_send_message sock t p
      = (RK_SUCCESS, { sock with tx := sock.tx ++ wire t p,
                                 tx_room := sock.tx_room - (5 + p.length) }) := by
  rw [wire_eq]
  unfold socket_send_message
  simp only [and_ff, Nat.shiftRight_eq_div_pow]
  rw [send_all sock _ (by simp; omega)]
  by_cases hp : p.length > 0
  · simp only [List.length_cons, List.length_nil]
    rw [send_all _ p (by simp; omega)]
    simp [hp, Nat.sub_sub]
  · have : p = [] := List.length_eq_zero.1 (by omega)
    subst this
    simp

/-- The sending loop with the exit flag clear and room for every frame: one VOICE_DATA frame
is written per slice, in order, and the counters grow by the number of slices and of
bytes. -/
theorem voice_data_loop_ok (s : State) (hexit : s.gRecorderExit = false) (n : Nat) :
    ∀ (sock : Socket) (u : VoiceCtx) (file : List Nat), file.length ≤ n →
      file.length + 5 * (file_slices file).length ≤ sock.tx_room →
      voice_data_loop sock s u file
        = (none,
            { sock with
              tx := sock.tx ++ wire_frames ((file_slices file).map (fun c => (MSG_VOICE_DATA, c)))
              tx_room := sock.tx_room - (file.length + 5 * (file_slices file).length) },
            { u with
              voice_data_packets := u.voice_data_packets + (file_slices file).length
              total_voice_bytes := u.total_voice_bytes + file.length }) := by
  induction n with
  | zero =>
    intro sock u file h _
    have h0 : file.length = 0 := by omega
    have hnil : file = [] := List.length_eq_zero.1 h0
    subst hnil
    rw [voice_data_loop, file_slices_nil [] rfl]
    simp [wire_frames]
  | succ n ih =>
    intro sock u file h hroom
    by_cases h0 : file.length = 0
    · have hnil : file = [] := List.length_eq_zero.1 h0
      subst hnil
      rw [voice_data_loop, file_slices_nil [] rfl]
      simp [wire_frames]
    · have hpos : 0 < file.length := by omega
      have htl : (file.take 1024).length > 0 := by simp only [List.length_take]; omega
      have hsplit : (file.take 1024).length + (file.drop 1024).length = file.length := by
        simp only [List.length_take, List.length_drop]; omega
      rw [file_slices_cons file hpos] at hroom ⊢
      rw [List.length_cons] at hroom
      rw [voice_data_loop]
      simp only [htl, dite_true]
      rw [socket_send_message_full sock MSG_VOICE_DATA (file.take 1024) (by omega)]
      simp only [ne_eq, not_true_eq_false, if_false, hexit, Bool.false_eq_true]
      rw [ih _ _ (file.drop 1024) (by simp only [List.length_drop]; omega)
        (by simp only []; omega)]
      simp only [List.map_cons, wire_frames, List.length_cons, List.append_assoc,
        Prod.mk.injEq, true_and]
      constructor
      · congr 1
        omega
      · congr 1 <;> omega

/-- C23: for every voice file content, with upload enabled, an output path set, the file
opening, the exit flag clear and room on the connection for every frame (so that every send
succeeds), `send_voice_file_to_socket_server` returns success having written exactly one
VOICE_START frame with empty payload, then one VOICE_DATA frame per slice of the file in file
order, then one VOICE_END frame with empty payload. The slices are consecutive pieces of
1024 bytes, the last possibly shorter, none empty (so none for an empty file): there are
ceil(n / 1024) of them and their concatenation is the file. The voice byte counter grows by
the file length and the packet counter by the number of slices. -/
theorem voice_file_framing (sock : Socket) (s : State) (u : VoiceCtx) (content : List Nat)
    (hup : u.s32EnableUpload = true) (hpath : u.outputFilePath = true)
    (hfile : u.file = some content) (hexit : s.gRecorderExit = false)
    (hroom : 10 + content.length + 5 * ((content.length + 1023) / 1024) ≤ sock.tx_room) :
    (send_voice_file_to_socket_server sock s u).1 = RK_SUCCESS ∧
    (send_voice_file_to_socket_server sock s u).2.1.tx
      = sock.tx ++ (wire MSG_VOICE_START [] ++
          (wire_frames ((file_slices content).map (fun c => (MSG_VOICE_DATA, c))) ++
            wire MSG_VOICE_END [])) ∧
    (file_slices content).length = (content.length + 1023) / 1024 ∧
    (∀ c ∈ file_slices content, 0 < c.length ∧ c.length ≤ 1024) ∧
    (∀ c ∈ (file_slices content).dropLast, c.length = 1024) ∧
    (file_slices content).flatten = content ∧
    (send_voice_file_to_socket_server sock s u).2.2.total_voice_bytes
      = u.total_voice_bytes + content.length ∧
    (send_voice_file_to_socket_server sock s u).2.2.voice_data_packets
      = u.voice_data_packets + (file_slices content).length := by
  obtain ⟨c1, c2, c3, c4⟩ := file_slices_facts _ content (le_refl _)
  have hrun : send_voice_file_to_socket_server sock s u
      = (RK_SUCCESS,
          { sock with
            tx := sock.tx ++ (wire MSG_VOICE_START [] ++
              (wire_frames ((file_slices content).map (fun c => (MSG_VOICE_DATA, c))) ++
                wire MSG_VOICE_END []))
            tx_room := sock.tx_room
              - (10 + content.length + 5 * (file_slices content).length) },
          { u with
            voice_data_packets := u.voice_data_packets + (file_slices content).length
            total_voice_bytes := u.total_voice_bytes + content.length }) := by
    unfold send_voice_file_to_socket_server
    simp only [hup, hpath, hfile, Bool.not_true, Bool.or_self, Bool.false_eq_true, if_false]
    rw [socket_send_message_full sock MSG_VOICE_START [] (by simp only [List.length_nil]; omega)]
    simp only [ne_eq, not_true_eq_false, if_false]
    rw [voice_data_loop_ok s hexit _ _ u content (le_refl _)
      (by simp only [List.length_nil]; omega)]
    simp only []
    rw [socket_send_message_full _ MSG_VOICE_END [] (by simp only [List.length_nil]; omega)]
    simp only [ne_eq, not_true_eq_false, if_false, List.append_assoc, List.length_nil,
      Prod.mk.injEq, true_and, and_true, Socket.mk.injEq]
    refine ⟨by omega, ?_⟩
    rw [hup, hpath, hfile]
  rw [hrun]
  exact ⟨rfl, rfl, c1, c2, c3, c4, rfl, rfl⟩

theorem voice_file_framing_witness :
    upload_ctx.s32EnableUpload = true ∧ upload_ctx.file = some [1, 2, 3, 4, 5] ∧
    idle_state.gRecorderExit = false ∧
    (send_voice_file_to_socket_server fresh_sender idle_state upload_ctx).1 = RK_SUCCESS ∧
    (send_voice_file_to_socket_server fresh_sender idle_state upload_ctx).2.1.tx
      = fresh_sender.tx ++ (wire MSG_VOICE_START [] ++
          (wire_frames ((file_slices [1, 2, 3, 4, 5]).map (fun c => (MSG_VOICE_DATA, c))) ++
            wire MSG_VOICE_END [])) :=
  ⟨rfl, rfl, rfl,
    (voice_file_framing fresh_sender idle_state upload_ctx [1, 2, 3, 4, 5] rfl rfl rfl rfl
      (by decide)).1,
    (voice_file_framing fresh_sender idle_state upload_ctx [1, 2, 3, 4, 5] rfl rfl rfl rfl
      (by decide)).2.1⟩

/-! ## The retry budget of the submission loop -/

theorem getD_tail (L : List Int) (i : Nat) : L.tail.getD i 0 = L.getD (i + 1) 0 := by
  cases L <;> simp

theorem getD_zero (L : List Int) : L.getD 0 0 = L.headD 0 := by
  cases L <;> simp

/-- The shape of one run of the submission loop: the frame is submitted k + 1 times, every
submission but the last was answered with device-busy, the result of the last submission is
returned, and each re-submission has used up one unit of what the error count leaves below
3. -/
theorem send_frame_retry_shape (n : Nat) :
    ∀ (s : State) (c : List Nat), 3 - s.error_count ≤ n →
      ∃ k : Nat,
        (send_frame_retry s c).2.ao_calls
          = s.ao_calls ++ List.replicate (k + 1) (AoCall.SendFrame c) ∧
        k + min 2 s.error_count ≤ min 2 (send_frame_retry s c).2.error_count ∧
        s.error_count ≤ (send_frame_retry s c).2.error_count ∧
        (∀ i, i < k → s.vendor.SendFrame.getD i 0 = s.vendor.RK_ERR_AO_BUSY ∧
          s.vendor.SendFrame.getD i 0 < 0) ∧
        (send_frame_retry s c).1 = s.vendor.SendFrame.getD k 0 ∧
        (send_frame_retry s c).2.vendor.RK_ERR_AO_BUSY = s.vendor.RK_ERR_AO_BUSY := by
  induction n with
  | zero =>
    intro s c hn
    refine ⟨0, ?_⟩
    rw [send_frame_retry]
    simp only [RK_MPI_AO_SendFrame, ao_call, getD_zero]
    split_ifs with h1 h2 h3 h4
    · exact absurd h3.2 (by simp only []; omega)
    · refine ⟨rfl, ?_, ?_, ?_, rfl, rfl⟩
      · simp only []; omega
      · simp only []; omega
      · intro i hi; omega
    · exact absurd h4.2 (by simp only []; omega)
    · refine ⟨rfl, ?_, ?_, ?_, rfl, rfl⟩
      · simp only []; omega
      · simp only []; omega
      · intro i hi; omega
    · refine ⟨rfl, ?_, ?_, ?_, rfl, rfl⟩
      · simp only []; omega
      · simp only []; omega
      · intro i hi; omega
  | succ n ih =>
    intro s c hn
    rw [send_frame_retry]
    simp only [RK_MPI_AO_SendFrame, ao_call]
    split_ifs with h1 h2 h3 h4
    · obtain ⟨k, e1, e2, e3, e4, e5, e6⟩ := ih
        { s with vendor := { s.vendor with SendFrame := s.vendor.SendFrame.tail },
                 ao_calls := s.ao_calls ++ [AoCall.SendFrame c],
                 error_count := s.error_count + 1 } c (by simp only []; omega)
      refine ⟨k + 1, ?_, ?_, ?_, ?_, ?_, e6⟩
      · rw [e1]
        simp only [List.append_assoc, List.singleton_append, List.replicate_succ]
      · simp only [] at e2 h3
        omega
      · simp only [] at e3
        omega
      · intro i hi
        cases i with
        | zero =>
          rw [getD_zero]
          exact ⟨h3.1, h1⟩
        | succ j =>
          have := e4 j (by omega)
          simp only [getD_tail] at this
          exact this
      · rw [e5]
        simp only [getD_tail]
    · refine ⟨0, rfl, ?_, ?_, ?_, (getD_zero _).symm, rfl⟩
      · simp only []; omega
      · simp only []; omega
      · intro i hi; omega
    · exact absurd h4.2 (by simp only []; omega)
    · refine ⟨0, rfl, ?_, ?_, ?_, (getD_zero _).symm, rfl⟩
      · simp only []; omega
      · simp only []; omega
      · intro i hi; omega
    · refine ⟨0, rfl, ?_, ?_, ?_, (getD_zero _).symm, rfl⟩
      · simp only []; omega
      · simp only []; omega
      · intro i hi; omega

theorem play_empty (s : State) (d : List Nat) (h : d.length = 0) :
    play_audio_buffer s d = (RK_SUCCESS, s) := by
  unfold play_audio_buffer play_audio_buffer_body
  simp [h]

theorem play_small_leaf (s : State) (c : List Nat) (hc : c.length ≤ 4096) :
    play_audio_buffer s c = play_audio_buffer_leaf s c :=
  play_audio_buffer_body_short _ _ s c hc

/-- The shape of one call of `play_audio_buffer` on at most 4096 bytes, in any state: the
frame is submitted k times (not at all when the call returns before the submission loop),
every submission but the last was answered with device-busy, the result of the last one is
returned, and the re-submissions have used up what the error count leaves below 3. -/
theorem play_small_shape (s : State) (c : List Nat) (hc : c.length ≤ 4096) :
    ∃ k : Nat,
      (play_audio_buffer s c).2.ao_calls
        = s.ao_calls ++ List.replicate k (AoCall.SendFrame c) ∧
      (k - 1) + min 2 s.error_count ≤ min 2 (play_audio_buffer s c).2.error_count ∧
      s.error_count ≤ (play_audio_buffer s c).2.error_count ∧
      (∀ i, i + 1 < k → s.vendor.SendFrame.getD i 0 = s.vendor.RK_ERR_AO_BUSY ∧
        s.vendor.SendFrame.getD i 0 < 0) ∧
      (0 < k → (play_audio_buffer s c).1 = s.vendor.SendFrame.getD (k - 1) 0) := by
  have hidle : (play_audio_buffer s c).2 = s →
      ∃ k : Nat,
        (play_audio_buffer s c).2.ao_calls
          = s.ao_calls ++ List.replicate k (AoCall.SendFrame c) ∧
        (k - 1) + min 2 s.error_count ≤ min 2 (play_audio_buffer s c).2.error_count ∧
        s.error_count ≤ (play_audio_buffer s c).2.error_count ∧
        (∀ i, i + 1 < k → s.vendor.SendFrame.getD i 0 = s.vendor.RK_ERR_AO_BUSY ∧
          s.vendor.SendFrame.getD i 0 < 0) ∧
        (0 < k → (play_audio_buffer s c).1 = s.vendor.SendFrame.getD (k - 1) 0) := by
    intro h
    refine ⟨0, ?_, ?_, ?_, ?_, ?_⟩
    · rw [h]; simp
    · rw [h]; omega
    · rw [h]
    · intro i hi; omega
    · intro h0; omega
  by_cases h0 : c.length = 0
  · exact hidle (by rw [play_empty s c h0])
  by_cases hp : s.gAudioPlaying = true
  swap
  · exact hidle (by rw [play_not_playing s c (by simpa using hp)])
  by_cases hi : s.bInitialized = true
  swap
  · exact hidle (play_uninit s c (by simpa using hi))
  have key : ∀ s1 : State, s1.vendor = s.vendor → s1.ao_calls = s.ao_calls →
      s1.error_count = s.error_count → ∀ out : Int × State,
      ((if (RK_MPI_SYS_CreateMB { s1 with timeStamp := s1.timeStamp + 1 }).1 ≠ RK_SUCCESS then
        (RK_FAILURE, (RK_MPI_SYS_CreateMB { s1 with timeStamp := s1.timeStamp + 1 }).2)
      else
        ((send_frame_retry
            (RK_MPI_SYS_CreateMB { s1 with timeStamp := s1.timeStamp + 1 }).2 c).1,
          if (send_frame_retry
              (RK_MPI_SYS_CreateMB { s1 with timeStamp := s1.timeStamp + 1 }).2 c).1
              = RK_SUCCESS then
            { (send_frame_retry
                (RK_MPI_SYS_CreateMB { s1 with timeStamp := s1.timeStamp + 1 }).2 c).2 with
              audio_segments_played :=
                (send_frame_retry
                  (RK_MPI_SYS_CreateMB { s1 with timeStamp := s1.timeStamp + 1 }).2
                  c).2.audio_segments_played + 1 }
          else
            (send_frame_retry
              (RK_MPI_SYS_CreateMB { s1 with timeStamp := s1.timeStamp + 1 }).2 c).2)) :
        Int × State) = out →
      ∃ k : Nat,
        out.2.ao_calls = s.ao_calls ++ List.replicate k (AoCall.SendFrame c) ∧
        (k - 1) + min 2 s.error_count ≤ min 2 out.2.error_count ∧
        s.error_count ≤ out.2.error_count ∧
        (∀ i, i + 1 < k → s.vendor.SendFrame.getD i 0 = s.vendor.RK_ERR_AO_BUSY ∧
          s.vendor.SendFrame.getD i 0 < 0) ∧
        (0 < k → out.1 = s.vendor.SendFrame.getD (k - 1) 0) := by
    intro s1 hv ha he out hout
    by_cases hm : (RK_MPI_SYS_CreateMB { s1 with timeStamp := s1.timeStamp + 1 }).1
        ≠ RK_SUCCESS
    · rw [if_pos hm] at hout
      subst hout
      refine ⟨0, ?_, ?_, ?_, ?_, ?_⟩
      · show s1.ao_calls = _
        rw [ha]; simp
      · show 0 - 1 + min 2 s.error_count ≤ min 2 s1.error_count
        rw [he]; omega
      · show s.error_count ≤ s1.error_count
        rw [he]
      · intro i hi; omega
      · intro h0; omega
    · rw [if_neg hm] at hout
      generalize hmm : (RK_MPI_SYS_CreateMB { s1 with timeStamp := s1.timeStamp + 1 }).2 = m
        at hout
      have v1 : m.vendor.SendFrame = s.vendor.SendFrame := by rw [← hmm, ← hv]; rfl
      have v2 : m.vendor.RK_ERR_AO_BUSY = s.vendor.RK_ERR_AO_BUSY := by rw [← hmm, ← hv]; rfl
      have v4 : m.ao_calls = s.ao_calls := by rw [← hmm, ← ha]; rfl
      have v5 : m.error_count = s.error_count := by rw [← hmm, ← he]; rfl
      obtain ⟨k, e1, e2, e3, e4, e5, -⟩ := send_frame_retry_shape _ m c (le_refl _)
      rw [v4] at e1
      rw [v5] at e2 e3
      rw [v1, v2] at e4
      rw [v1] at e5
      subst hout
      refine ⟨k + 1, ?_, ?_, ?_, ?_, ?_⟩
      · simp only []
        split_ifs <;> exact e1
      · simp only [Nat.add_sub_cancel]
        split_ifs <;> exact e2
      · simp only []
        split_ifs <;> exact e3
      · intro i hi
        exact e4 i (by omega)
      · intro _
        simp only [Nat.add_sub_cancel]
        exact e5
  rw [play_small_leaf s c hc, play_audio_buffer_leaf, leaf_body _ s c hp hi (by omega) hc]
  by_cases hf : (!s.first_audio_played) = true
  · rw [if_pos hf]
    exact key { s with first_audio_played := true } rfl rfl rfl _ rfl
  · rw [if_neg hf]
    exact key s rfl rfl rfl _ rfl

/-- C21: for every call of `play_audio_buffer` on an input of at most 4096 bytes, in every
state and for every sequence of device results, the frame is submitted k times with k at
most 3, these submissions being the only device calls made (the submission loop
`send_frame_retry` is a total function, its recursion being well-founded on 3 minus the
error count). Every submission followed by another one was answered with the negative
device-busy result; a submission answered with anything else is the last, and its result is
the one returned. -/
theorem submission_bounded (s : State) (d : List Nat) (hd : d.length ≤ 4096) :
    ∃ k : Nat, k ≤ 3 ∧
      (play_audio_buffer s d).2.ao_calls
        = s.ao_calls ++ List.replicate k (AoCall.SendFrame d) ∧
      (∀ i, i + 1 < k → s.vendor.SendFrame.getD i 0 = s.vendor.RK_ERR_AO_BUSY ∧
        s.vendor.SendFrame.getD i 0 < 0) ∧
      (∀ j, j < k → s.vendor.SendFrame.getD j 0 ≠ s.vendor.RK_ERR_AO_BUSY → j + 1 = k) ∧
      (0 < k → (play_audio_buffer s d).1 = s.vendor.SendFrame.getD (k - 1) 0) := by
  obtain ⟨k, e1, e2, -, e4, e5⟩ := play_small_shape s d hd
  refine ⟨k, by omega, e1, e4, ?_, e5⟩
  intro j hj hne
  by_contra hlast
  exact hne (e4 j (by omega)).1

theorem submission_bounded_witness :
    [1, 2, 3].length ≤ 4096 ∧
    ∃ k : Nat, k ≤ 3 ∧
      (play_audio_buffer busy_state [1, 2, 3]).2.ao_calls
        = busy_state.ao_calls ++ List.replicate k (AoCall.SendFrame [1, 2, 3]) ∧
      (∀ i, i + 1 < k →
        busy_state.vendor.SendFrame.getD i 0 = busy_state.vendor.RK_ERR_AO_BUSY ∧
        busy_state.vendor.SendFrame.getD i 0 < 0) ∧
      (∀ j, j < k →
        busy_state.vendor.SendFrame.getD j 0 ≠ busy_state.vendor.RK_ERR_AO_BUSY → j + 1 = k) ∧
      (0 < k →
        (play_audio_buffer busy_state [1, 2, 3]).1
          = busy_state.vendor.SendFrame.getD (k - 1) 0) :=
  ⟨by decide, submission_bounded busy_state [1, 2, 3] (by decide)⟩

theorem play_sequence_cons (s : State) (d : List Nat) (ds : List (List Nat)) :
    play_sequence s (d :: ds) = play_sequence (play_audio_buffer s d).2 ds := rfl

theorem play_sequence_append (xs ys : List (List Nat)) :
    ∀ s : State, play_sequence s (xs ++ ys) = play_sequence (play_sequence s xs) ys := by
  intro s
  simp [play_sequence, List.foldl_append]

/-- Over a sequence of calls on at most 4096 bytes each, the re-submissions use up what the
error count leaves below 3, and the error count never decreases. -/
theorem total_resubmissions_budget (cs : List (List Nat)) :
    ∀ s : State, (∀ c ∈ cs, c.length ≤ 4096) →
      total_resubmissions s cs + min 2 s.error_count ≤ min 2 (play_sequence s cs).error_count ∧
      s.error_count ≤ (play_sequence s cs).error_count := by
  induction cs with
  | nil => intro s _; exact ⟨by simp [total_resubmissions, play_sequence], le_refl _⟩
  | cons c cs ih =>
    intro s h
    obtain ⟨k, e1, e2, e3, -, -⟩ := play_small_shape s c (h c (List.mem_cons_self _ _))
    obtain ⟨i1, i2⟩ := ih (play_audio_buffer s c).2 (fun x hx => h x (List.mem_cons_of_mem _ hx))
    have hres : resubmissions s c = k - 1 := by
      unfold resubmissions
      rw [e1, List.length_append, List.length_replicate]
      omega
    rw [play_sequence_cons, total_resubmissions, hres]
    exact ⟨by omega, by omega⟩

theorem play_sequence_idle (cs : List (List Nat)) (s : State)
    (h : ∀ c, (play_audio_buffer s c).2 = s) : play_sequence s cs = s := by
  induction cs with
  | nil => rfl
  | cons c cs ih => rw [play_sequence_cons, h c, ih]

theorem play_chunks_sequence (n : Nat) :
    ∀ (s : State) (d : List Nat) (o : Int), d.length ≤ n →
      (play_chunks play_audio_buffer_leaf s d o).2 = play_sequence s (chunks4096 d) := by
  induction n with
  | zero =>
    intro s d o h
    have h0 : d.length = 0 := by omega
    rw [play_chunks, chunks4096_nil d h0]
    simp [h0, play_sequence]
  | succ n ih =>
    intro s d o h
    by_cases h0 : d.length = 0
    · rw [play_chunks, chunks4096_nil d h0]
      simp [h0, play_sequence]
    · have hpos : 0 < d.length := by omega
      rw [play_chunks_step _ s d o hpos, chunks4096_cons d hpos, play_sequence_cons,
        play_small_leaf s (d.take 4096) (by simp only [List.length_take]; omega)]
      exact ih _ _ _ (by simp only [List.length_drop]; omega)

/-- A call of `play_audio_buffer` on any input leaves the state that the calls on its
chunks, made one after the other, leave. -/
theorem play_as_sequence (s : State) (d : List Nat) :
    (play_audio_buffer s d).2 = play_sequence s (chunks4096 d) := by
  by_cases hbig : d.length > 4096
  swap
  · by_cases h0 : d.length = 0
    · rw [play_empty s d h0, chunks4096_nil d h0]
      rfl
    · rw [chunks4096_single d (by omega) (by omega)]
      rfl
  by_cases hp : s.gAudioPlaying = true
  swap
  · have hp0 : s.gAudioPlaying = false := by simpa using hp
    rw [play_sequence_idle _ s (fun c => by rw [play_not_playing s c hp0]),
      play_not_playing s d hp0]
  by_cases hi : s.bInitialized = true
  swap
  · have hi0 : s.bInitialized = false := by simpa using hi
    rw [play_sequence_idle _ s (fun c => play_uninit s c hi0), play_uninit s d hi0]
  rw [play_big_body s d hbig hp hi]
  by_cases hf : (!s.first_audio_played) = true
  · rw [if_pos hf, play_chunks_sequence _ _ d _ (le_refl _), chunks4096_cons d (by omega),
      play_sequence_cons, play_sequence_cons]
    have hlen0 : 0 < (d.take 4096).length := by simp only [List.length_take]; omega
    have hlen : (d.take 4096).length ≤ 4096 := by simp only [List.length_take]; omega
    have hsame : play_audio_buffer { s with first_audio_played := true } (d.take 4096)
        = play_audio_buffer s (d.take 4096) := by
      rw [play_small_leaf _ _ hlen, play_small_leaf _ _ hlen, play_audio_buffer_leaf,
        play_audio_buffer_leaf, leaf_body _ s _ hp hi hlen0 hlen,
        leaf_body _ { s with first_audio_played := true } _ hp hi hlen0 hlen, if_pos hf]
      rfl
    rw [hsame]
  · rw [if_neg hf, play_chunks_sequence _ _ d _ (le_refl _)]

theorem chunks4096_small (d : List Nat) : ∀ c ∈ chunks4096 d, c.length ≤ 4096 :=
  (chunks4096_facts _ d (le_refl _)).2.1

theorem play_error_count_mono (s : State) (d : List Nat) :
    s.error_count ≤ (play_audio_buffer s d).2.error_count := by
  rw [play_as_sequence s d]
  exact (total_resubmissions_budget _ s (chunks4096_small d)).2

theorem dispatcher_play_error_ge (s : State) (blk : List Nat) (a : Nat)
    (h : a ≤ s.error_count) : a ≤ (dispatcher_play s blk).error_count :=
  le_trans h (play_error_count_mono s blk)

theorem setup_error_count (s : State) :
    (setup_audio_playback s).2.error_count = s.error_count := by
  unfold setup_audio_playback
  simp only [RK_MPI_AO_SetPubAttr, RK_MPI_AO_Enable, RK_MPI_AO_SetChnParams, RK_MPI_AO_EnableChn,
    ao_call]
  split_ifs <;> rfl

theorem cleanup_error_count (s : State) :
    (cleanup_audio_playback s).2.error_count = s.error_count := by
  unfold cleanup_audio_playback
  cases h : s.bInitialized <;> simp [set_audio_playing_state, ao_call]

theorem interrupt_error_count (s : State) :
    (interrupt_audio_playback s).2.error_count = s.error_count := by
  unfold interrupt_audio_playback
  cases hp : s.gAudioPlaying <;> cases hb : s.bInitialized <;> simp [ao_call]

theorem prm_error_count_mono (s : State) (t : Nat) (p : List Nat) :
    s.error_count ≤ (process_received_message s t p).2.error_count := by
  obtain ⟨-, e | ⟨-, e⟩ | ⟨-, e⟩ | ⟨-, e⟩ | ⟨-, e⟩ | ⟨-, e⟩ | ⟨-, e⟩ | ⟨-, e⟩⟩ :=
    prm_cases s t p
  · rw [e]
  · rw [e]
    unfold case_MSG_AUDIO_DATA
    dsimp only
    split_ifs <;> first
      | exact le_refl _
      | exact dispatcher_play_error_ge _ _ _ (le_refl _)
  · rw [e]
  · rw [e]
  · rw [e]
    unfold case_MSG_AUDIO_START
    generalize hs0 : ({ s with audio_buffer_size := 0 } : State) = s0
    have e0 : s0.error_count = s.error_count := by rw [← hs0]
    have f0 := setup_error_count s0
    dsimp only
    split_ifs
    · show s.error_count ≤ (setup_audio_playback s0).2.error_count
      rw [f0, e0]
    · rw [f0, e0]
    · rw [e0]
  · rw [e]
    unfold case_MSG_AUDIO_END
    have hd := dispatcher_play_error_ge s (buffered s) _ (le_refl _)
    by_cases h0 : 0 < s.audio_buffer_size
    · cases hs : s.s32EnableStreaming <;> cases ha : s.audio_started <;>
        cases hb : s.bInitialized <;>
        simp [h0, hs, ha, hb, cleanup_audio_playback, set_audio_playing_state, ao_call, hd]
    · have hz : s.audio_buffer_size = 0 := by omega
      cases ha : s.audio_started <;> cases hb : s.bInitialized <;>
        simp [hz, ha, hb, cleanup_audio_playback, set_audio_playing_state, ao_call]
  · rw [e]
    unfold case_MSG_ERROR
    cases ha : s.audio_started <;> cases hb : s.bInitialized <;>
      simp [ha, hb, cleanup_audio_playback, set_audio_playing_state, ao_call]
  · rw [e]
    unfold case_MSG_AI_CANCELLED
    cases ha : s.audio_started <;> cases hb : s.bInitialized <;>
      simp [ha, hb, cleanup_audio_playback, set_audio_playing_state, ao_call]

theorem run_ops_error_count_mono (ops : List PlaybackOp) :
    ∀ s : State, s.error_count ≤ (run_ops s ops).error_count := by
  induction ops with
  | nil => intro s; exact le_refl _
  | cons op ops ih =>
    intro s
    refine le_trans ?_ (ih (run_op s op))
    cases op with
    | set_playing b =>
      show s.error_count ≤ (set_audio_playing_state s b).error_count
      unfold set_audio_playing_state
      cases b <;> exact le_refl _
    | interrupt => exact le_of_eq (interrupt_error_count s).symm
    | cleanup => exact le_of_eq (cleanup_error_count s).symm
    | frame t p => exact prm_error_count_mono s t p

/-- C30: the retry budget of `play_audio_buffer` is shared by all calls and never
replenished. Over every sequence of calls on at most 4096 bytes each, started in any state,
the re-submissions made in total are at most what the error count leaves below 2 at the
start, hence at most two in all; the error count never decreases, neither over the play
calls nor over any sequence of controller calls, teardowns and dispatched frames; and once it
has reached 3 no call submits its frame again, whatever the device answers. Every sequence
of calls on inputs of any size leaves the state that the sequence of calls on their chunks
leaves, each chunk having at most 4096 bytes, so the bound covers every sequence of play
calls. -/
theorem retry_budget_shared (s : State) (ds cs : List (List Nat)) (ops : List PlaybackOp)
    (hsmall : ∀ c ∈ cs, c.length ≤ 4096) :
    total_resubmissions s cs + min 2 s.error_count ≤ 2 ∧
    total_resubmissions s cs ≤ 2 ∧
    s.error_count ≤ (play_sequence s cs).error_count ∧
    s.error_count ≤ (run_ops s ops).error_count ∧
    (3 ≤ s.error_count →
      total_resubmissions s cs = 0 ∧ 3 ≤ (play_sequence s cs).error_count) ∧
    play_sequence s ds = play_sequence s (ds.map chunks4096).flatten ∧
    (∀ c ∈ (ds.map chunks4096).flatten, c.length ≤ 4096) := by
  obtain ⟨h1, h2⟩ := total_resubmissions_budget cs s hsmall
  refine ⟨by omega, by omega, h2, run_ops_error_count_mono ops s,
    fun h3 => ⟨by omega, by omega⟩, ?_, ?_⟩
  · clear h1 h2 hsmall
    induction ds generalizing s with
    | nil => rfl
    | cons d ds ih =>
      rw [play_sequence_cons, List.map_cons, List.flatten_cons, play_sequence_append,
        ← play_as_sequence s d]
      exact ih _
  · intro c hc
    rw [List.mem_flatten] at hc
    obtain ⟨l, hl, hcl⟩ := hc
    rw [List.mem_map] at hl
    obtain ⟨d, -, rfl⟩ := hl
    exact chunks4096_small d c hcl

theorem retry_budget_shared_witness :
    (∀ c ∈ [[1, 2, 3], [4, 5]], c.length ≤ 4096) ∧
    total_resubmissions busy_state [[1, 2, 3], [4, 5]] ≤ 2 ∧
    busy_state.error_count ≤ (play_sequence busy_state [[1, 2, 3], [4, 5]]).error_count :=
  ⟨by decide, (retry_budget_shared busy_state [] [[1, 2, 3], [4, 5]] [] (by decide)).2.1,
    (retry_budget_shared busy_state [] [[1, 2, 3], [4, 5]] [] (by decide)).2.2.1⟩

end AiClientSocket
